import Mathlib

/-!
The file ncrypt.dll (dlls/ncrypt/main.c): the entry points of the stub NCrypt provider

The C functions are embedded as pure functions that pass an explicit `State`:

* the C heap (`calloc`, `malloc`, `free`) is a list of cells, the block at index `k`
  having the address `k + 1` (address `0` is `NULL`); whether the next allocation
  request succeeds is read off `State.oracle`, so that every pattern of allocation
  failures is covered;
* a store through a caller-supplied output pointer (`*handle = ...`) is recorded
  in `State.out`, most recent first; a function that stores nothing leaves it alone;
* the caller's blob is the memory seen through the pointer `data`: `data i` is the
  byte at address `data + i`. The code is handed no extent for that memory apart
  from `datasize`, which it only compares with, so the memory is a total function.

Debug-channel output (`TRACE`, `FIXME`, `ERR`) is not part of the state.
Machine integers are naturals; the one place where the width matters, the DWORD
`expected_size`, is reduced modulo `2 ^ 32`.
-/

set_option linter.unusedVariables false

namespace Ncrypt

/-! ## Constants and types of the absent headers -/

/-- Modelled from the spec: winerror.h is not part of the excerpt; the status codes
are the fixed external ABI values, written as 32-bit patterns. -/
def ERROR_SUCCESS : Nat := 0

/-- Modelled from the spec: winerror.h is not part of the excerpt (fixed ABI value). -/
def NTE_BAD_FLAGS : Nat := 0x80090009

/-- Modelled from the spec: winerror.h is not part of the excerpt (fixed ABI value). -/
def NTE_BAD_DATA : Nat := 0x80090005

/-- Modelled from the spec: winerror.h is not part of the excerpt (fixed ABI value). -/
def NTE_NO_MEMORY : Nat := 0x8009000E

/-- Modelled from the spec: winerror.h is not part of the excerpt (fixed ABI value). -/
def NTE_INVALID_PARAMETER : Nat := 0x80090027

/-- Modelled from the spec: winerror.h is not part of the excerpt (fixed ABI value). -/
def NTE_NOT_SUPPORTED : Nat := 0x80090029

/-- Modelled from the spec: windef.h is not part of the excerpt; `FALSE` is `0`. -/
def FALSE : Nat := 0

/-- Modelled from the spec: ncrypt.h is not part of the excerpt (fixed ABI value). -/
def NCRYPT_SILENT_FLAG : Nat := 0x40

/-- Modelled from the spec: bcrypt.h is not part of the excerpt; the magic of an RSA
public key blob is the fixed ABI value (the characters RSA1). -/
def BCRYPT_RSAPUBLIC_MAGIC : Nat := 0x31415352

/-- Modelled from the spec: bcrypt.h is not part of the excerpt; BCRYPT_RSAKEY_BLOB is
the fixed ABI layout of six ULONG fields (Magic, BitLength, cbPublicExp, cbModulus,
cbPrime1, cbPrime2), hence 24 bytes. This is `sizeof(*rsaheader)`. -/
def sizeof_BCRYPT_RSAKEY_BLOB : Nat := 24

/-- Modelled from the spec: ncrypt_internal.h is not part of the excerpt; enumerator
`KEY` of `enum object_type`. No result below depends on its numeric value. -/
def KEY : Nat := 0

/-- Modelled from the spec: ncrypt_internal.h is not part of the excerpt; enumerator
`STORAGE_PROVIDER` of `enum object_type`. No result below depends on its value. -/
def STORAGE_PROVIDER : Nat := 1

/-- Modelled from the spec: ncrypt_internal.h is not part of the excerpt; enumerator
`RSA` of `enum key_algorithm`. No result below depends on its numeric value. -/
def RSA : Nat := 3

/-- Modelled from the spec: ncrypt_internal.h is not part of the excerpt; `struct rsa_key`
with the fields main.c accesses. Sizes are DWORDs, the two buffers are heap pointers. -/
structure rsa_key where
  public_exp_size : Nat
  public_exp : Nat
  modulus_size : Nat
  modulus : Nat
deriving DecidableEq

/-- Modelled from the spec: ncrypt_internal.h is not part of the excerpt; `struct key`
with the fields main.c accesses (`alg` and the member `rsa`). -/
structure key where
  alg : Nat
  rsa : rsa_key
deriving DecidableEq

/-- Modelled from the spec: ncrypt_internal.h is not part of the excerpt; `struct object`
with the fields main.c accesses (`type` and the member `key`). -/
structure object where
  type : Nat
  key : key
deriving DecidableEq

/-- The object `calloc` hands out: every field zero. -/
def zero_object : object :=
  { type := 0, key := { alg := 0, rsa := { public_exp_size := 0, public_exp := 0, modulus_size := 0, modulus := 0 } } }

/-! ## Heap and output stores -/

/-- A heap block: a `struct object`, or a byte buffer (`none` is a byte that was
never written, as after `malloc`). -/
inductive block where
  | obj (o : object)
  | bytes (b : List (Option Nat))
deriving DecidableEq

/-- Program state: heap cells (`none` is a freed block), the outcomes of the coming
allocation requests, and the stores made through output pointers (latest first). -/
structure State where
  cells : List (Option block)
  oracle : List Bool
  out : List (Nat × Nat)
deriving DecidableEq

/-- The live block at address `p`, if any. -/
def State.load (s : State) (p : Nat) : Option block :=
  if p = 0 then none else s.cells.getD (p - 1) none

/-- Overwrite the cell at address `p`. -/
def State.store (s : State) (p : Nat) (b : Option block) : State :=
  if p = 0 then s else { s with cells := s.cells.set (p - 1) b }

/-- One assignment to a field of the `struct object` at address `p`. -/
def State.update (s : State) (p : Nat) (f : object → object) : State :=
  match s.load p with
  | some (block.obj o) => s.store p (some (block.obj (f o)))
  | _ => s

/-- An allocation request for a block with initial contents `b`: `NULL` (0) on failure,
otherwise the address of a new cell. -/
def alloc (s : State) (b : block) : Nat × State :=
  match s.oracle with
  | true :: rest => (s.cells.length + 1, { s with cells := s.cells ++ [some b], oracle := rest })
  | false :: rest => (0, { s with oracle := rest })
  | [] => (0, s)

/-- The call `malloc(n)`: `n` unwritten bytes. -/
def malloc (s : State) (n : Nat) : Nat × State :=
  alloc s (block.bytes (List.replicate n none))

/-- The call `free(p)`. -/
def free (s : State) (p : Nat) : State :=
  s.store p none

/-- The call `memcpy(dst, src, n)` from caller memory `src` into the heap buffer at `dst`. -/
def memcpy (s : State) (dst : Nat) (src : Nat → Nat) (n : Nat) : State :=
  match s.load dst with
  | some (block.bytes old) =>
      s.store dst (some (block.bytes ((List.range n).map (fun i => some (src i)) ++ old.drop n)))
  | _ => s

/-- The store `*p = v` through an output pointer. -/
def State.write (s : State) (p v : Nat) : State :=
  { s with out := (p, v) :: s.out }

/-! ## Reading the blob -/

/-- The byte at `data[i]`. -/
def byte (data : Nat → Nat) (i : Nat) : Nat :=
  data i % 256

/-- A ULONG field at byte offset `off` (little endian). -/
def read_ULONG (data : Nat → Nat) (off : Nat) : Nat :=
  byte data off + 256 * byte data (off + 1) + 65536 * byte data (off + 2)
    + 16777216 * byte data (off + 3)

/-- The field `header->Magic` (offset 0). -/
def Magic (data : Nat → Nat) : Nat := read_ULONG data 0

/-- The field `rsaheader->cbPublicExp` (offset 8). -/
def cbPublicExp (data : Nat → Nat) : Nat := read_ULONG data 8

/-- The field `rsaheader->cbModulus` (offset 12). -/
def cbModulus (data : Nat → Nat) : Nat := read_ULONG data 12

/-- The DWORD `expected_size` of NCryptImportKey. -/
def expected_size (data : Nat → Nat) : Nat :=
  (sizeof_BCRYPT_RSAKEY_BLOB + cbPublicExp data + cbModulus data) % 2 ^ 32

/-- The `n` bytes of `data` from offset `off` on, as `memcpy` leaves them in a buffer. -/
def slice (data : Nat → Nat) (off n : Nat) : List (Option Nat) :=
  (List.range n).map (fun i => some (byte data (off + i)))

/-! ## The entry points -/

/-- The function `allocate_object`. -/
def allocate_object (type : Nat) (s : State) : Nat × State :=
  let r := alloc s (block.obj zero_object)  -- calloc(1, sizeof(*ret))
  if r.1 = 0 then (0, r.2)
  else (r.1, r.2.update r.1 (fun o => { o with type := type }))

/-- The function `NCryptImportKey`; `type` is the WCHAR string (`none` for NULL),
`params`, `handle` are pointers, `data` the blob memory. Returns the status and the
state after the call. -/
def NCryptImportKey (provider decrypt_key : Nat) (type : Option (List Nat)) (params handle : Nat)
    (data : Nat → Nat) (datasize flags : Nat) (s : State) : Nat × State :=
  if decrypt_key ≠ 0 then (NTE_NOT_SUPPORTED, s)
  else if params ≠ 0 then (NTE_NOT_SUPPORTED, s)
  -- if (flags == NCRYPT_SILENT_FLAG) goes on; else if (flags) returns
  else if flags ≠ NCRYPT_SILENT_FLAG ∧ flags ≠ 0 then (NTE_BAD_FLAGS, s)
  else if Magic data = BCRYPT_RSAPUBLIC_MAGIC then
    if datasize < sizeof_BCRYPT_RSAKEY_BLOB then (NTE_BAD_DATA, s)
    else if datasize ≠ expected_size data then (NTE_BAD_DATA, s)
    else
      let a := allocate_object KEY s
      if a.1 = 0 then (NTE_NO_MEMORY, a.2)
      else
        let s1 := a.2.update a.1 (fun o => { o with key := { o.key with alg := RSA } })
        let s2 := s1.update a.1 (fun o =>
          { o with key := { o.key with rsa := { o.key.rsa with public_exp_size := cbPublicExp data } } })
        let s3 := s2.update a.1 (fun o =>
          { o with key := { o.key with rsa := { o.key.rsa with modulus_size := cbModulus data } } })
        let m1 := malloc s3 (cbPublicExp data)
        let s4 := m1.2.update a.1 (fun o =>
          { o with key := { o.key with rsa := { o.key.rsa with public_exp := m1.1 } } })
        if m1.1 = 0 then (NTE_NO_MEMORY, free s4 a.1)
        else
          let m2 := malloc s4 (cbModulus data)
          let s5 := m2.2.update a.1 (fun o =>
            { o with key := { o.key with rsa := { o.key.rsa with modulus := m2.1 } } })
          if m2.1 = 0 then (NTE_NO_MEMORY, free (free s5 m1.1) a.1)
          else
            let s6 := memcpy s5 m1.1 (fun i => byte data (sizeof_BCRYPT_RSAKEY_BLOB + i))
              (cbPublicExp data)
            let s7 := memcpy s6 m2.1
              (fun i => byte data (sizeof_BCRYPT_RSAKEY_BLOB + cbPublicExp data + i))
              (cbModulus data)
            (ERROR_SUCCESS, s7.write handle a.1)
  else (NTE_INVALID_PARAMETER, s)

/-- The stub `NCryptCreatePersistedKey`; `key` is the output pointer. -/
def NCryptCreatePersistedKey (provider key : Nat) (algid name : Option (List Nat))
    (keyspec flags : Nat) (s : State) : Nat × State :=
  (NTE_NOT_SUPPORTED, s)

/-- The stub `NCryptDecrypt`; `output` and `result` are output pointers. -/
def NCryptDecrypt (key input insize padding output outsize result flags : Nat) (s : State) :
    Nat × State :=
  (NTE_NOT_SUPPORTED, s)

/-- The stub `NCryptDeleteKey`. -/
def NCryptDeleteKey (key flags : Nat) (s : State) : Nat × State :=
  (NTE_NOT_SUPPORTED, s)

/-- The stub `NCryptEncrypt`; `output` and `result` are output pointers. -/
def NCryptEncrypt (key input insize padding output outsize result flags : Nat) (s : State) :
    Nat × State :=
  (NTE_NOT_SUPPORTED, s)

/-- The stub `NCryptEnumAlgorithms`; `alg_count` and `alg_list` are output pointers. -/
def NCryptEnumAlgorithms (provider alg_ops alg_count alg_list flags : Nat) (s : State) :
    Nat × State :=
  (NTE_NOT_SUPPORTED, s)

/-- The stub `NCryptEnumKeys`; `key_name` and `enum_state` are output pointers. -/
def NCryptEnumKeys (provider : Nat) (scope : Option (List Nat)) (key_name enum_state flags : Nat)
    (s : State) : Nat × State :=
  (NTE_NOT_SUPPORTED, s)

/-- The stub `NCryptFinalizeKey`. -/
def NCryptFinalizeKey (key flags : Nat) (s : State) : Nat × State :=
  (NTE_NOT_SUPPORTED, s)

/-- The stub `NCryptFreeBuffer`. -/
def NCryptFreeBuffer (buf : Nat) (s : State) : Nat × State :=
  (NTE_NOT_SUPPORTED, s)

/-- The stub `NCryptFreeObject`. -/
def NCryptFreeObject (object : Nat) (s : State) : Nat × State :=
  (NTE_NOT_SUPPORTED, s)

/-- The stub `NCryptGetProperty`; `output` and `result` are output pointers. -/
def NCryptGetProperty (object : Nat) (property : Option (List Nat))
    (output outsize result flags : Nat) (s : State) : Nat × State :=
  (NTE_NOT_SUPPORTED, s)

/-- The stub `NCryptIsAlgSupported`. -/
def NCryptIsAlgSupported (provider : Nat) (algid : Option (List Nat)) (flags : Nat) (s : State) :
    Nat × State :=
  (NTE_NOT_SUPPORTED, s)

/-- The stub `NCryptIsKeyHandle`: the BOOL it returns and the state after the call. -/
def NCryptIsKeyHandle (hKey : Nat) (s : State) : Nat × State :=
  (FALSE, s)

/-- The stub `NCryptOpenKey`; `key` is the output pointer. -/
def NCryptOpenKey (provider key : Nat) (name : Option (List Nat)) (keyspec flags : Nat)
    (s : State) : Nat × State :=
  (NTE_NOT_SUPPORTED, s)

/-- The function `NCryptOpenStorageProvider`; `provider` is the output pointer. -/
def NCryptOpenStorageProvider (provider : Nat) (name : Option (List Nat)) (flags : Nat)
    (s : State) : Nat × State :=
  let a := allocate_object STORAGE_PROVIDER s
  if a.1 = 0 then (NTE_NO_MEMORY, a.2)
  else (ERROR_SUCCESS, a.2.write provider a.1)

/-- The stub `NCryptSetProperty`. -/
def NCryptSetProperty (object : Nat) (property : Option (List Nat)) (input insize flags : Nat)
    (s : State) : Nat × State :=
  (NTE_NOT_SUPPORTED, s)

/-- The latest value stored through the output pointer `p`, if the state records one. -/
def State.stored (s : State) (p : Nat) : Option Nat :=
  (s.out.find? (fun e => e.1 = p)).map (fun e => e.2)

/-- The caller passes the argument checks of NCryptImportKey that come before the blob
is looked at: no decryption key, no parameters, flags 0 or NCRYPT_SILENT_FLAG. -/
def args_ok (decrypt_key params flags : Nat) : Prop :=
  decrypt_key = 0 ∧ params = 0 ∧ (flags = 0 ∨ flags = NCRYPT_SILENT_FLAG)

instance (decrypt_key params flags : Nat) : Decidable (args_ok decrypt_key params flags) := by
  unfold args_ok; infer_instance

/-- The `struct object` of a key import in progress. -/
def key_object (pe_size pe mod_size md : Nat) : object :=
  { type := KEY, key := { alg := RSA, rsa :=
      { public_exp_size := pe_size, public_exp := pe, modulus_size := mod_size, modulus := md } } }

/-- The allocation request number `k` (counted from 0) made from state `s` on succeeds.
In NCryptImportKey request 0 is the object, request 1 the public exponent buffer and
request 2 the modulus buffer. -/
def alloc_succeeds (s : State) (k : Nat) : Prop :=
  s.oracle[k]? = some true

instance (s : State) (k : Nat) : Decidable (alloc_succeeds s k) := by
  unfold alloc_succeeds; infer_instance

/-- Caller memory holding the bytes `l` from the pointer on (zero beyond them). -/
def mem (l : List Nat) : Nat → Nat :=
  fun i => l.getD i 0

/-- An RSA public key blob: Magic RSA1, BitLength 16, cbPublicExp 3, cbModulus 2, no
primes, then the exponent 01 00 01 and the modulus AB CD (29 bytes). -/
def sample_blob : List Nat :=
  [0x52, 0x53, 0x41, 0x31, 16, 0, 0, 0, 3, 0, 0, 0, 2, 0, 0, 0, 0, 0, 0, 0, 0, 0, 0, 0,
   1, 0, 1, 0xAB, 0xCD]

/-- The blob of `sample_blob` with the magic of an RSA private key (RSA2). -/
def sample_private_blob : List Nat :=
  [0x52, 0x53, 0x41, 0x32, 16, 0, 0, 0, 3, 0, 0, 0, 2, 0, 0, 0, 0, 0, 0, 0, 0, 0, 0, 0,
   1, 0, 1, 0xAB, 0xCD]

/-- An empty heap on which the next `n` allocation requests succeed and the one after
them fails. -/
def sample_state (n : Nat) : State :=
  ⟨[], List.replicate n true ++ [false], []⟩

/-- A 24-byte blob with Magic RSA1, cbPublicExp 0xFFFFFFFF and cbModulus 1: the DWORD sum
24 + cbPublicExp + cbModulus wraps around to 24. -/
def wrap_blob : List Nat :=
  [0x52, 0x53, 0x41, 0x31, 0, 0, 0, 0, 0xFF, 0xFF, 0xFF, 0xFF, 1, 0, 0, 0, 0, 0, 0, 0,
   0, 0, 0, 0]

/-- The blob of `sample_blob` with BitLength 7, cbPrime1 9 and cbPrime2 5. -/
def primes_blob : List Nat :=
  [0x52, 0x53, 0x41, 0x31, 7, 0, 0, 0, 3, 0, 0, 0, 2, 0, 0, 0, 9, 0, 0, 0, 5, 0, 0, 0,
   1, 0, 1, 0xAB, 0xCD]

end Ncrypt

/-!
The file dlls/dinput/tests/hotplug.c: the window procedures and helpers of the hotplug test

The file-scope variables `device_change_count`, `device_change_expect`,
`device_change_hwnd`, `device_change_all` and the `invoked` flags of `controller_added` and
`controller_removed` are fields of `Hotplug.State`. Every `ok( cond, ... )` appends the
check it makes and the value of `cond` to `State.oks`. The `int` counters are integers;
`device_change_count++` at `INT_MAX` is undefined in C and not modelled.
-/

namespace Hotplug

/-- Modelled from the spec: winuser.h is not part of the excerpt (fixed ABI value). -/
def WM_DEVICECHANGE : Nat := 0x0219

/-- Modelled from the spec: dbt.h is not part of the excerpt (fixed ABI value). -/
def DBT_DEVICEARRIVAL : Nat := 0x8000

/-- Modelled from the spec: dbt.h is not part of the excerpt (fixed ABI value). -/
def DBT_DEVICEREMOVECOMPLETE : Nat := 0x8004

/-- Modelled from the spec: dbt.h is not part of the excerpt (fixed ABI value). -/
def DBT_DEVTYP_DEVICEINTERFACE : Nat := 5

/-- Modelled from the spec: guiddef.h is not part of the excerpt; the fixed ABI layout of
a GUID. -/
structure GUID where
  Data1 : Nat
  Data2 : Nat
  Data3 : Nat
  Data4 : List Nat
deriving DecidableEq

/-- Modelled from the spec: the HID interface class GUID of the Windows ABI,
4D1E55B2-F16F-11CF-88CB-001111000030 (its header is not part of the excerpt). -/
def GUID_DEVINTERFACE_HID : GUID :=
  ⟨0x4D1E55B2, 0xF16F, 0x11CF, [0x88, 0xCB, 0x00, 0x11, 0x11, 0x00, 0x00, 0x30]⟩

/-- Modelled from the spec: the interface class GUID of the test bus driver, declared in a
test header that is not part of the excerpt. -/
def control_class : GUID :=
  ⟨0xdeadbeef, 0x29ef, 0x4538, [0xa5, 0xfd, 0xb6, 0x95, 0x73, 0xa3, 0x62, 0xc0]⟩

/-- Modelled from the spec: dbt.h is not part of the excerpt; the fixed ABI layout of
DEV_BROADCAST_DEVICEINTERFACE_W. `dbcc_name` holds the WCHARs of the array; the string ends
at the first NUL, and a NUL follows the list. -/
structure DEV_BROADCAST_DEVICEINTERFACE_W where
  dbcc_size : Nat
  dbcc_devicetype : Nat
  dbcc_reserved : Nat
  dbcc_classguid : GUID
  dbcc_name : List Nat
deriving DecidableEq

/-- The byte offset `offsetof( DEV_BROADCAST_DEVICEINTERFACE_W, dbcc_name[n] )`: three
DWORDs and a GUID come before the name, a WCHAR has two bytes. -/
def offsetof_dbcc_name (n : Nat) : Nat :=
  28 + 2 * n

/-- The string literal `L"\\\\?\\WINETEST#"`, that is the characters \\?\WINETEST#. -/
def prefix_winetest : List Nat :=
  [92, 92, 63, 92, 87, 73, 78, 69, 84, 69, 83, 84, 35]

/-- The string literal `L"\\\\?\\HID#"`, that is the characters \\?\HID#. -/
def prefix_hid : List Nat :=
  [92, 92, 63, 92, 72, 73, 68, 35]

/-! ## C library functions on wide strings -/

/-- The characters of the string stored in a WCHAR array: those before the first NUL. -/
def wcs (buf : List Nat) : List Nat :=
  buf.takeWhile (fun c => c ≠ 0)

/-- The call `wcslen( buf )`. -/
def wcslen (buf : List Nat) : Nat :=
  (wcs buf).length

/-- The call `wcsncmp( a, b, n )` on two strings (given by their characters, a NUL
follows each): compares at most `n` characters and stops at a NUL. -/
def wcsncmp : List Nat → List Nat → Nat → Int
  | _, _, 0 => 0
  | a, b, n + 1 =>
    if a.headD 0 ≠ b.headD 0 then (if a.headD 0 < b.headD 0 then -1 else 1)
    else if a.headD 0 = 0 then 0
    else wcsncmp a.tail b.tail n

/-- The call `wcschr( s + start, c )` for a character `c` other than NUL and a start inside
the string `s`: the index in `s` of the first `c` at or after `start`, or `none` for NULL. -/
def wcschr (s : List Nat) (start c : Nat) : Option Nat :=
  ((s.drop start).findIdx? (fun x => x = c)).map (fun i => start + i)

/-- The memory of a NUL-terminated string, indexed from its first character. -/
def wmem (s : List Nat) : Nat → Nat :=
  fun i => (s ++ [0]).getD i 0

/-! ## The helpers all_upper and all_lower -/

/-- The function `all_upper( str, end )` on the WCHAR memory `m`, run for at most `fuel`
evaluations of the loop condition `str++ != end`; `none` when they do not suffice.
`towupper` is the C library function. -/
def all_upper (towupper : Nat → Nat) (m : Nat → Nat) : Nat → Nat → Nat → Option Bool
  | 0, _, _ => none
  | fuel + 1, str, end_ =>
    if str ≠ end_ then
      (if towupper (m str) ≠ m str then some false
       else all_upper towupper m fuel (str + 1) end_)
    else some true

/-- The function `all_lower( str, end )`, as `all_upper`, with the C library function
`towlower`. -/
def all_lower (towlower : Nat → Nat) (m : Nat → Nat) : Nat → Nat → Nat → Option Bool
  | 0, _, _ => none
  | fuel + 1, str, end_ =>
    if str ≠ end_ then
      (if towlower (m str) ≠ m str then some false
       else all_lower towlower m fuel (str + 1) end_)
    else some true

/-! ## The window procedures -/

/-- The `ok` calls of the two window procedures. -/
inductive Check where
  | hwnd
  | devicetype
  | classguid
  | size
  | dbcc_name
  | upper_end
  | upper
  | lower
  | wparam
  | added_invoked
  | added_not_invoked
  | removed_not_invoked
deriving DecidableEq

/-- The file-scope variables of hotplug.c that the window procedures use, and the record
of the `ok` calls made so far (oldest first). -/
structure State where
  device_change_count : Int
  device_change_expect : Int
  device_change_hwnd : Nat
  device_change_all : Bool
  controller_added_invoked : Bool
  controller_removed_invoked : Bool
  oks : List (Check × Bool)
deriving DecidableEq

/-- The call `ok( cond, ... )` (inside `todo_wine` as well: the condition is recorded). -/
def State.ok (st : State) (c : Check) (cond : Bool) : State :=
  { st with oks := st.oks ++ [(c, cond)] }

/-- The local `expect_guid` of devnotify_wndproc. -/
def expect_guid (st : State) : GUID :=
  if st.device_change_all = true ∧ (st.device_change_count = 0 ∨ st.device_change_count = 3)
  then control_class
  else GUID_DEVINTERFACE_HID

/-- The local `expect_prefix` of devnotify_wndproc. -/
def expect_prefix (st : State) : List Nat :=
  if st.device_change_all = true ∧ (st.device_change_count = 0 ∨ st.device_change_count = 3)
  then prefix_winetest
  else prefix_hid

/-- The function `devnotify_wndproc`; `iface` is the structure `lparam` points to (looked at
for WM_DEVICECHANGE only), `DefWindowProcW`, `towupper` and `towlower` are the library
functions. The result is the LRESULT and the state after the call, or `none` where the C
code has no defined behaviour: `wcschr` started beyond the end of the name, or `all_upper`
called with a NULL end. Both helper calls get the fuel their range needs (its length plus
one), so they always return here. -/
def devnotify_wndproc (towupper towlower : Nat → Nat)
    (DefWindowProcW : Nat → Nat → Nat → Nat → Int) (st : State)
    (hwnd msg wparam lparam : Nat) (iface : DEV_BROADCAST_DEVICEINTERFACE_W) :
    Option (Int × State) :=
  if msg = WM_DEVICECHANGE then
    let name := wcs iface.dbcc_name
    let s1 := st.ok Check.hwnd (decide (hwnd = st.device_change_hwnd))
    let s2 := s1.ok Check.devicetype (decide (iface.dbcc_devicetype = DBT_DEVTYP_DEVICEINTERFACE))
    let s3 := s2.ok Check.classguid (decide (iface.dbcc_classguid = expect_guid st))
    let s4 := s3.ok Check.size
      (decide (iface.dbcc_size ≥ offsetof_dbcc_name (wcslen iface.dbcc_name + 1)))
    let s5 := s4.ok Check.dbcc_name
      (decide (wcsncmp name ( expect_prefix st) (wcslen ( expect_prefix st)) = 0))
    if wcslen iface.dbcc_name < wcslen ( expect_prefix st) then none
    else
      let name_end := wcslen iface.dbcc_name + 1
      let s6 := s5.ok Check.upper_end (wcschr name (wcslen ( expect_prefix st)) 35).isSome
      match wcschr name (wcslen ( expect_prefix st)) 35 with
      | none => none
      | some upper_end =>
        match all_upper towupper (wmem name) (upper_end + 1) 0 upper_end,
            all_lower towlower (wmem name) (name_end - upper_end + 1) upper_end name_end with
        | some u, some l =>
          let s7 := s6.ok Check.upper u
          let s8 := s7.ok Check.lower l
          let s9 :=
            if st.device_change_count ≥ st.device_change_expect.tdiv 2 then
              s8.ok Check.wparam (decide (wparam = DBT_DEVICEREMOVECOMPLETE))
            else
              s8.ok Check.wparam (decide (wparam = DBT_DEVICEARRIVAL))
          some (DefWindowProcW hwnd msg wparam lparam,
            { s9 with device_change_count := st.device_change_count + 1 })
        | _, _ => none
  else some (DefWindowProcW hwnd msg wparam lparam, st)

/-- The function `windows_gaming_input_wndproc`. -/
def windows_gaming_input_wndproc (DefWindowProcW : Nat → Nat → Nat → Nat → Int) (st : State)
    (hwnd msg wparam lparam : Nat) : Int × State :=
  if msg = WM_DEVICECHANGE then
    let s2 :=
      if st.device_change_count ≥ st.device_change_expect.tdiv 2 then
        (st.ok Check.wparam (decide (wparam = DBT_DEVICEREMOVECOMPLETE))).ok
          Check.added_invoked st.controller_added_invoked
      else
        ((st.ok Check.wparam (decide (wparam = DBT_DEVICEARRIVAL))).ok
          Check.added_not_invoked (!st.controller_added_invoked)).ok
          Check.removed_not_invoked (!st.controller_removed_invoked)
    (DefWindowProcW hwnd msg wparam lparam,
      { s2 with device_change_count := st.device_change_count + 1 })
  else (DefWindowProcW hwnd msg wparam lparam, st)

/-- A window message together with the structure its `lparam` points to. -/
structure Message where
  hwnd : Nat
  msg : Nat
  wparam : Nat
  lparam : Nat
  iface : DEV_BROADCAST_DEVICEINTERFACE_W
deriving DecidableEq

/-- The messages `msgs` dispatched one after the other to a window procedure `step`. -/
def run (step : State → Message → Option State) : State → List Message → Option State
  | st, [] => some st
  | st, m :: ms =>
    match step st m with
    | none => none
    | some st1 => run step st1 ms

/-- A message dispatched to devnotify_wndproc: the state after the call. -/
def devnotify_step (towupper towlower : Nat → Nat)
    (DefWindowProcW : Nat → Nat → Nat → Nat → Int) (st : State) (m : Message) : Option State :=
  (devnotify_wndproc towupper towlower DefWindowProcW st m.hwnd m.msg m.wparam m.lparam
    m.iface).map (fun r => r.2)

/-- A message dispatched to windows_gaming_input_wndproc: the state after the call. -/
def gaming_step (DefWindowProcW : Nat → Nat → Nat → Nat → Int) (st : State) (m : Message) :
    Option State :=
  some (windows_gaming_input_wndproc DefWindowProcW st m.hwnd m.msg m.wparam m.lparam).2

/-- The values of `cond` recorded for the check `c`, oldest first. -/
def results (c : Check) (oks : List (Check × Bool)) : List Bool :=
  (oks.filter (fun e => decide (e.1 = c))).map (fun e => e.2)

/-- A window procedure that counts each WM_DEVICECHANGE message and records one wparam
check for it: passed when the message index is below `device_change_expect / 2` and wparam
is DBT_DEVICEARRIVAL, or the index is not below it and wparam is DBT_DEVICEREMOVECOMPLETE. -/
def counts_changes (step : State → Message → Option State) : Prop :=
  ∀ st m st1, step st m = some st1 → m.msg = WM_DEVICECHANGE →
    st1.device_change_count = st.device_change_count + 1 ∧
    st1.device_change_expect = st.device_change_expect ∧
    results Check.wparam st1.oks
      = results Check.wparam st.oks ++ [decide (m.wparam =
          if st.device_change_count < st.device_change_expect.tdiv 2 then DBT_DEVICEARRIVAL
          else DBT_DEVICEREMOVECOMPLETE)]

/-- A sample device interface name, \\?\HID#VID_1209&PID_0001#1&2a#{4d1e}. -/
def sample_name : List Nat :=
  [92, 92, 63, 92, 72, 73, 68, 35, 86, 73, 68, 95, 49, 50, 48, 57, 38, 80, 73, 68, 95, 48,
   48, 48, 49, 35, 49, 38, 50, 97, 35, 123, 52, 100, 49, 101, 125]

/-- A sample notification structure for a HID interface with the name `sample_name`. -/
def sample_iface : DEV_BROADCAST_DEVICEINTERFACE_W :=
  ⟨offsetof_dbcc_name 38, DBT_DEVTYP_DEVICEINTERFACE, 0, GUID_DEVINTERFACE_HID, sample_name⟩

/-- A sample WM_DEVICECHANGE message for window 7 with the given wparam. -/
def sample_message (wparam : Nat) : Message :=
  ⟨7, WM_DEVICECHANGE, wparam, 1000, sample_iface⟩

/-- The state test_RegisterDeviceNotification sets up before its first device run:
count 0, expect 2, window 7, not all interface classes; no check recorded yet. -/
def sample_start : State :=
  ⟨0, 2, 7, false, false, false, []⟩

/-- The state of the third device run of test_RegisterDeviceNotification (all interface
classes, expect 4) when message 1 arrives. -/
def sample_all_start : State :=
  ⟨1, 4, 7, true, false, false, []⟩

/-- A sample `DefWindowProcW`, returning 0. -/
def sample_DefWindowProcW : Nat → Nat → Nat → Nat → Int :=
  fun _ _ _ _ => 0

/-! ## Sample inputs -/

/-- A sample `towupper`: the ASCII letters a to z are mapped to A to Z, every other
character to itself. -/
def ascii_towupper (c : Nat) : Nat :=
  if 97 ≤ c ∧ c ≤ 122 then c - 32 else c

/-- A sample `towlower`: the ASCII letters A to Z are mapped to a to z, every other
character to itself. -/
def ascii_towlower (c : Nat) : Nat :=
  if 65 ≤ c ∧ c ≤ 90 then c + 32 else c

/-- The result of devnotify_wndproc for an arrival of the sample interface in the state
`sample_all_start`. -/
def sample_result : Int × State :=
  (devnotify_wndproc ascii_towupper ascii_towlower sample_DefWindowProcW sample_all_start 7
    WM_DEVICECHANGE DBT_DEVICEARRIVAL 1000 sample_iface).getD (0, sample_all_start)

/-- The state after an arrival and a removal of the sample interface have been dispatched
to devnotify_wndproc from `sample_start`. -/
def sample_final : State :=
  (run (devnotify_step ascii_towupper ascii_towlower sample_DefWindowProcW) sample_start
    [sample_message DBT_DEVICEARRIVAL, sample_message DBT_DEVICEREMOVECOMPLETE]).getD
    sample_start

/-- A device interface name that has no `#` after the prefix \\?\HID#, namely
\\?\HID#VID_1209. -/
def sample_name_no_hash : List Nat :=
  [92, 92, 63, 92, 72, 73, 68, 35, 86, 73, 68, 95, 49, 50, 48, 57]

/-- A notification structure for a HID interface with the name `sample_name_no_hash`. -/
def sample_iface_no_hash : DEV_BROADCAST_DEVICEINTERFACE_W :=
  ⟨offsetof_dbcc_name 17, DBT_DEVTYP_DEVICEINTERFACE, 0, GUID_DEVINTERFACE_HID,
    sample_name_no_hash⟩

/-! ## The mock COM objects of test_windows_gaming_input -/

/-- Modelled from the spec: winerror.h is not part of the excerpt (fixed ABI value). -/
def S_OK : Nat := 0

/-- Modelled from the spec: winerror.h is not part of the excerpt (fixed ABI value). -/
def E_NOTIMPL : Nat := 0x80004001

/-- Modelled from the spec: winerror.h is not part of the excerpt (fixed ABI value). -/
def E_NOINTERFACE : Nat := 0x80004002

/-- The identifier that hotplug.c defines with `DEFINE_GUID( IID_IGameControllerImpl, ... )`. -/
def IID_IGameControllerImpl : GUID :=
  ⟨0x06e58977, 0x7684, 0x4dc5, [0xba, 0xd1, 0xcd, 0xa5, 0x2a, 0x4a, 0xa0, 0x6d]⟩

/-- Modelled from the spec: the interface identifiers that the mocks compare with; they are
declared in headers that are not part of the excerpt and are taken as parameters. -/
structure Iids where
  IID_IUnknown : GUID
  IID_IInspectable : GUID
  IID_IAgileObject : GUID
  IID_IWeakReferenceSource : GUID
  IID_IGameController : GUID
  IID_IGameControllerProvider : GUID
  IID_IHidGameControllerProvider : GUID
  IID_IXusbGameControllerProvider : GUID
  IID_IGameControllerInputSink : GUID
  IID_IHidGameControllerInputSink : GUID
  IID_IRawGameController : GUID
  IID_IEventHandler_RawGameController : GUID
deriving DecidableEq

/-- The six identifiers that controller_QueryInterface tells apart are pairwise different
(as the GUIDs of the real headers are). -/
def Iids.distinct (ids : Iids) : Prop :=
  [ids.IID_IUnknown, ids.IID_IInspectable, IID_IGameControllerImpl,
    ids.IID_IGameControllerInputSink, ids.IID_IHidGameControllerInputSink,
    ids.IID_IRawGameController].Nodup

instance (ids : Iids) : Decidable ids.distinct := by
  unfold Iids.distinct; infer_instance

/-- The interface pointers the mocks hand out or receive: NULL, the addresses of the three
interface members of `custom_controller`, of the interface member of the two handlers, and
any other pointer. -/
inductive Iface where
  | null
  | IGameControllerImpl_iface
  | IGameControllerInputSink_iface
  | IHidGameControllerInputSink_iface
  | controller_added_iface
  | controller_removed_iface
  | other (p : Nat)
deriving DecidableEq

/-- The data members of `struct controller_handler`. -/
structure controller_handler where
  event : Nat
  invoked : Bool
deriving DecidableEq

/-- The data members of `struct custom_controller`; `IGameController_outer` is a pointer
(0 is NULL), `ref` a LONG. -/
structure custom_controller where
  IGameController_outer : Nat
  ref : Int
  initialize_called : Bool
  on_input_resumed_called : Bool
  on_input_suspended_called : Bool
  raw_game_controller_queried : Bool
deriving DecidableEq

/-- The data members of `struct custom_factory`. -/
structure custom_factory where
  create_controller_called : Bool
  create_controller : Bool
  on_game_controller_added_called : Bool
  added_event : Nat
  on_game_controller_removed_called : Bool
  removed_event : Nat
deriving DecidableEq

/-- The file-scope objects `controller_removed`, `controller_added`, `custom_controller`
and `custom_factory`, with what the mocks do to their surroundings: the references taken on
the object `IGameController_outer` points to, the events passed to `SetEvent` (oldest
first) and the conditions of the `ok` calls (oldest first). -/
structure Mocks where
  controller_removed : controller_handler
  controller_added : controller_handler
  custom_controller : custom_controller
  custom_factory : custom_factory
  outer_refs : Nat
  set_events : List Nat
  oks : List Bool
deriving DecidableEq

/-- The call `ok( cond, ... )`. -/
def Mocks.ok (m : Mocks) (cond : Bool) : Mocks :=
  { m with oks := m.oks ++ [cond] }

/-- A value stored in a LONG: reduced to the range from -2^31 to 2^31 - 1. -/
def LONG (x : Int) : Int :=
  (x + 2 ^ 31) % 2 ^ 32 - 2 ^ 31

/-- A LONG converted to ULONG. -/
def ULONG (x : Int) : Nat :=
  (x % 2 ^ 32).toNat

/-- The function `controller_handler_AddRef`. -/
def controller_handler_AddRef (h : controller_handler) (iface : Iface) :
    Nat × controller_handler :=
  (2, h)

/-- The function `controller_handler_Release`. -/
def controller_handler_Release (h : controller_handler) (iface : Iface) :
    Nat × controller_handler :=
  (1, h)

/-- The function `controller_handler_QueryInterface` on the handler `h` that `iface`
belongs to: the HRESULT, the pointer stored in `*out` and the handler after the call. -/
def controller_handler_QueryInterface (ids : Iids) (h : controller_handler) (iface : Iface)
    (iid : GUID) : Nat × Iface × controller_handler :=
  if iid = ids.IID_IUnknown ∨ iid = ids.IID_IAgileObject ∨
      iid = ids.IID_IEventHandler_RawGameController then
    let r := controller_handler_AddRef h iface  -- IUnknown_AddRef( iface )
    (S_OK, iface, r.2)
  else (E_NOINTERFACE, Iface.null, h)

/-- The two handler objects. -/
inductive Which where
  | added
  | removed
deriving DecidableEq

/-- The function `controller_handler_Invoke` on the handler `controller_added` or
`controller_removed`. -/
def controller_handler_Invoke (m : Mocks) (w : Which) (sender controller : Nat) :
    Nat × Mocks :=
  let m1 := m.ok (decide (sender = 0))
  match w with
  | Which.added =>
    (S_OK, { m1 with controller_added := { m1.controller_added with invoked := true }
                     set_events := m1.set_events ++ [m1.controller_added.event] })
  | Which.removed =>
    (S_OK, { m1 with controller_removed := { m1.controller_removed with invoked := true }
                     set_events := m1.set_events ++ [m1.controller_removed.event] })

/-- The function `check_interface_`; `qi obj iid` is the HRESULT of the QueryInterface of
the object `obj`, which is not one of the mocks. -/
def check_interface (qi : Nat → GUID → Nat) (m : Mocks) (obj : Nat) (iid : GUID)
    (supported : Bool) : Mocks :=
  m.ok (decide (qi obj iid = if supported = true then S_OK else E_NOINTERFACE))

/-- The function `controller_AddRef`: `InterlockedIncrement( &impl->ref )`. -/
def controller_AddRef (m : Mocks) : Nat × Mocks :=
  (ULONG (LONG (m.custom_controller.ref + 1)),
    { m with custom_controller :=
        { m.custom_controller with ref := LONG (m.custom_controller.ref + 1) } })

/-- The function `controller_Release`: `InterlockedDecrement( &impl->ref )`. -/
def controller_Release (m : Mocks) : Nat × Mocks :=
  (ULONG (LONG (m.custom_controller.ref - 1)),
    { m with custom_controller :=
        { m.custom_controller with ref := LONG (m.custom_controller.ref - 1) } })

/-- The functions `input_sink_AddRef` and `hid_sink_AddRef` that DEFINE_IINSPECTABLE_OUTER
generates: the AddRef of the object `IGameController_outer` points to, which takes one more
reference on that object; no result when the pointer is NULL. -/
def input_sink_AddRef (m : Mocks) : Option (Nat × Mocks) :=
  if m.custom_controller.IGameController_outer = 0 then none
  else some (m.outer_refs + 1, { m with outer_refs := m.outer_refs + 1 })

/-- The function `hid_sink_AddRef`, generated by the same text as `input_sink_AddRef`. -/
def hid_sink_AddRef (m : Mocks) : Option (Nat × Mocks) :=
  if m.custom_controller.IGameController_outer = 0 then none
  else some (m.outer_refs + 1, { m with outer_refs := m.outer_refs + 1 })

/-- The function `controller_QueryInterface` on `custom_controller`: the HRESULT, the
pointer stored in `*out` and the state after the call. Each `IInspectable_AddRef` goes
through the vtable of the interface handed out. -/
def controller_QueryInterface (ids : Iids) (m : Mocks) (iid : GUID) :
    Option (Nat × Iface × Mocks) :=
  if iid = ids.IID_IUnknown ∨ iid = ids.IID_IInspectable ∨ iid = IID_IGameControllerImpl then
    some (S_OK, Iface.IGameControllerImpl_iface, (controller_AddRef m).2)
  else if iid = ids.IID_IGameControllerInputSink then
    (input_sink_AddRef m).map (fun r => (S_OK, Iface.IGameControllerInputSink_iface, r.2))
  else if iid = ids.IID_IHidGameControllerInputSink then
    (hid_sink_AddRef m).map (fun r => (S_OK, Iface.IHidGameControllerInputSink_iface, r.2))
  else if iid = ids.IID_IRawGameController then
    some (E_NOINTERFACE, Iface.null,
      { m with custom_controller :=
          { m.custom_controller with raw_game_controller_queried := true } })
  else some (E_NOINTERFACE, Iface.null, m.ok false)

/-- The function `controller_Initialize`. -/
def controller_Initialize (ids : Iids) (qi : Nat → GUID → Nat) (m : Mocks)
    (outer provider : Nat) : Nat × Mocks :=
  let m1 := m.ok (!m.custom_controller.initialize_called)
  let m2 := { m1 with custom_controller :=
    { m1.custom_controller with initialize_called := true } }
  let m3 := check_interface qi m2 outer ids.IID_IUnknown true
  let m4 := check_interface qi m3 outer ids.IID_IInspectable true
  let m5 := check_interface qi m4 outer ids.IID_IAgileObject true
  let m6 := check_interface qi m5 outer ids.IID_IWeakReferenceSource true
  let m7 := check_interface qi m6 outer ids.IID_IGameController true
  let m8 := { m7 with custom_controller :=
    { m7.custom_controller with IGameController_outer := outer } }
  let m9 := check_interface qi m8 provider ids.IID_IUnknown true
  let m10 := check_interface qi m9 provider ids.IID_IInspectable true
  let m11 := check_interface qi m10 provider ids.IID_IAgileObject true
  let m12 := check_interface qi m11 provider ids.IID_IWeakReferenceSource true
  let m13 := check_interface qi m12 provider ids.IID_IGameControllerProvider true
  let m14 := check_interface qi m13 provider ids.IID_IHidGameControllerProvider true
  (S_OK, m14)

/-- The function `input_sink_OnInputResumed`. -/
def input_sink_OnInputResumed (m : Mocks) (timestamp : Nat) : Nat × Mocks :=
  let m1 := m.ok (!m.controller_added.invoked)
  let m2 := m1.ok (!m1.custom_controller.on_input_resumed_called)
  (S_OK, { m2 with custom_controller :=
    { m2.custom_controller with on_input_resumed_called := true } })

/-- The function `input_sink_OnInputSuspended`. -/
def input_sink_OnInputSuspended (m : Mocks) (timestamp : Nat) : Nat × Mocks :=
  let m1 := m.ok (!m.controller_removed.invoked)
  let m2 := m1.ok (!m1.custom_controller.on_input_suspended_called)
  (S_OK, { m2 with custom_controller :=
    { m2.custom_controller with on_input_suspended_called := true } })

/-- The function `custom_factory_CreateGameController`: the HRESULT, the pointer stored in
`*value` (`none` when nothing is stored) and the state after the call. -/
def custom_factory_CreateGameController (ids : Iids) (qi : Nat → GUID → Nat) (m : Mocks)
    (provider : Nat) : Nat × Option Iface × Mocks :=
  let m1 := m.ok (!m.controller_added.invoked)
  let m2 := m1.ok (!m1.custom_factory.create_controller_called)
  let m3 := { m2 with custom_factory :=
    { m2.custom_factory with create_controller_called := true } }
  if m3.custom_factory.create_controller = false then (E_NOTIMPL, none, m3)
  else
    let m4 := check_interface qi m3 provider ids.IID_IUnknown true
    let m5 := check_interface qi m4 provider ids.IID_IInspectable true
    let m6 := check_interface qi m5 provider ids.IID_IAgileObject true
    let m7 := check_interface qi m6 provider ids.IID_IGameControllerProvider true
    let m8 := check_interface qi m7 provider ids.IID_IHidGameControllerProvider true
    let m9 := check_interface qi m8 provider ids.IID_IXusbGameControllerProvider false
    let m10 := check_interface qi m9 provider ids.IID_IGameControllerInputSink false
    let m11 := { m10 with custom_controller := { m10.custom_controller with ref := 1 } }
    (S_OK, some Iface.IGameControllerImpl_iface, m11)

/-- The function `custom_factory_OnGameControllerAdded`. -/
def custom_factory_OnGameControllerAdded (m : Mocks) (value : Nat) : Nat × Mocks :=
  let m1 := m.ok m.controller_added.invoked
  let m2 := m1.ok m1.custom_factory.create_controller_called
  let m3 := m2.ok m2.custom_factory.create_controller
  let m4 := m3.ok m3.custom_controller.initialize_called
  let m5 := m4.ok m4.custom_controller.on_input_resumed_called
  let m6 := m5.ok (!m5.custom_controller.on_input_suspended_called)
  let m7 := m6.ok (!m6.custom_factory.on_game_controller_added_called)
  (S_OK, { m7 with custom_factory :=
              { m7.custom_factory with on_game_controller_added_called := true }
                   set_events := m7.set_events ++ [m7.custom_factory.added_event] })

/-- An invocation of one of the mock callbacks, with its arguments. -/
inductive Callback where
  | CreateGameController (provider : Nat)
  | Initialize (outer provider : Nat)
  | OnInputResumed (timestamp : Nat)
  | OnInputSuspended (timestamp : Nat)
  | AddedInvoke (sender controller : Nat)
  | OnGameControllerAdded (value : Nat)
deriving DecidableEq

/-- The state after one invocation. -/
def invoke (ids : Iids) (qi : Nat → GUID → Nat) (m : Mocks) : Callback → Mocks
  | Callback.CreateGameController provider =>
    (custom_factory_CreateGameController ids qi m provider).2.2
  | Callback.Initialize outer provider => (controller_Initialize ids qi m outer provider).2
  | Callback.OnInputResumed timestamp => (input_sink_OnInputResumed m timestamp).2
  | Callback.OnInputSuspended timestamp => (input_sink_OnInputSuspended m timestamp).2
  | Callback.AddedInvoke sender controller =>
    (controller_handler_Invoke m Which.added sender controller).2
  | Callback.OnGameControllerAdded value => (custom_factory_OnGameControllerAdded m value).2

/-- The state after a sequence of invocations. -/
def invoke_all (ids : Iids) (qi : Nat → GUID → Nat) (m : Mocks) (tr : List Callback) : Mocks :=
  tr.foldl (invoke ids qi) m

/-- All the flags the callbacks test are FALSE and no `ok` has been recorded. -/
def Mocks.fresh (m : Mocks) : Prop :=
  m.controller_added.invoked = false ∧ m.controller_removed.invoked = false ∧
  m.custom_factory.create_controller_called = false ∧
  m.custom_factory.on_game_controller_added_called = false ∧
  m.custom_factory.on_game_controller_removed_called = false ∧
  m.custom_controller.initialize_called = false ∧
  m.custom_controller.on_input_resumed_called = false ∧
  m.custom_controller.on_input_suspended_called = false ∧
  m.oks = []

instance (m : Mocks) : Decidable m.fresh := by
  unfold Mocks.fresh; infer_instance

/-- A sample set of interface identifiers, pairwise different. -/
def sample_iids : Iids :=
  ⟨⟨0, 0, 0, [0xC0, 0, 0, 0, 0, 0, 0, 0x46]⟩, ⟨1, 0, 0, []⟩, ⟨2, 0, 0, []⟩, ⟨3, 0, 0, []⟩,
   ⟨4, 0, 0, []⟩, ⟨5, 0, 0, []⟩, ⟨6, 0, 0, []⟩, ⟨7, 0, 0, []⟩, ⟨8, 0, 0, []⟩, ⟨9, 0, 0, []⟩,
   ⟨10, 0, 0, []⟩, ⟨11, 0, 0, []⟩⟩

/-- A sample provider and outer object at the addresses 500 and 600: the QueryInterface
of the provider refuses IXusbGameControllerProvider and IGameControllerInputSink and
accepts everything else, that of any other object accepts everything. -/
def sample_qi : Nat → GUID → Nat :=
  fun obj iid =>
    if obj = 500 ∧ (iid = sample_iids.IID_IXusbGameControllerProvider ∨
        iid = sample_iids.IID_IGameControllerInputSink) then E_NOINTERFACE
    else S_OK

/-- The mocks before a device run with `create_controller` set: all flags FALSE, no outer
object, the events of the handlers and of the factory at 11, 12, 13 and 14. -/
def sample_mocks : Mocks :=
  ⟨⟨11, false⟩, ⟨12, false⟩, ⟨0, 0, false, false, false, false⟩,
   ⟨false, true, false, 13, false, 14⟩, 0, [], []⟩

/-- The callbacks of a device arrival, in the order the checks ask for. -/
def sample_trace : List Callback :=
  [Callback.CreateGameController 500, Callback.Initialize 600 500, Callback.OnInputResumed 1,
   Callback.AddedInvoke 0 700, Callback.OnGameControllerAdded 600]

/-- The number of the mock function that a callback invokes. -/
def Callback.kind : Callback → Nat
  | Callback.CreateGameController _ => 0
  | Callback.Initialize _ _ => 1
  | Callback.OnInputResumed _ => 2
  | Callback.OnInputSuspended _ => 3
  | Callback.AddedInvoke _ _ => 4
  | Callback.OnGameControllerAdded _ => 5

/-- The flag that the mock function number `k` sets when it is called. -/
def Mocks.called (m : Mocks) : Nat → Bool
  | 0 => m.custom_factory.create_controller_called
  | 1 => m.custom_controller.initialize_called
  | 2 => m.custom_controller.on_input_resumed_called
  | 3 => m.custom_controller.on_input_suspended_called
  | 4 => m.controller_added.invoked
  | 5 => m.custom_factory.on_game_controller_added_called
  | _ => false

/-! ## The function msg_wait_for_events_ -/

/-- Modelled from the spec: winbase.h is not part of the excerpt (fixed ABI value). -/
def WAIT_TIMEOUT : Nat := 258

/-- What msg_wait_for_events_ does to its surroundings: a call of MsgWaitForMultipleObjects
with its time-out argument and its result, and a message taken from the queue and
dispatched. -/
inductive Event where
  | wait (timeout ret : Nat)
  | dispatch (msg : Nat)
deriving DecidableEq

/-- The outcome of msg_wait_for_events_: the value returned, the waits and dispatches in
order, and the conditions of the `ok_` calls made. -/
structure WaitResult where
  ret : Nat
  log : List Event
  oks : List Bool
deriving DecidableEq

/-- The loop and the final check of msg_wait_for_events_. The surroundings are given by
the results `waits` of the coming MsgWaitForMultipleObjects calls, the results `ticks` of
the coming GetTickCount calls and the message queues `queues` that the coming PeekMessageW
loops empty; `none` when they are used up before the function returns. `end_` and
`timeout` are DWORDs. -/
def msg_wait_loop (count end_ : Nat) :
    Nat → List Nat → List Nat → List (List Nat) → List Event → Option WaitResult
  | _, [], _, _, _ => none
  | timeout, ret :: waits, ticks, queues, log =>
    if ret ≤ count then
      match queues with
      | [] => none
      | q :: queues1 =>
        if ret < count then
          some ⟨ret, log ++ [Event.wait (min timeout 5000) ret] ++ q.map Event.dispatch, []⟩
        else if timeout ≥ 5000 then
          msg_wait_loop count end_ timeout waits ticks queues1
            (log ++ [Event.wait (min timeout 5000) ret] ++ q.map Event.dispatch)
        else
          match ticks with
          | [] => none
          | t1 :: ticks1 =>
            if end_ ≤ t1 then
              msg_wait_loop count end_ 0 waits ticks1 queues1
                (log ++ [Event.wait (min timeout 5000) ret] ++ q.map Event.dispatch)
            else
              match ticks1 with
              | [] => none
              | t2 :: ticks2 =>
                msg_wait_loop count end_ ((end_ + 2 ^ 32 - t2) % 2 ^ 32) waits ticks2 queues1
                  (log ++ [Event.wait (min timeout 5000) ret] ++ q.map Event.dispatch)
    else
      some ⟨ret, log ++ [Event.wait (min timeout 5000) ret],
        [if timeout ≥ 5000 then false else decide (ret = WAIT_TIMEOUT)]⟩

/-- The function `msg_wait_for_events_`; `events` are the handles waited for. -/
def msg_wait_for_events_ (count : Nat) (events : List Nat) (timeout : Nat)
    (waits ticks : List Nat) (queues : List (List Nat)) : Option WaitResult :=
  match ticks with
  | [] => none
  | t0 :: ticks1 =>
    msg_wait_loop count ((t0 + min timeout 5000) % 2 ^ 32) timeout waits ticks1 queues []

end Hotplug

namespace Ncrypt

/-! ## Heap lemmas -/

theorem getD_append_add {α : Type} (l r : List α) (k : Nat) (d : α) :
    (l ++ r).getD (l.length + k) d = r.getD k d := by
  simp [List.getD_eq_getElem?_getD, List.getElem?_append_right]

theorem set_append_add {α : Type} (l r : List α) (k : Nat) (x : α) :
    (l ++ r).set (l.length + k) x = l ++ r.set k x := by
  rw [List.set_append]
  simp

theorem alloc_true (cells : List (Option block)) (rest : List Bool) (out : List (Nat × Nat))
    (b : block) :
    alloc { cells := cells, oracle := true :: rest, out := out } b
      = (cells.length + 1, { cells := cells ++ [some b], oracle := rest, out := out }) := rfl

theorem update_append (l r : List (Option block)) (o : List Bool) (out : List (Nat × Nat))
    (k : Nat) (x : object) (f : object → object) (h : r.getD k none = some (block.obj x)) :
    State.update { cells := l ++ r, oracle := o, out := out } (l.length + (k + 1)) f
      = { cells := l ++ r.set k (some (block.obj (f x))), oracle := o, out := out } := by
  have e : l.length + (k + 1) - 1 = l.length + k := by omega
  have hne : ¬ (l.length + (k + 1) = 0) := by omega
  simp only [State.update, State.load, State.store, if_neg hne, e, getD_append_add, h,
    set_append_add]

theorem memcpy_append (l r : List (Option block)) (o : List Bool) (out : List (Nat × Nat))
    (k : Nat) (old : List (Option Nat)) (src : Nat → Nat) (n : Nat)
    (h : r.getD k none = some (block.bytes old)) :
    memcpy { cells := l ++ r, oracle := o, out := out } (l.length + (k + 1)) src n
      = { cells := l ++ r.set k (some (block.bytes
            ((List.range n).map (fun i => some (src i)) ++ old.drop n))),
          oracle := o, out := out } := by
  have e : l.length + (k + 1) - 1 = l.length + k := by omega
  have hne : ¬ (l.length + (k + 1) = 0) := by omega
  simp only [memcpy, State.load, State.store, if_neg hne, e, getD_append_add, h,
    set_append_add]

theorem import_pass (provider : Nat) (type : Option (List Nat)) (handle : Nat)
    (data : Nat → Nat) (datasize flags : Nat) (s : State)
    (hf : flags = 0 ∨ flags = NCRYPT_SILENT_FLAG) :
    NCryptImportKey provider 0 type 0 handle data datasize flags s
      = if Magic data = BCRYPT_RSAPUBLIC_MAGIC then
    if datasize < sizeof_BCRYPT_RSAKEY_BLOB then (NTE_BAD_DATA, s)
    else if datasize ≠ expected_size data then (NTE_BAD_DATA, s)
    else
      let a := allocate_object KEY s
      if a.1 = 0 then (NTE_NO_MEMORY, a.2)
      else
        let s1 := a.2.update a.1 (fun o => { o with key := { o.key with alg := RSA } })
        let s2 := s1.update a.1 (fun o =>
          { o with key := { o.key with rsa := { o.key.rsa with public_exp_size := cbPublicExp data } } })
        let s3 := s2.update a.1 (fun o =>
          { o with key := { o.key with rsa := { o.key.rsa with modulus_size := cbModulus data } } })
        let m1 := malloc s3 (cbPublicExp data)
        let s4 := m1.2.update a.1 (fun o =>
          { o with key := { o.key with rsa := { o.key.rsa with public_exp := m1.1 } } })
        if m1.1 = 0 then (NTE_NO_MEMORY, free s4 a.1)
        else
          let m2 := malloc s4 (cbModulus data)
          let s5 := m2.2.update a.1 (fun o =>
            { o with key := { o.key with rsa := { o.key.rsa with modulus := m2.1 } } })
          if m2.1 = 0 then (NTE_NO_MEMORY, free (free s5 m1.1) a.1)
          else
            let s6 := memcpy s5 m1.1 (fun i => byte data (sizeof_BCRYPT_RSAKEY_BLOB + i))
              (cbPublicExp data)
            let s7 := memcpy s6 m2.1
              (fun i => byte data (sizeof_BCRYPT_RSAKEY_BLOB + cbPublicExp data + i))
              (cbModulus data)
            (ERROR_SUCCESS, s7.write handle a.1)
  else (NTE_INVALID_PARAMETER, s) := by
  have hf' : ¬ (flags ≠ NCRYPT_SILENT_FLAG ∧ flags ≠ 0) := by
    rcases hf with h | h <;> simp [h]
  unfold NCryptImportKey
  rw [if_neg (by simp), if_neg (by simp), if_neg hf']


theorem store_append (l r : List (Option block)) (o : List Bool) (out : List (Nat × Nat))
    (k : Nat) (b : Option block) :
    State.store { cells := l ++ r, oracle := o, out := out } (l.length + (k + 1)) b
      = { cells := l ++ r.set k b, oracle := o, out := out } := by
  have e : l.length + (k + 1) - 1 = l.length + k := by omega
  have hne : ¬ (l.length + (k + 1) = 0) := by omega
  simp only [State.store, if_neg hne, e, set_append_add]

theorem alloc_append (l r : List (Option block)) (rest : List Bool) (out : List (Nat × Nat))
    (b : block) :
    alloc { cells := l ++ r, oracle := true :: rest, out := out } b
      = (l.length + (r.length + 1),
          { cells := l ++ (r ++ [some b]), oracle := rest, out := out }) := by
  simp only [alloc, List.length_append, List.append_assoc, Nat.add_assoc]

theorem alloc_fail (s : State) (b : block) (h : s.oracle.head? ≠ some true) :
    alloc s b = (0, { s with oracle := s.oracle.tail }) := by
  obtain ⟨cells, oracle, out⟩ := s
  match oracle, h with
  | [], _ => rfl
  | false :: rest, _ => rfl
  | true :: rest, h => exact absurd rfl h

theorem update_at1 (l r : List (Option block)) (o : List Bool) (out : List (Nat × Nat))
    (x : object) (f : object → object) :
    State.update ⟨l ++ some (block.obj x) :: r, o, out⟩ (l.length + 1) f
      = ⟨l ++ some (block.obj (f x)) :: r, o, out⟩ :=
  update_append l (some (block.obj x) :: r) o out 0 x f rfl

theorem memcpy_at2 (l r : List (Option block)) (o : List Bool) (out : List (Nat × Nat))
    (a : Option block) (old : List (Option Nat)) (src : Nat → Nat) (n : Nat) :
    memcpy ⟨l ++ a :: some (block.bytes old) :: r, o, out⟩ (l.length + 2) src n
      = ⟨l ++ a :: some (block.bytes
            ((List.range n).map (fun i => some (src i)) ++ old.drop n)) :: r, o, out⟩ :=
  memcpy_append l (a :: some (block.bytes old) :: r) o out 1 old src n rfl

theorem memcpy_at3 (l r : List (Option block)) (o : List Bool) (out : List (Nat × Nat))
    (a b : Option block) (old : List (Option Nat)) (src : Nat → Nat) (n : Nat) :
    memcpy ⟨l ++ a :: b :: some (block.bytes old) :: r, o, out⟩ (l.length + 3) src n
      = ⟨l ++ a :: b :: some (block.bytes
            ((List.range n).map (fun i => some (src i)) ++ old.drop n)) :: r, o, out⟩ :=
  memcpy_append l (a :: b :: some (block.bytes old) :: r) o out 2 old src n rfl

theorem free_at1 (l r : List (Option block)) (o : List Bool) (out : List (Nat × Nat))
    (a : Option block) :
    free ⟨l ++ a :: r, o, out⟩ (l.length + 1) = ⟨l ++ none :: r, o, out⟩ :=
  store_append l (a :: r) o out 0 none

theorem free_at2 (l r : List (Option block)) (o : List Bool) (out : List (Nat × Nat))
    (a b : Option block) :
    free ⟨l ++ a :: b :: r, o, out⟩ (l.length + 2) = ⟨l ++ a :: none :: r, o, out⟩ :=
  store_append l (a :: b :: r) o out 1 none

theorem alloc_at0 (l : List (Option block)) (rest : List Bool) (out : List (Nat × Nat))
    (b : block) :
    alloc ⟨l, true :: rest, out⟩ b = (l.length + 1, ⟨l ++ [some b], rest, out⟩) := rfl

theorem alloc_at1 (l : List (Option block)) (rest : List Bool) (out : List (Nat × Nat))
    (a : Option block) (b : block) :
    alloc ⟨l ++ [a], true :: rest, out⟩ b = (l.length + 2, ⟨l ++ [a, some b], rest, out⟩) :=
  alloc_append l [a] rest out b

theorem alloc_at2 (l : List (Option block)) (rest : List Bool) (out : List (Nat × Nat))
    (a c : Option block) (b : block) :
    alloc ⟨l ++ [a, c], true :: rest, out⟩ b
      = (l.length + 3, ⟨l ++ [a, c, some b], rest, out⟩) :=
  alloc_append l [a, c] rest out b

theorem replicate_drop_self (n : Nat) : (List.replicate n (none : Option Nat)).drop n = [] := by
  simp

theorem import_success (provider : Nat) (type : Option (List Nat)) (handle : Nat)
    (data : Nat → Nat) (datasize flags : Nat) (cells : List (Option block)) (rest : List Bool)
    (out : List (Nat × Nat))
    (hf : flags = 0 ∨ flags = NCRYPT_SILENT_FLAG) (hm : Magic data = BCRYPT_RSAPUBLIC_MAGIC)
    (h1 : sizeof_BCRYPT_RSAKEY_BLOB ≤ datasize) (h2 : datasize = expected_size data) :
    NCryptImportKey provider 0 type 0 handle data datasize flags ⟨cells, true :: true :: true :: rest, out⟩
      = (ERROR_SUCCESS,
          ⟨cells ++
              [some (block.obj (key_object (cbPublicExp data) (cells.length + 2)
                  (cbModulus data) (cells.length + 3))),
               some (block.bytes (slice data sizeof_BCRYPT_RSAKEY_BLOB (cbPublicExp data))),
               some (block.bytes (slice data (sizeof_BCRYPT_RSAKEY_BLOB + cbPublicExp data)
                  (cbModulus data)))],
            rest, (handle, cells.length + 1) :: out⟩) := by
  have h1' : ¬ datasize < sizeof_BCRYPT_RSAKEY_BLOB := by omega
  have hne1 : ¬ (cells.length + 1 = 0) := by omega
  have hne2 : ¬ (cells.length + 2 = 0) := by omega
  have hne3 : ¬ (cells.length + 3 = 0) := by omega
  rw [import_pass _ _ _ _ _ _ _ hf, if_pos hm, if_neg h1', if_neg (by simp [h2])]
  lift_lets
  intro a s1 s2 s3 m1 s4 m2 s5 s6 s7
  have ha : a = (cells.length + 1,
      ⟨cells ++ [some (block.obj ⟨KEY, zero_object.key⟩)], true :: true :: rest, out⟩) := by
    simp only [a, allocate_object, alloc_at0, if_neg hne1, update_at1]
  have hs1 : s1 = ⟨cells ++ [some (block.obj (key_object 0 0 0 0))],
        true :: true :: rest, out⟩ := by
    simp only [s1, ha, update_at1]
    rfl
  have hs2 : s2 = ⟨cells ++ [some (block.obj (key_object (cbPublicExp data) 0 0 0))],
        true :: true :: rest, out⟩ := by
    simp only [s2, hs1, ha, update_at1]
    rfl
  have hs3 : s3 = ⟨cells ++ [some (block.obj (key_object (cbPublicExp data) 0 (cbModulus data) 0))],
        true :: true :: rest, out⟩ := by
    simp only [s3, hs2, ha, update_at1]
    rfl
  have hm1 : m1 = (cells.length + 2,
      ⟨cells ++ [some (block.obj (key_object (cbPublicExp data) 0 (cbModulus data) 0)),
          some (block.bytes (List.replicate (cbPublicExp data) none))],
        true :: rest, out⟩) := by
    simp only [m1, hs3, malloc, alloc_at1]
  have hs4 : s4 =
      ⟨cells ++ [some (block.obj (key_object (cbPublicExp data) (cells.length + 2)
            (cbModulus data) 0)),
          some (block.bytes (List.replicate (cbPublicExp data) none))],
        true :: rest, out⟩ := by
    simp only [s4, hm1, ha, update_at1]
    rfl
  have hm2 : m2 = (cells.length + 3,
      ⟨cells ++ [some (block.obj (key_object (cbPublicExp data) (cells.length + 2)
            (cbModulus data) 0)),
          some (block.bytes (List.replicate (cbPublicExp data) none)),
          some (block.bytes (List.replicate (cbModulus data) none))],
        rest, out⟩) := by
    simp only [m2, hs4, malloc, alloc_at2]
  have hs5 : s5 =
      ⟨cells ++ [some (block.obj (key_object (cbPublicExp data) (cells.length + 2)
            (cbModulus data) (cells.length + 3))),
          some (block.bytes (List.replicate (cbPublicExp data) none)),
          some (block.bytes (List.replicate (cbModulus data) none))],
        rest, out⟩ := by
    simp only [s5, hm2, ha, update_at1]
    rfl
  have hs6 : s6 =
      ⟨cells ++ [some (block.obj (key_object (cbPublicExp data) (cells.length + 2)
            (cbModulus data) (cells.length + 3))),
          some (block.bytes (slice data sizeof_BCRYPT_RSAKEY_BLOB (cbPublicExp data))),
          some (block.bytes (List.replicate (cbModulus data) none))],
        rest, out⟩ := by
    simp only [s6, hs5, hm1, memcpy_at2, replicate_drop_self, List.append_nil, slice]
  have hs7 : s7 =
      ⟨cells ++ [some (block.obj (key_object (cbPublicExp data) (cells.length + 2)
            (cbModulus data) (cells.length + 3))),
          some (block.bytes (slice data sizeof_BCRYPT_RSAKEY_BLOB (cbPublicExp data))),
          some (block.bytes (slice data (sizeof_BCRYPT_RSAKEY_BLOB + cbPublicExp data)
            (cbModulus data)))],
        rest, out⟩ := by
    simp only [s7, hs6, hm2, memcpy_at3, replicate_drop_self, List.append_nil, slice]
  rw [hs7, ha, hm1, hm2]
  simp only [if_neg hne1, if_neg hne2, if_neg hne3, State.write]

theorem alloc_none (l : List (Option block)) (o : List Bool) (out : List (Nat × Nat))
    (b : block) (h : o.head? ≠ some true) :
    alloc ⟨l, o, out⟩ b = (0, ⟨l, o.tail, out⟩) :=
  alloc_fail ⟨l, o, out⟩ b h

theorem import_fail1 (provider : Nat) (type : Option (List Nat)) (handle : Nat)
    (data : Nat → Nat) (datasize flags : Nat) (cells : List (Option block)) (o : List Bool)
    (out : List (Nat × Nat))
    (hf : flags = 0 ∨ flags = NCRYPT_SILENT_FLAG) (hm : Magic data = BCRYPT_RSAPUBLIC_MAGIC)
    (h1 : sizeof_BCRYPT_RSAKEY_BLOB ≤ datasize) (h2 : datasize = expected_size data)
    (ho : o.head? ≠ some true) :
    NCryptImportKey provider 0 type 0 handle data datasize flags ⟨cells, o, out⟩
      = (NTE_NO_MEMORY, ⟨cells, o.tail, out⟩) := by
  have h1' : ¬ datasize < sizeof_BCRYPT_RSAKEY_BLOB := by omega
  rw [import_pass _ _ _ _ _ _ _ hf, if_pos hm, if_neg h1', if_neg (by simp [h2])]
  lift_lets
  intro a s1 s2 s3 m1 s4 m2 s5 s6 s7
  have ha : a = (0, ⟨cells, o.tail, out⟩) := by
    simp only [a, allocate_object, alloc_none _ _ _ _ ho, if_true]
  rw [ha]
  simp only [if_true]

theorem import_fail2 (provider : Nat) (type : Option (List Nat)) (handle : Nat)
    (data : Nat → Nat) (datasize flags : Nat) (cells : List (Option block)) (o : List Bool)
    (out : List (Nat × Nat))
    (hf : flags = 0 ∨ flags = NCRYPT_SILENT_FLAG) (hm : Magic data = BCRYPT_RSAPUBLIC_MAGIC)
    (h1 : sizeof_BCRYPT_RSAKEY_BLOB ≤ datasize) (h2 : datasize = expected_size data)
    (ho : o.head? ≠ some true) :
    NCryptImportKey provider 0 type 0 handle data datasize flags ⟨cells, true :: o, out⟩
      = (NTE_NO_MEMORY, ⟨cells ++ [none], o.tail, out⟩) := by
  have h1' : ¬ datasize < sizeof_BCRYPT_RSAKEY_BLOB := by omega
  have hne1 : ¬ (cells.length + 1 = 0) := by omega
  rw [import_pass _ _ _ _ _ _ _ hf, if_pos hm, if_neg h1', if_neg (by simp [h2])]
  lift_lets
  intro a s1 s2 s3 m1 s4 m2 s5 s6 s7
  have ha : a = (cells.length + 1,
      ⟨cells ++ [some (block.obj ⟨KEY, zero_object.key⟩)], o, out⟩) := by
    simp only [a, allocate_object, alloc_at0, if_neg hne1, update_at1]
  have hs3 : s3 = ⟨cells ++ [some (block.obj (key_object (cbPublicExp data) 0 (cbModulus data) 0))],
        o, out⟩ := by
    simp only [s3, s2, s1, ha, update_at1]
    rfl
  have hm1 : m1 = (0,
      ⟨cells ++ [some (block.obj (key_object (cbPublicExp data) 0 (cbModulus data) 0))],
        o.tail, out⟩) := by
    simp only [m1, hs3, malloc, alloc_none _ _ _ _ ho]
  have hs4 : s4 =
      ⟨cells ++ [some (block.obj (key_object (cbPublicExp data) 0 (cbModulus data) 0))],
        o.tail, out⟩ := by
    simp only [s4, hm1, ha, update_at1]
    rfl
  rw [hs4, ha, hm1]
  simp only [if_neg hne1, if_true, free_at1]

theorem import_fail3 (provider : Nat) (type : Option (List Nat)) (handle : Nat)
    (data : Nat → Nat) (datasize flags : Nat) (cells : List (Option block)) (o : List Bool)
    (out : List (Nat × Nat))
    (hf : flags = 0 ∨ flags = NCRYPT_SILENT_FLAG) (hm : Magic data = BCRYPT_RSAPUBLIC_MAGIC)
    (h1 : sizeof_BCRYPT_RSAKEY_BLOB ≤ datasize) (h2 : datasize = expected_size data)
    (ho : o.head? ≠ some true) :
    NCryptImportKey provider 0 type 0 handle data datasize flags ⟨cells, true :: true :: o, out⟩
      = (NTE_NO_MEMORY, ⟨cells ++ [none, none], o.tail, out⟩) := by
  have h1' : ¬ datasize < sizeof_BCRYPT_RSAKEY_BLOB := by omega
  have hne1 : ¬ (cells.length + 1 = 0) := by omega
  have hne2 : ¬ (cells.length + 2 = 0) := by omega
  rw [import_pass _ _ _ _ _ _ _ hf, if_pos hm, if_neg h1', if_neg (by simp [h2])]
  lift_lets
  intro a s1 s2 s3 m1 s4 m2 s5 s6 s7
  have ha : a = (cells.length + 1,
      ⟨cells ++ [some (block.obj ⟨KEY, zero_object.key⟩)], true :: o, out⟩) := by
    simp only [a, allocate_object, alloc_at0, if_neg hne1, update_at1]
  have hs3 : s3 = ⟨cells ++ [some (block.obj (key_object (cbPublicExp data) 0 (cbModulus data) 0))],
        true :: o, out⟩ := by
    simp only [s3, s2, s1, ha, update_at1]
    rfl
  have hm1 : m1 = (cells.length + 2,
      ⟨cells ++ [some (block.obj (key_object (cbPublicExp data) 0 (cbModulus data) 0)),
          some (block.bytes (List.replicate (cbPublicExp data) none))],
        o, out⟩) := by
    simp only [m1, hs3, malloc, alloc_at1]
  have hs4 : s4 =
      ⟨cells ++ [some (block.obj (key_object (cbPublicExp data) (cells.length + 2)
            (cbModulus data) 0)),
          some (block.bytes (List.replicate (cbPublicExp data) none))],
        o, out⟩ := by
    simp only [s4, hm1, ha, update_at1]
    rfl
  have hm2 : m2 = (0,
      ⟨cells ++ [some (block.obj (key_object (cbPublicExp data) (cells.length + 2)
            (cbModulus data) 0)),
          some (block.bytes (List.replicate (cbPublicExp data) none))],
        o.tail, out⟩) := by
    simp only [m2, hs4, malloc, alloc_none _ _ _ _ ho]
  have hs5 : s5 =
      ⟨cells ++ [some (block.obj (key_object (cbPublicExp data) (cells.length + 2)
            (cbModulus data) 0)),
          some (block.bytes (List.replicate (cbPublicExp data) none))],
        o.tail, out⟩ := by
    simp only [s5, hm2, ha, update_at1]
    rfl
  rw [hs5, ha, hm1, hm2]
  simp only [if_neg hne1, if_neg hne2, if_true, free_at1, free_at2]

theorem oracle_cases (o : List Bool) :
    (∃ rest, o = true :: true :: true :: rest) ∨ o.head? ≠ some true ∨
      (∃ o2, o = true :: o2 ∧ o2.head? ≠ some true) ∨
      (∃ o3, o = true :: true :: o3 ∧ o3.head? ≠ some true) := by
  match o with
  | [] => exact Or.inr (Or.inl (by simp))
  | false :: _ => exact Or.inr (Or.inl (by simp))
  | [true] => exact Or.inr (Or.inr (Or.inl ⟨_, rfl, by simp⟩))
  | true :: false :: _ => exact Or.inr (Or.inr (Or.inl ⟨_, rfl, by simp⟩))
  | [true, true] => exact Or.inr (Or.inr (Or.inr ⟨_, rfl, by simp⟩))
  | true :: true :: false :: _ => exact Or.inr (Or.inr (Or.inr ⟨_, rfl, by simp⟩))
  | true :: true :: true :: rest => exact Or.inl ⟨rest, rfl⟩

theorem head_getElem (o : List Bool) : o.head? = o[0]? := by
  cases o <;> simp

/-- After the argument, magic and size checks the status is decided by the three
allocation requests, and a failed call stores nothing through `handle`. -/
theorem import_alloc (provider : Nat) (type : Option (List Nat)) (handle : Nat)
    (data : Nat → Nat) (datasize flags : Nat) (s : State)
    (hf : flags = 0 ∨ flags = NCRYPT_SILENT_FLAG) (hm : Magic data = BCRYPT_RSAPUBLIC_MAGIC)
    (h1 : sizeof_BCRYPT_RSAKEY_BLOB ≤ datasize) (h2 : datasize = expected_size data) :
    (alloc_succeeds s 0 ∧ alloc_succeeds s 1 ∧ alloc_succeeds s 2 ∧
      (NCryptImportKey provider 0 type 0 handle data datasize flags s).1 = ERROR_SUCCESS) ∨
    (¬ (alloc_succeeds s 0 ∧ alloc_succeeds s 1 ∧ alloc_succeeds s 2) ∧
      (NCryptImportKey provider 0 type 0 handle data datasize flags s).1 = NTE_NO_MEMORY ∧
      (NCryptImportKey provider 0 type 0 handle data datasize flags s).2.out = s.out) := by
  obtain ⟨cells, o, out⟩ := s
  rcases oracle_cases o with ⟨rest, rfl⟩ | ho | ⟨o2, rfl, ho⟩ | ⟨o3, rfl, ho⟩
  · left
    rw [import_success _ _ _ _ _ _ _ _ _ hf hm h1 h2]
    simp [alloc_succeeds]
  · right
    rw [import_fail1 _ _ _ _ _ _ _ _ _ hf hm h1 h2 ho]
    rw [head_getElem] at ho
    simp [alloc_succeeds, ho]
  · right
    rw [import_fail2 _ _ _ _ _ _ _ _ _ hf hm h1 h2 ho]
    rw [head_getElem] at ho
    simp [alloc_succeeds, ho]
  · right
    rw [import_fail3 _ _ _ _ _ _ _ _ _ hf hm h1 h2 ho]
    rw [head_getElem] at ho
    simp [alloc_succeeds, ho]

theorem import_decrypt_key (provider decrypt_key : Nat) (type : Option (List Nat))
    (params handle : Nat) (data : Nat → Nat) (datasize flags : Nat) (s : State)
    (h : decrypt_key ≠ 0) :
    NCryptImportKey provider decrypt_key type params handle data datasize flags s
      = (NTE_NOT_SUPPORTED, s) := by
  unfold NCryptImportKey
  rw [if_pos h]

theorem import_params (provider : Nat) (type : Option (List Nat))
    (params handle : Nat) (data : Nat → Nat) (datasize flags : Nat) (s : State)
    (h : params ≠ 0) :
    NCryptImportKey provider 0 type params handle data datasize flags s
      = (NTE_NOT_SUPPORTED, s) := by
  unfold NCryptImportKey
  rw [if_neg (by simp), if_pos h]

theorem import_bad_flags (provider : Nat) (type : Option (List Nat))
    (handle : Nat) (data : Nat → Nat) (datasize flags : Nat) (s : State)
    (h0 : flags ≠ 0) (h1 : flags ≠ NCRYPT_SILENT_FLAG) :
    NCryptImportKey provider 0 type 0 handle data datasize flags s = (NTE_BAD_FLAGS, s) := by
  unfold NCryptImportKey
  rw [if_neg (by simp), if_neg (by simp), if_pos ⟨h1, h0⟩]

theorem import_bad_magic (provider : Nat) (type : Option (List Nat))
    (handle : Nat) (data : Nat → Nat) (datasize flags : Nat) (s : State)
    (hf : flags = 0 ∨ flags = NCRYPT_SILENT_FLAG) (hm : Magic data ≠ BCRYPT_RSAPUBLIC_MAGIC) :
    NCryptImportKey provider 0 type 0 handle data datasize flags s
      = (NTE_INVALID_PARAMETER, s) := by
  rw [import_pass _ _ _ _ _ _ _ hf, if_neg hm]

theorem import_short (provider : Nat) (type : Option (List Nat))
    (handle : Nat) (data : Nat → Nat) (datasize flags : Nat) (s : State)
    (hf : flags = 0 ∨ flags = NCRYPT_SILENT_FLAG) (hm : Magic data = BCRYPT_RSAPUBLIC_MAGIC)
    (h : datasize < sizeof_BCRYPT_RSAKEY_BLOB) :
    NCryptImportKey provider 0 type 0 handle data datasize flags s = (NTE_BAD_DATA, s) := by
  rw [import_pass _ _ _ _ _ _ _ hf, if_pos hm, if_pos h]

theorem import_size_mismatch (provider : Nat) (type : Option (List Nat))
    (handle : Nat) (data : Nat → Nat) (datasize flags : Nat) (s : State)
    (hf : flags = 0 ∨ flags = NCRYPT_SILENT_FLAG) (hm : Magic data = BCRYPT_RSAPUBLIC_MAGIC)
    (h : datasize ≠ expected_size data) :
    NCryptImportKey provider 0 type 0 handle data datasize flags s = (NTE_BAD_DATA, s) := by
  rw [import_pass _ _ _ _ _ _ _ hf, if_pos hm]
  by_cases h1 : datasize < sizeof_BCRYPT_RSAKEY_BLOB
  · rw [if_pos h1]
  · rw [if_neg h1, if_pos h]

theorem status_ne_success :
    NTE_NOT_SUPPORTED ≠ ERROR_SUCCESS ∧ NTE_BAD_FLAGS ≠ ERROR_SUCCESS ∧
      NTE_BAD_DATA ≠ ERROR_SUCCESS ∧ NTE_INVALID_PARAMETER ≠ ERROR_SUCCESS ∧
      NTE_NO_MEMORY ≠ ERROR_SUCCESS := by
  decide

theorem status_ne_no_memory :
    NTE_NOT_SUPPORTED ≠ NTE_NO_MEMORY ∧ NTE_BAD_FLAGS ≠ NTE_NO_MEMORY ∧
      NTE_BAD_DATA ≠ NTE_NO_MEMORY ∧ NTE_INVALID_PARAMETER ≠ NTE_NO_MEMORY ∧
      ERROR_SUCCESS ≠ NTE_NO_MEMORY := by
  decide

/-- A call that returns ERROR_SUCCESS passed every check and all three allocations. -/
theorem import_success_inv (provider decrypt_key : Nat) (type : Option (List Nat))
    (params handle : Nat) (data : Nat → Nat) (datasize flags : Nat) (s : State)
    (h : (NCryptImportKey provider decrypt_key type params handle data datasize flags s).1
      = ERROR_SUCCESS) :
    decrypt_key = 0 ∧ params = 0 ∧ (flags = 0 ∨ flags = NCRYPT_SILENT_FLAG) ∧
      Magic data = BCRYPT_RSAPUBLIC_MAGIC ∧ sizeof_BCRYPT_RSAKEY_BLOB ≤ datasize ∧
      datasize = expected_size data ∧
      alloc_succeeds s 0 ∧ alloc_succeeds s 1 ∧ alloc_succeeds s 2 := by
  obtain ⟨n1, n2, n3, n4, n5⟩ := status_ne_success
  by_cases hd : decrypt_key = 0
  swap
  · rw [import_decrypt_key _ _ _ _ _ _ _ _ _ hd] at h
    exact absurd h n1
  subst hd
  by_cases hp : params = 0
  swap
  · rw [import_params _ _ _ _ _ _ _ _ hp] at h
    exact absurd h n1
  subst hp
  by_cases hf : flags = 0 ∨ flags = NCRYPT_SILENT_FLAG
  swap
  · rw [not_or] at hf
    rw [import_bad_flags _ _ _ _ _ _ _ hf.1 hf.2] at h
    exact absurd h n2
  by_cases hm : Magic data = BCRYPT_RSAPUBLIC_MAGIC
  swap
  · rw [import_bad_magic _ _ _ _ _ _ _ hf hm] at h
    exact absurd h n4
  by_cases h1 : datasize < sizeof_BCRYPT_RSAKEY_BLOB
  · rw [import_short _ _ _ _ _ _ _ hf hm h1] at h
    exact absurd h n3
  by_cases h2 : datasize = expected_size data
  swap
  · rw [import_size_mismatch _ _ _ _ _ _ _ hf hm h2] at h
    exact absurd h n3
  rcases import_alloc provider type handle data datasize flags s hf hm (by omega) h2 with
    ⟨a0, a1, a2, _⟩ | ⟨_, hs, _⟩
  · exact ⟨rfl, rfl, hf, hm, by omega, h2, a0, a1, a2⟩
  · rw [hs] at h
    exact absurd h n5

theorem oracle_of_succeeds (s : State) (a0 : alloc_succeeds s 0) (a1 : alloc_succeeds s 1)
    (a2 : alloc_succeeds s 2) : ∃ rest, s.oracle = true :: true :: true :: rest := by
  obtain ⟨cells, o, out⟩ := s
  unfold alloc_succeeds at a0 a1 a2
  match o, a0, a1, a2 with
  | x :: y :: z :: rest, a0, a1, a2 =>
    simp at a0 a1 a2
    exact ⟨rest, by simp [a0, a1, a2]⟩
  | [_, _], _, _, a2 => simp at a2
  | [_], _, a1, _ => simp at a1
  | [], a0, _, _ => simp at a0

theorem load_append (l r : List (Option block)) (o : List Bool) (out : List (Nat × Nat))
    (k : Nat) :
    State.load ⟨l ++ r, o, out⟩ (l.length + (k + 1)) = r.getD k none := by
  have e : l.length + (k + 1) - 1 = l.length + k := by omega
  have hne : ¬ (l.length + (k + 1) = 0) := by omega
  simp only [State.load, if_neg hne, e, getD_append_add]

theorem load_fresh (l : List (Option block)) (o : List Bool) (out : List (Nat × Nat)) :
    State.load ⟨l, o, out⟩ (l.length + 1) = none := by
  simp [State.load]

/-! ## The claims -/

/-- C1: NCryptImportKey returns ERROR_SUCCESS if and only if decrypt_key is 0, params is
NULL, flags is 0 or NCRYPT_SILENT_FLAG, the Magic of the blob is BCRYPT_RSAPUBLIC_MAGIC,
datasize is at least sizeof(BCRYPT_RSAKEY_BLOB), datasize equals
sizeof(BCRYPT_RSAKEY_BLOB) + cbPublicExp + cbModulus reduced modulo 2 ^ 32, and the three
allocation requests (object, public exponent, modulus) all succeed. -/
theorem C1_import_success_iff (provider decrypt_key : Nat) (type : Option (List Nat))
    (params handle : Nat) (data : Nat → Nat) (datasize flags : Nat) (s : State) :
    (NCryptImportKey provider decrypt_key type params handle data datasize flags s).1
        = ERROR_SUCCESS ↔
      (decrypt_key = 0 ∧ params = 0 ∧ (flags = 0 ∨ flags = NCRYPT_SILENT_FLAG) ∧
        Magic data = BCRYPT_RSAPUBLIC_MAGIC ∧ sizeof_BCRYPT_RSAKEY_BLOB ≤ datasize ∧
        datasize
          = (sizeof_BCRYPT_RSAKEY_BLOB + cbPublicExp data + cbModulus data) % 2 ^ 32 ∧
        alloc_succeeds s 0 ∧ alloc_succeeds s 1 ∧ alloc_succeeds s 2) := by
  constructor
  · intro h
    exact import_success_inv _ _ _ _ _ _ _ _ _ h
  · rintro ⟨rfl, rfl, hf, hm, h1, h2, a0, a1, a2⟩
    rcases import_alloc provider type handle data datasize flags s hf hm h1 h2 with
      ⟨_, _, _, h⟩ | ⟨hn, _, _⟩
    · exact h
    · exact absurd ⟨a0, a1, a2⟩ hn

/-- C2: when NCryptImportKey returns ERROR_SUCCESS, the value stored through handle is the
address of a live object of type KEY and algorithm RSA whose public_exp_size is cbPublicExp
and whose modulus_size is cbModulus; its public_exp buffer holds exactly the cbPublicExp
bytes of data right after the 24-byte header and its modulus buffer exactly the cbModulus
bytes that follow them. -/
theorem C2_import_key_contents (provider decrypt_key : Nat) (type : Option (List Nat))
    (params handle : Nat) (data : Nat → Nat) (datasize flags : Nat) (s : State)
    (h : (NCryptImportKey provider decrypt_key type params handle data datasize flags s).1
      = ERROR_SUCCESS) :
    ∃ obj o,
      (NCryptImportKey provider decrypt_key type params handle data datasize flags s).2.out
          = (handle, obj) :: s.out ∧
      (NCryptImportKey provider decrypt_key type params handle data datasize flags s).2.load obj
          = some (block.obj o) ∧
      o.type = KEY ∧ o.key.alg = RSA ∧
      o.key.rsa.public_exp_size = cbPublicExp data ∧
      o.key.rsa.modulus_size = cbModulus data ∧
      (NCryptImportKey provider decrypt_key type params handle data datasize flags s).2.load
          o.key.rsa.public_exp
        = some (block.bytes ((List.range (cbPublicExp data)).map
            (fun i => some (byte data (sizeof_BCRYPT_RSAKEY_BLOB + i))))) ∧
      (NCryptImportKey provider decrypt_key type params handle data datasize flags s).2.load
          o.key.rsa.modulus
        = some (block.bytes ((List.range (cbModulus data)).map
            (fun i => some (byte data (sizeof_BCRYPT_RSAKEY_BLOB + cbPublicExp data + i))))) := by
  obtain ⟨rfl, rfl, hf, hm, h1, h2, a0, a1, a2⟩ := import_success_inv _ _ _ _ _ _ _ _ _ h
  obtain ⟨rest, ho⟩ := oracle_of_succeeds s a0 a1 a2
  obtain ⟨cells, o, out⟩ := s
  simp only at ho
  subst ho
  rw [import_success _ _ _ _ _ _ _ _ _ hf hm h1 h2]
  refine ⟨cells.length + 1, key_object (cbPublicExp data) (cells.length + 2) (cbModulus data)
    (cells.length + 3), rfl, ?_, rfl, rfl, rfl, rfl, ?_, ?_⟩
  · exact load_append cells _ _ _ 0
  · exact load_append cells _ _ _ 1
  · exact load_append cells _ _ _ 2

/-- Witness for C2: the 29-byte sample blob is imported with its exponent and modulus. -/
theorem C2_import_key_contents_witness :
    (NCryptImportKey 0 0 none 0 77 (mem sample_blob) 29 0 (sample_state 3)).1 = ERROR_SUCCESS ∧
    ∃ obj o,
      (NCryptImportKey 0 0 none 0 77 (mem sample_blob) 29 0 (sample_state 3)).2.out
          = (77, obj) :: (sample_state 3).out ∧
      (NCryptImportKey 0 0 none 0 77 (mem sample_blob) 29 0 (sample_state 3)).2.load obj
          = some (block.obj o) ∧
      o.type = KEY ∧ o.key.alg = RSA ∧
      o.key.rsa.public_exp_size = cbPublicExp (mem sample_blob) ∧
      o.key.rsa.modulus_size = cbModulus (mem sample_blob) ∧
      (NCryptImportKey 0 0 none 0 77 (mem sample_blob) 29 0 (sample_state 3)).2.load
          o.key.rsa.public_exp
        = some (block.bytes ((List.range (cbPublicExp (mem sample_blob))).map
            (fun i => some (byte (mem sample_blob) (sizeof_BCRYPT_RSAKEY_BLOB + i))))) ∧
      (NCryptImportKey 0 0 none 0 77 (mem sample_blob) 29 0 (sample_state 3)).2.load
          o.key.rsa.modulus
        = some (block.bytes ((List.range (cbModulus (mem sample_blob))).map
            (fun i => some (byte (mem sample_blob)
              (sizeof_BCRYPT_RSAKEY_BLOB + cbPublicExp (mem sample_blob) + i))))) :=
  ⟨by decide,
    C2_import_key_contents 0 0 none 0 77 (mem sample_blob) 29 0 (sample_state 3) (by decide)⟩

/-- C3: each of the thirteen stub entry points returns NTE_NOT_SUPPORTED for every
combination of arguments and hands back the state it was given: nothing is stored through
key, result, alg_count, alg_list, key_name, enum_state or output. -/
theorem C3_stubs_not_supported :
    (∀ (provider key : Nat) (algid name : Option (List Nat)) (keyspec flags : Nat) (s : State),
      NCryptCreatePersistedKey provider key algid name keyspec flags s
        = (NTE_NOT_SUPPORTED, s)) ∧
    (∀ (key input insize padding output outsize result flags : Nat) (s : State),
      NCryptDecrypt key input insize padding output outsize result flags s
        = (NTE_NOT_SUPPORTED, s)) ∧
    (∀ (key flags : Nat) (s : State), NCryptDeleteKey key flags s = (NTE_NOT_SUPPORTED, s)) ∧
    (∀ (key input insize padding output outsize result flags : Nat) (s : State),
      NCryptEncrypt key input insize padding output outsize result flags s
        = (NTE_NOT_SUPPORTED, s)) ∧
    (∀ (provider alg_ops alg_count alg_list flags : Nat) (s : State),
      NCryptEnumAlgorithms provider alg_ops alg_count alg_list flags s
        = (NTE_NOT_SUPPORTED, s)) ∧
    (∀ (provider : Nat) (scope : Option (List Nat)) (key_name enum_state flags : Nat)
        (s : State),
      NCryptEnumKeys provider scope key_name enum_state flags s = (NTE_NOT_SUPPORTED, s)) ∧
    (∀ (key flags : Nat) (s : State), NCryptFinalizeKey key flags s = (NTE_NOT_SUPPORTED, s)) ∧
    (∀ (buf : Nat) (s : State), NCryptFreeBuffer buf s = (NTE_NOT_SUPPORTED, s)) ∧
    (∀ (object : Nat) (s : State), NCryptFreeObject object s = (NTE_NOT_SUPPORTED, s)) ∧
    (∀ (object : Nat) (property : Option (List Nat)) (output outsize result flags : Nat)
        (s : State),
      NCryptGetProperty object property output outsize result flags s
        = (NTE_NOT_SUPPORTED, s)) ∧
    (∀ (provider : Nat) (algid : Option (List Nat)) (flags : Nat) (s : State),
      NCryptIsAlgSupported provider algid flags s = (NTE_NOT_SUPPORTED, s)) ∧
    (∀ (provider key : Nat) (name : Option (List Nat)) (keyspec flags : Nat) (s : State),
      NCryptOpenKey provider key name keyspec flags s = (NTE_NOT_SUPPORTED, s)) ∧
    (∀ (object : Nat) (property : Option (List Nat)) (input insize flags : Nat) (s : State),
      NCryptSetProperty object property input insize flags s = (NTE_NOT_SUPPORTED, s)) :=
  ⟨fun _ _ _ _ _ _ _ => rfl, fun _ _ _ _ _ _ _ _ _ => rfl, fun _ _ _ => rfl,
    fun _ _ _ _ _ _ _ _ _ => rfl, fun _ _ _ _ _ _ => rfl, fun _ _ _ _ _ _ => rfl,
    fun _ _ _ => rfl, fun _ _ => rfl, fun _ _ => rfl, fun _ _ _ _ _ _ _ => rfl,
    fun _ _ _ _ => rfl, fun _ _ _ _ _ _ => rfl, fun _ _ _ _ _ _ => rfl⟩

/-- C4: NCryptImportKey returns NTE_NOT_SUPPORTED (and changes nothing) whenever
decrypt_key is non-zero, and whenever decrypt_key is zero and params is non-NULL, whatever
flags, data and datasize are. -/
theorem C4_import_not_supported (provider decrypt_key : Nat) (type : Option (List Nat))
    (params handle : Nat) (data : Nat → Nat) (datasize flags : Nat) (s : State)
    (h : decrypt_key ≠ 0 ∨ (decrypt_key = 0 ∧ params ≠ 0)) :
    NCryptImportKey provider decrypt_key type params handle data datasize flags s
      = (NTE_NOT_SUPPORTED, s) := by
  rcases h with h | ⟨rfl, h⟩
  · exact import_decrypt_key _ _ _ _ _ _ _ _ _ h
  · exact import_params _ _ _ _ _ _ _ _ h

/-- Witness for C4: a decryption key with invalid flags 0x41 and a private-key blob, and
a parameter list with a well-formed blob. -/
theorem C4_import_not_supported_witness :
    ((5 : Nat) ≠ 0 ∨ ((5 : Nat) = 0 ∧ (0 : Nat) ≠ 0)) ∧
    NCryptImportKey 1 5 none 0 77 (mem sample_private_blob) 3 0x41 (sample_state 3)
      = (NTE_NOT_SUPPORTED, sample_state 3) ∧
    ((0 : Nat) ≠ 0 ∨ ((0 : Nat) = 0 ∧ (9 : Nat) ≠ 0)) ∧
    NCryptImportKey 1 0 none 9 77 (mem sample_blob) 29 0 (sample_state 3)
      = (NTE_NOT_SUPPORTED, sample_state 3) :=
  ⟨by decide,
    C4_import_not_supported 1 5 none 0 77 (mem sample_private_blob) 3 0x41 (sample_state 3)
      (by decide),
    by decide,
    C4_import_not_supported 1 0 none 9 77 (mem sample_blob) 29 0 (sample_state 3) (by decide)⟩

/-- C5: with decrypt_key = 0 and params = NULL, every flags value other than 0 and
NCRYPT_SILENT_FLAG (also one that contains NCRYPT_SILENT_FLAG among other bits) makes
NCryptImportKey return NTE_BAD_FLAGS, whatever data and datasize are. -/
theorem C5_import_bad_flags (provider : Nat) (type : Option (List Nat)) (handle : Nat)
    (data : Nat → Nat) (datasize flags : Nat) (s : State)
    (h0 : flags ≠ 0) (h1 : flags ≠ NCRYPT_SILENT_FLAG) :
    NCryptImportKey provider 0 type 0 handle data datasize flags s = (NTE_BAD_FLAGS, s) :=
  import_bad_flags provider type handle data datasize flags s h0 h1

/-- Witness for C5: flags 0x41 is NCRYPT_SILENT_FLAG together with bit 0. -/
theorem C5_import_bad_flags_witness :
    (0x41 : Nat) ≠ 0 ∧ (0x41 : Nat) ≠ NCRYPT_SILENT_FLAG ∧
    NCryptImportKey 1 0 none 0 77 (mem sample_blob) 29 0x41 (sample_state 3)
      = (NTE_BAD_FLAGS, sample_state 3) :=
  ⟨by decide, by decide,
    C5_import_bad_flags 1 none 77 (mem sample_blob) 29 0x41 (sample_state 3)
      (by decide) (by decide)⟩

/-- C6: after the decrypt_key, params and flags checks, with Magic BCRYPT_RSAPUBLIC_MAGIC,
NCryptImportKey returns NTE_BAD_DATA when datasize is below sizeof(BCRYPT_RSAKEY_BLOB) and
when datasize differs from sizeof(BCRYPT_RSAKEY_BLOB) + cbPublicExp + cbModulus modulo
2 ^ 32. In the first case this holds for every memory with that Magic, whatever its
cbPublicExp and cbModulus bytes; in both cases the state, heap and allocation oracle
included, is the one passed in. -/
theorem C6_import_bad_data (provider decrypt_key : Nat) (type : Option (List Nat))
    (params handle : Nat) (data : Nat → Nat) (datasize flags : Nat) (s : State)
    (ha : args_ok decrypt_key params flags) (hm : Magic data = BCRYPT_RSAPUBLIC_MAGIC) :
    (datasize < sizeof_BCRYPT_RSAKEY_BLOB →
      ∀ other : Nat → Nat, Magic other = Magic data →
        NCryptImportKey provider decrypt_key type params handle other datasize flags s
          = (NTE_BAD_DATA, s)) ∧
    (datasize ≠ (sizeof_BCRYPT_RSAKEY_BLOB + cbPublicExp data + cbModulus data) % 2 ^ 32 →
      NCryptImportKey provider decrypt_key type params handle data datasize flags s
        = (NTE_BAD_DATA, s)) := by
  obtain ⟨rfl, rfl, hf⟩ := ha
  constructor
  · intro h other ho
    exact import_short _ _ _ _ _ _ _ hf (ho.trans hm) h
  · intro h
    exact import_size_mismatch _ _ _ _ _ _ _ hf hm h

/-- Witness for C6: the sample blob with datasize 3 (then also with other size fields)
and with datasize 28. -/
theorem C6_import_bad_data_witness :
    args_ok 0 0 NCRYPT_SILENT_FLAG ∧ Magic (mem sample_blob) = BCRYPT_RSAPUBLIC_MAGIC ∧
    (3 < sizeof_BCRYPT_RSAKEY_BLOB ∧
      NCryptImportKey 1 0 none 0 77 (mem [0x52, 0x53, 0x41, 0x31, 0, 0, 0, 0, 255, 255, 255,
          255, 7, 7, 7, 7]) 3 NCRYPT_SILENT_FLAG (sample_state 3)
        = (NTE_BAD_DATA, sample_state 3)) ∧
    (28 ≠ (sizeof_BCRYPT_RSAKEY_BLOB + cbPublicExp (mem sample_blob)
        + cbModulus (mem sample_blob)) % 2 ^ 32 ∧
      NCryptImportKey 1 0 none 0 77 (mem sample_blob) 28 NCRYPT_SILENT_FLAG (sample_state 3)
        = (NTE_BAD_DATA, sample_state 3)) :=
  ⟨by decide, by decide,
    ⟨by decide,
      (C6_import_bad_data 1 0 none 0 77 (mem sample_blob) 3 NCRYPT_SILENT_FLAG (sample_state 3)
        (by decide) (by decide)).1 (by decide) _ (by decide)⟩,
    ⟨by decide,
      (C6_import_bad_data 1 0 none 0 77 (mem sample_blob) 28 NCRYPT_SILENT_FLAG
        (sample_state 3) (by decide) (by decide)).2 (by decide)⟩⟩

/-- C7: after the decrypt_key, params and flags checks, a blob whose Magic is not
BCRYPT_RSAPUBLIC_MAGIC makes NCryptImportKey return NTE_INVALID_PARAMETER, whatever
datasize is. -/
theorem C7_import_bad_magic (provider decrypt_key : Nat) (type : Option (List Nat))
    (params handle : Nat) (data : Nat → Nat) (datasize flags : Nat) (s : State)
    (ha : args_ok decrypt_key params flags) (hm : Magic data ≠ BCRYPT_RSAPUBLIC_MAGIC) :
    NCryptImportKey provider decrypt_key type params handle data datasize flags s
      = (NTE_INVALID_PARAMETER, s) := by
  obtain ⟨rfl, rfl, hf⟩ := ha
  exact import_bad_magic _ _ _ _ _ _ _ hf hm

/-- Witness for C7: an RSA private key blob (magic RSA2), with datasize 0. -/
theorem C7_import_bad_magic_witness :
    args_ok 0 0 0 ∧ Magic (mem sample_private_blob) ≠ BCRYPT_RSAPUBLIC_MAGIC ∧
    NCryptImportKey 1 0 none 0 77 (mem sample_private_blob) 0 0 (sample_state 3)
      = (NTE_INVALID_PARAMETER, sample_state 3) :=
  ⟨by decide, by decide,
    C7_import_bad_magic 1 0 none 0 77 (mem sample_private_blob) 0 0 (sample_state 3)
      (by decide) (by decide)⟩

/-- C8: for a call with a well-formed RSA public blob that passes the argument and size
checks, if the allocation of the object, of the public exponent buffer or of the modulus
buffer fails, NCryptImportKey returns NTE_NO_MEMORY and stores nothing through handle;
and NTE_NO_MEMORY is returned by no other call. -/
theorem C8_import_no_memory (provider decrypt_key : Nat) (type : Option (List Nat))
    (params handle : Nat) (data : Nat → Nat) (datasize flags : Nat) (s : State) :
    (args_ok decrypt_key params flags → Magic data = BCRYPT_RSAPUBLIC_MAGIC →
      sizeof_BCRYPT_RSAKEY_BLOB ≤ datasize →
      datasize = (sizeof_BCRYPT_RSAKEY_BLOB + cbPublicExp data + cbModulus data) % 2 ^ 32 →
      (¬ alloc_succeeds s 0 ∨ ¬ alloc_succeeds s 1 ∨ ¬ alloc_succeeds s 2) →
      (NCryptImportKey provider decrypt_key type params handle data datasize flags s).1
          = NTE_NO_MEMORY ∧
        (NCryptImportKey provider decrypt_key type params handle data datasize flags s).2.out
          = s.out) ∧
    ((NCryptImportKey provider decrypt_key type params handle data datasize flags s).1
        = NTE_NO_MEMORY →
      args_ok decrypt_key params flags ∧ Magic data = BCRYPT_RSAPUBLIC_MAGIC ∧
        sizeof_BCRYPT_RSAKEY_BLOB ≤ datasize ∧
        datasize = (sizeof_BCRYPT_RSAKEY_BLOB + cbPublicExp data + cbModulus data) % 2 ^ 32 ∧
        (¬ alloc_succeeds s 0 ∨ ¬ alloc_succeeds s 1 ∨ ¬ alloc_succeeds s 2)) := by
  constructor
  · rintro ⟨rfl, rfl, hf⟩ hm h1 h2 hfail
    rcases import_alloc provider type handle data datasize flags s hf hm h1 h2 with
      ⟨a0, a1, a2, _⟩ | ⟨_, hs, hout⟩
    · rcases hfail with h | h | h
      · exact absurd a0 h
      · exact absurd a1 h
      · exact absurd a2 h
    · exact ⟨hs, hout⟩
  · intro h
    obtain ⟨n1, n2, n3, n4, n5⟩ := status_ne_no_memory
    by_cases hd : decrypt_key = 0
    swap
    · rw [import_decrypt_key _ _ _ _ _ _ _ _ _ hd] at h
      exact absurd h n1
    subst hd
    by_cases hp : params = 0
    swap
    · rw [import_params _ _ _ _ _ _ _ _ hp] at h
      exact absurd h n1
    subst hp
    by_cases hf : flags = 0 ∨ flags = NCRYPT_SILENT_FLAG
    swap
    · rw [not_or] at hf
      rw [import_bad_flags _ _ _ _ _ _ _ hf.1 hf.2] at h
      exact absurd h n2
    by_cases hm : Magic data = BCRYPT_RSAPUBLIC_MAGIC
    swap
    · rw [import_bad_magic _ _ _ _ _ _ _ hf hm] at h
      exact absurd h n4
    by_cases h1 : datasize < sizeof_BCRYPT_RSAKEY_BLOB
    · rw [import_short _ _ _ _ _ _ _ hf hm h1] at h
      exact absurd h n3
    by_cases h2 : datasize = expected_size data
    swap
    · rw [import_size_mismatch _ _ _ _ _ _ _ hf hm h2] at h
      exact absurd h n3
    rcases import_alloc provider type handle data datasize flags s hf hm (by omega) h2 with
      ⟨_, _, _, hs⟩ | ⟨hn, _, _⟩
    · rw [hs] at h
      exact absurd h n5
    · refine ⟨⟨rfl, rfl, hf⟩, hm, by omega, h2, ?_⟩
      by_cases a0 : alloc_succeeds s 0
      · by_cases a1 : alloc_succeeds s 1
        · exact Or.inr (Or.inr (fun a2 => hn ⟨a0, a1, a2⟩))
        · exact Or.inr (Or.inl a1)
      · exact Or.inl a0

/-- Witness for C8: on the sample blob the modulus allocation (request 2) fails. -/
theorem C8_import_no_memory_witness :
    args_ok 0 0 0 ∧ Magic (mem sample_blob) = BCRYPT_RSAPUBLIC_MAGIC ∧
    sizeof_BCRYPT_RSAKEY_BLOB ≤ 29 ∧
    29 = (sizeof_BCRYPT_RSAKEY_BLOB + cbPublicExp (mem sample_blob)
      + cbModulus (mem sample_blob)) % 2 ^ 32 ∧
    (¬ alloc_succeeds (sample_state 2) 0 ∨ ¬ alloc_succeeds (sample_state 2) 1 ∨
      ¬ alloc_succeeds (sample_state 2) 2) ∧
    (NCryptImportKey 1 0 none 0 77 (mem sample_blob) 29 0 (sample_state 2)).1 = NTE_NO_MEMORY ∧
    (NCryptImportKey 1 0 none 0 77 (mem sample_blob) 29 0 (sample_state 2)).2.out
      = (sample_state 2).out :=
  ⟨by decide, by decide, by decide, by decide, by decide,
    (C8_import_no_memory 1 0 none 0 77 (mem sample_blob) 29 0 (sample_state 2)).1
      (by decide) (by decide) (by decide) (by decide) (by decide)⟩

/-- C9: for every name and flags, NCryptOpenStorageProvider returns ERROR_SUCCESS and
stores through provider the address of a fresh object (not NULL, no live block there
before) of type STORAGE_PROVIDER with all other fields zero when the allocation succeeds;
when it fails the result is NTE_NO_MEMORY and nothing is stored. The outcome is the same
for every name and flags. -/
theorem C9_open_storage_provider (provider : Nat) (name : Option (List Nat)) (flags : Nat)
    (s : State) :
    (alloc_succeeds s 0 →
      ∃ p, (NCryptOpenStorageProvider provider name flags s).1 = ERROR_SUCCESS ∧
        (NCryptOpenStorageProvider provider name flags s).2.out = (provider, p) :: s.out ∧
        p ≠ 0 ∧ s.load p = none ∧
        (NCryptOpenStorageProvider provider name flags s).2.load p
          = some (block.obj { type := STORAGE_PROVIDER, key := { alg := 0, rsa :=
              { public_exp_size := 0, public_exp := 0, modulus_size := 0, modulus := 0 } } })) ∧
    (¬ alloc_succeeds s 0 →
      (NCryptOpenStorageProvider provider name flags s).1 = NTE_NO_MEMORY ∧
        (NCryptOpenStorageProvider provider name flags s).2.out = s.out) ∧
    (∀ (name2 : Option (List Nat)) (flags2 : Nat),
      NCryptOpenStorageProvider provider name2 flags2 s
        = NCryptOpenStorageProvider provider name flags s) := by
  obtain ⟨cells, o, out⟩ := s
  refine ⟨?_, ?_, fun _ _ => rfl⟩
  · intro h
    unfold alloc_succeeds at h
    match o, h with
    | true :: rest, _ =>
      have hne : ¬ (cells.length + 1 = 0) := by omega
      have e : NCryptOpenStorageProvider provider name flags ⟨cells, true :: rest, out⟩
          = (ERROR_SUCCESS,
              ⟨cells ++ [some (block.obj ⟨STORAGE_PROVIDER, zero_object.key⟩)], rest,
                (provider, cells.length + 1) :: out⟩) := by
        simp only [NCryptOpenStorageProvider, allocate_object, alloc_at0, if_neg hne,
          update_at1, State.write]
      rw [e]
      exact ⟨cells.length + 1, rfl, rfl, hne, load_fresh cells _ _, load_append cells _ _ _ 0⟩
    | false :: rest, h => simp at h
    | [], h => simp at h
  · intro h
    have ho : o.head? ≠ some true := by
      rw [head_getElem]
      exact h
    have e : NCryptOpenStorageProvider provider name flags ⟨cells, o, out⟩
        = (NTE_NO_MEMORY, ⟨cells, o.tail, out⟩) := by
      simp only [NCryptOpenStorageProvider, allocate_object, alloc_none _ _ _ _ ho, if_true]
    rw [e]
    exact ⟨rfl, rfl⟩

/-- Witness for C9: one call on a heap where the allocation succeeds, one where it fails. -/
theorem C9_open_storage_provider_witness :
    (alloc_succeeds (sample_state 1) 0 ∧
      ∃ p, (NCryptOpenStorageProvider 88 none 7 (sample_state 1)).1 = ERROR_SUCCESS ∧
        (NCryptOpenStorageProvider 88 none 7 (sample_state 1)).2.out
          = (88, p) :: (sample_state 1).out ∧
        p ≠ 0 ∧ (sample_state 1).load p = none ∧
        (NCryptOpenStorageProvider 88 none 7 (sample_state 1)).2.load p
          = some (block.obj { type := STORAGE_PROVIDER, key := { alg := 0, rsa :=
              { public_exp_size := 0, public_exp := 0, modulus_size := 0, modulus := 0 } } })) ∧
    (¬ alloc_succeeds (sample_state 0) 0 ∧
      (NCryptOpenStorageProvider 88 none 7 (sample_state 0)).1 = NTE_NO_MEMORY ∧
      (NCryptOpenStorageProvider 88 none 7 (sample_state 0)).2.out = (sample_state 0).out) :=
  ⟨⟨by decide, (C9_open_storage_provider 88 none 7 (sample_state 1)).1 (by decide)⟩,
    ⟨by decide, (C9_open_storage_provider 88 none 7 (sample_state 0)).2.1 (by decide)⟩⟩

/-- C10: NCryptIsKeyHandle returns FALSE for every handle value and leaves the state
alone; in particular it returns FALSE for the handle that a successful NCryptImportKey
has just stored through its handle argument. -/
theorem C10_is_key_handle_false (hKey : Nat) (s : State) :
    NCryptIsKeyHandle hKey s = (FALSE, s) ∧
    ∀ (provider decrypt_key : Nat) (type : Option (List Nat)) (params handle : Nat)
      (data : Nat → Nat) (datasize flags : Nat),
      (NCryptImportKey provider decrypt_key type params handle data datasize flags s).1
          = ERROR_SUCCESS →
      ∃ key,
        (NCryptImportKey provider decrypt_key type params handle data datasize flags s).2.stored
            handle = some key ∧
        (NCryptIsKeyHandle key
          (NCryptImportKey provider decrypt_key type params handle data datasize flags s).2).1
            = FALSE := by
  refine ⟨rfl, ?_⟩
  intro provider decrypt_key type params handle data datasize flags h
  obtain ⟨rfl, rfl, hf, hm, h1, h2, a0, a1, a2⟩ := import_success_inv _ _ _ _ _ _ _ _ _ h
  obtain ⟨rest, ho⟩ := oracle_of_succeeds s a0 a1 a2
  obtain ⟨cells, o, out⟩ := s
  simp only at ho
  subst ho
  rw [import_success _ _ _ _ _ _ _ _ _ hf hm h1 h2]
  exact ⟨cells.length + 1, by simp [State.stored], rfl⟩

/-- Witness for C10: the handle returned for the sample blob is not reported as a key. -/
theorem C10_is_key_handle_false_witness :
    (NCryptImportKey 1 0 none 0 77 (mem sample_blob) 29 0 (sample_state 3)).1 = ERROR_SUCCESS ∧
    ∃ key,
      (NCryptImportKey 1 0 none 0 77 (mem sample_blob) 29 0 (sample_state 3)).2.stored 77
        = some key ∧
      (NCryptIsKeyHandle key
        (NCryptImportKey 1 0 none 0 77 (mem sample_blob) 29 0 (sample_state 3)).2).1 = FALSE :=
  ⟨by decide,
    (C10_is_key_handle_false 0 (sample_state 3)).2 1 0 none 0 77 (mem sample_blob) 29 0
      (by decide)⟩

/-- Every call ends in one of six ways; only the successful one stores through `handle`,
and it stores exactly once. -/
theorem import_cases (provider decrypt_key : Nat) (type : Option (List Nat))
    (params handle : Nat) (data : Nat → Nat) (datasize flags : Nat) (s : State) :
    NCryptImportKey provider decrypt_key type params handle data datasize flags s
        = (NTE_NOT_SUPPORTED, s) ∨
    NCryptImportKey provider decrypt_key type params handle data datasize flags s
        = (NTE_BAD_FLAGS, s) ∨
    NCryptImportKey provider decrypt_key type params handle data datasize flags s
        = (NTE_BAD_DATA, s) ∨
    NCryptImportKey provider decrypt_key type params handle data datasize flags s
        = (NTE_INVALID_PARAMETER, s) ∨
    ((NCryptImportKey provider decrypt_key type params handle data datasize flags s).1
        = NTE_NO_MEMORY ∧
      (NCryptImportKey provider decrypt_key type params handle data datasize flags s).2.out
        = s.out) ∨
    ((NCryptImportKey provider decrypt_key type params handle data datasize flags s).1
        = ERROR_SUCCESS ∧
      ∃ v, (NCryptImportKey provider decrypt_key type params handle data datasize flags s).2.out
        = (handle, v) :: s.out) := by
  by_cases hd : decrypt_key = 0
  swap
  · exact Or.inl (import_decrypt_key _ _ _ _ _ _ _ _ _ hd)
  subst hd
  by_cases hp : params = 0
  swap
  · exact Or.inl (import_params _ _ _ _ _ _ _ _ hp)
  subst hp
  by_cases hf : flags = 0 ∨ flags = NCRYPT_SILENT_FLAG
  swap
  · rw [not_or] at hf
    exact Or.inr (Or.inl (import_bad_flags _ _ _ _ _ _ _ hf.1 hf.2))
  by_cases hm : Magic data = BCRYPT_RSAPUBLIC_MAGIC
  swap
  · exact Or.inr (Or.inr (Or.inr (Or.inl (import_bad_magic _ _ _ _ _ _ _ hf hm))))
  by_cases h1 : datasize < sizeof_BCRYPT_RSAKEY_BLOB
  · exact Or.inr (Or.inr (Or.inl (import_short _ _ _ _ _ _ _ hf hm h1)))
  by_cases h2 : datasize = expected_size data
  swap
  · exact Or.inr (Or.inr (Or.inl (import_size_mismatch _ _ _ _ _ _ _ hf hm h2)))
  have h1' : sizeof_BCRYPT_RSAKEY_BLOB ≤ datasize := by omega
  rcases import_alloc provider type handle data datasize flags s hf hm h1' h2 with
    ⟨a0, a1, a2, hs⟩ | ⟨_, hs, hout⟩
  · obtain ⟨rest, ho⟩ := oracle_of_succeeds s a0 a1 a2
    obtain ⟨cells, o, out⟩ := s
    simp only at ho
    subst ho
    refine Or.inr (Or.inr (Or.inr (Or.inr (Or.inr ⟨hs, cells.length + 1, ?_⟩))))
    rw [import_success _ _ _ _ _ _ _ _ _ hf hm h1' h2]
  · exact Or.inr (Or.inr (Or.inr (Or.inr (Or.inl ⟨hs, hout⟩))))

/-- The result depends on the blob only through Magic, the two size fields and the
bytes from offset 24 on, and not at all on provider and type. -/
theorem import_congr (provider provider2 decrypt_key : Nat) (type type2 : Option (List Nat))
    (params handle : Nat) (data data2 : Nat → Nat) (datasize flags : Nat) (s : State)
    (hM : Magic data = Magic data2) (hE : cbPublicExp data = cbPublicExp data2)
    (hN : cbModulus data = cbModulus data2)
    (hB : ∀ i, byte data (sizeof_BCRYPT_RSAKEY_BLOB + i)
      = byte data2 (sizeof_BCRYPT_RSAKEY_BLOB + i)) :
    NCryptImportKey provider decrypt_key type params handle data datasize flags s
      = NCryptImportKey provider2 decrypt_key type2 params handle data2 datasize flags s := by
  have hX : expected_size data = expected_size data2 := by
    unfold expected_size
    rw [hE, hN]
  have hF1 : (fun i => byte data (sizeof_BCRYPT_RSAKEY_BLOB + i))
      = (fun i => byte data2 (sizeof_BCRYPT_RSAKEY_BLOB + i)) := funext hB
  have hF2 : (fun i => byte data (sizeof_BCRYPT_RSAKEY_BLOB + cbPublicExp data2 + i))
      = (fun i => byte data2 (sizeof_BCRYPT_RSAKEY_BLOB + cbPublicExp data2 + i)) := by
    funext i
    rw [Nat.add_assoc]
    exact hB _
  unfold NCryptImportKey
  rw [hM, hX, hE, hN, hF1, hF2]

/-- C15 (the code at the failing input): a 24-byte blob whose cbPublicExp is 0xFFFFFFFF
and whose cbModulus is 1 is imported with ERROR_SUCCESS for datasize 24, although
sizeof(BCRYPT_RSAKEY_BLOB) + cbPublicExp + cbModulus is 4294967320 without wrap-around and
the public exponent range already ends far beyond the first datasize bytes. -/
theorem C15_wrapped_size_accepted :
    (NCryptImportKey 1 0 none 0 77 (mem wrap_blob) 24 0 (sample_state 3)).1 = ERROR_SUCCESS ∧
    sizeof_BCRYPT_RSAKEY_BLOB + cbPublicExp (mem wrap_blob) + cbModulus (mem wrap_blob)
      = 4294967320 ∧
    sizeof_BCRYPT_RSAKEY_BLOB + cbPublicExp (mem wrap_blob) + cbModulus (mem wrap_blob) ≠ 24 ∧
    24 < sizeof_BCRYPT_RSAKEY_BLOB + cbPublicExp (mem wrap_blob) := by
  refine ⟨?_, by decide, by decide, by decide⟩
  rcases import_alloc 1 none 77 (mem wrap_blob) 24 0 (sample_state 3) (Or.inl rfl)
      (by decide) (by decide) (by decide) with ⟨_, _, _, h⟩ | ⟨hn, _, _⟩
  · exact h
  · exact absurd (by decide) hn

/-- C16 (the code at the failing input): with datasize 3 two memories that agree on their
first three bytes and differ in the fourth get different statuses, NTE_BAD_DATA and
NTE_INVALID_PARAMETER: the Magic field is read although datasize is below 4. -/
theorem C16_magic_read_past_datasize :
    (∀ i, i < 3 → mem [0x52, 0x53, 0x41, 0x31] i = mem [0x52, 0x53, 0x41, 0x32] i) ∧
    (NCryptImportKey 1 0 none 0 77 (mem [0x52, 0x53, 0x41, 0x31]) 3 0 (sample_state 3)).1
      = NTE_BAD_DATA ∧
    (NCryptImportKey 1 0 none 0 77 (mem [0x52, 0x53, 0x41, 0x32]) 3 0 (sample_state 3)).1
      = NTE_INVALID_PARAMETER ∧
    NTE_BAD_DATA ≠ NTE_INVALID_PARAMETER := by
  refine ⟨by decide, ?_, ?_, by decide⟩
  · rw [import_short 1 none 77 _ 3 0 _ (Or.inl rfl) (by decide) (by decide)]
  · rw [import_bad_magic 1 none 77 _ 3 0 _ (Or.inl rfl) (by decide)]

/-- C17: when NCryptImportKey returns a status other than ERROR_SUCCESS nothing is stored
through handle (the stores, and so the value at handle, are those the caller passed); when
it returns ERROR_SUCCESS exactly one store through handle is added. -/
theorem C17_handle_written_on_success_only (provider decrypt_key : Nat)
    (type : Option (List Nat)) (params handle : Nat) (data : Nat → Nat)
    (datasize flags : Nat) (s : State) :
    ((NCryptImportKey provider decrypt_key type params handle data datasize flags s).1
        ≠ ERROR_SUCCESS →
      (NCryptImportKey provider decrypt_key type params handle data datasize flags s).2.out
          = s.out ∧
      (NCryptImportKey provider decrypt_key type params handle data datasize flags s).2.stored
          handle = s.stored handle) ∧
    ((NCryptImportKey provider decrypt_key type params handle data datasize flags s).1
        = ERROR_SUCCESS →
      ∃ v, (NCryptImportKey provider decrypt_key type params handle data datasize flags s).2.out
        = (handle, v) :: s.out) := by
  obtain ⟨n1, n2, n3, n4, n5⟩ := status_ne_success
  rcases import_cases provider decrypt_key type params handle data datasize flags s with
    h | h | h | h | ⟨hs, hout⟩ | ⟨hs, hv⟩
  · rw [h]
    exact ⟨fun _ => ⟨rfl, rfl⟩, fun e => absurd e n1⟩
  · rw [h]
    exact ⟨fun _ => ⟨rfl, rfl⟩, fun e => absurd e n2⟩
  · rw [h]
    exact ⟨fun _ => ⟨rfl, rfl⟩, fun e => absurd e n3⟩
  · rw [h]
    exact ⟨fun _ => ⟨rfl, rfl⟩, fun e => absurd e n4⟩
  · refine ⟨fun _ => ⟨hout, ?_⟩, fun e => absurd (hs.symm.trans e) n5⟩
    unfold State.stored
    rw [hout]
  · exact ⟨fun e => absurd hs e, fun _ => hv⟩

/-- Witness for C17: a failed import (bad flags) and a successful one of the sample blob. -/
theorem C17_handle_written_on_success_only_witness :
    ((NCryptImportKey 1 0 none 0 77 (mem sample_blob) 29 0x41 (sample_state 3)).1
        ≠ ERROR_SUCCESS ∧
      (NCryptImportKey 1 0 none 0 77 (mem sample_blob) 29 0x41 (sample_state 3)).2.out
          = (sample_state 3).out ∧
      (NCryptImportKey 1 0 none 0 77 (mem sample_blob) 29 0x41 (sample_state 3)).2.stored 77
          = (sample_state 3).stored 77) ∧
    ((NCryptImportKey 1 0 none 0 77 (mem sample_blob) 29 0 (sample_state 3)).1
        = ERROR_SUCCESS ∧
      ∃ v, (NCryptImportKey 1 0 none 0 77 (mem sample_blob) 29 0 (sample_state 3)).2.out
        = (77, v) :: (sample_state 3).out) :=
  ⟨⟨by decide,
      (C17_handle_written_on_success_only 1 0 none 0 77 (mem sample_blob) 29 0x41
        (sample_state 3)).1 (by decide)⟩,
    ⟨by decide,
      (C17_handle_written_on_success_only 1 0 none 0 77 (mem sample_blob) 29 0
        (sample_state 3)).2 (by decide)⟩⟩

/-- C18: two calls of NCryptImportKey that differ only in the provider handle, in the type
string and in the blob bytes of BitLength (offsets 4 to 7), cbPrime1 and cbPrime2 (offsets
16 to 23) give the same result: the same status and the same state after the call, hence
on success the same key object, sizes and buffer bytes. -/
theorem C18_import_ignores_provider_type_primes (provider provider2 decrypt_key : Nat)
    (type type2 : Option (List Nat)) (params handle : Nat) (data data2 : Nat → Nat)
    (datasize flags : Nat) (s : State)
    (h : ∀ i, (i < 4 ∨ (8 ≤ i ∧ i < 16) ∨ 24 ≤ i) → data i = data2 i) :
    NCryptImportKey provider decrypt_key type params handle data datasize flags s
      = NCryptImportKey provider2 decrypt_key type2 params handle data2 datasize flags s := by
  apply import_congr
  · simp only [Magic, read_ULONG, byte]
    rw [h 0 (by omega), h (0 + 1) (by omega), h (0 + 2) (by omega), h (0 + 3) (by omega)]
  · simp only [cbPublicExp, read_ULONG, byte]
    rw [h 8 (by omega), h (8 + 1) (by omega), h (8 + 2) (by omega), h (8 + 3) (by omega)]
  · simp only [cbModulus, read_ULONG, byte]
    rw [h 12 (by omega), h (12 + 1) (by omega), h (12 + 2) (by omega), h (12 + 3) (by omega)]
  · intro i
    simp only [byte]
    rw [h (sizeof_BCRYPT_RSAKEY_BLOB + i) (Or.inr (Or.inr (by simp [sizeof_BCRYPT_RSAKEY_BLOB])))]

/-- Witness for C18: the sample blob with BitLength 7 and prime sizes 9 and 5, a zero
provider and a type string is imported exactly as the sample blob itself, with
ERROR_SUCCESS. -/
theorem C18_import_ignores_provider_type_primes_witness :
    (∀ i, (i < 4 ∨ (8 ≤ i ∧ i < 16) ∨ 24 ≤ i) → mem sample_blob i = mem primes_blob i) ∧
    NCryptImportKey 1 0 none 0 77 (mem sample_blob) 29 0 (sample_state 3)
      = NCryptImportKey 0 0 (some [0x58, 0x59]) 0 77 (mem primes_blob) 29 0 (sample_state 3) ∧
    (NCryptImportKey 0 0 (some [0x58, 0x59]) 0 77 (mem primes_blob) 29 0 (sample_state 3)).1
      = ERROR_SUCCESS :=
  have hw : ∀ i, (i < 4 ∨ (8 ≤ i ∧ i < 16) ∨ 24 ≤ i) → mem sample_blob i = mem primes_blob i := by
    intro i hi
    rcases hi with hi | hi | hi
    · interval_cases i <;> rfl
    · obtain ⟨h8, h16⟩ := hi
      interval_cases i <;> rfl
    · obtain ⟨k, rfl⟩ := Nat.exists_eq_add_of_le hi
      show (List.take 24 sample_blob ++ [1, 0, 1, 0xAB, 0xCD]).getD
          ((List.take 24 sample_blob).length + k) 0
        = (List.take 24 primes_blob ++ [1, 0, 1, 0xAB, 0xCD]).getD
          ((List.take 24 primes_blob).length + k) 0
      rw [getD_append_add, getD_append_add]
  ⟨hw,
    C18_import_ignores_provider_type_primes 1 0 0 none (some [0x58, 0x59]) 0 77
      (mem sample_blob) (mem primes_blob) 29 0 (sample_state 3) hw,
    by decide⟩

/-- C19: NCryptImportKey called with flags NCRYPT_SILENT_FLAG gives the same result as
the call with flags 0 and otherwise identical arguments: the same status and the same
state after the call, hence on success the same imported key. -/
theorem C19_silent_flag_same_as_zero (provider decrypt_key : Nat) (type : Option (List Nat))
    (params handle : Nat) (data : Nat → Nat) (datasize : Nat) (s : State) :
    NCryptImportKey provider decrypt_key type params handle data datasize NCRYPT_SILENT_FLAG s
      = NCryptImportKey provider decrypt_key type params handle data datasize 0 s := by
  by_cases hd : decrypt_key = 0
  swap
  · rw [import_decrypt_key _ _ _ _ _ _ _ _ _ hd, import_decrypt_key _ _ _ _ _ _ _ _ _ hd]
  subst hd
  by_cases hp : params = 0
  swap
  · rw [import_params _ _ _ _ _ _ _ _ hp, import_params _ _ _ _ _ _ _ _ hp]
  subst hp
  rw [import_pass _ _ _ _ _ _ _ (Or.inr rfl), import_pass _ _ _ _ _ _ _ (Or.inl rfl)]

/-- For datasize of at least 4 the status depends on the blob only through its first
datasize bytes. -/
theorem import_status_local (provider decrypt_key : Nat) (type : Option (List Nat))
    (params handle : Nat) (data data2 : Nat → Nat) (datasize flags : Nat) (s : State)
    (h4 : 4 ≤ datasize) (h : ∀ i, i < datasize → data i = data2 i) :
    (NCryptImportKey provider decrypt_key type params handle data datasize flags s).1
      = (NCryptImportKey provider decrypt_key type params handle data2 datasize flags s).1 := by
  have hM : Magic data = Magic data2 := by
    simp only [Magic, read_ULONG, byte]
    rw [h 0 (by omega), h (0 + 1) (by omega), h (0 + 2) (by omega), h (0 + 3) (by omega)]
  by_cases hd : decrypt_key = 0
  swap
  · rw [import_decrypt_key _ _ _ _ _ _ _ _ _ hd, import_decrypt_key _ _ _ _ _ _ _ _ _ hd]
  subst hd
  by_cases hp : params = 0
  swap
  · rw [import_params _ _ _ _ _ _ _ _ hp, import_params _ _ _ _ _ _ _ _ hp]
  subst hp
  by_cases hf : flags = 0 ∨ flags = NCRYPT_SILENT_FLAG
  swap
  · rw [not_or] at hf
    rw [import_bad_flags _ _ _ _ _ _ _ hf.1 hf.2, import_bad_flags _ _ _ _ _ _ _ hf.1 hf.2]
  by_cases hm : Magic data = BCRYPT_RSAPUBLIC_MAGIC
  swap
  · rw [import_bad_magic _ _ _ _ _ _ _ hf hm, import_bad_magic _ _ _ _ _ _ _ hf (hM ▸ hm)]
  by_cases h1 : datasize < sizeof_BCRYPT_RSAKEY_BLOB
  · rw [import_short _ _ _ _ _ _ _ hf hm h1, import_short _ _ _ _ _ _ _ hf (hM ▸ hm) h1]
  have h24 : 24 ≤ datasize := by
    unfold sizeof_BCRYPT_RSAKEY_BLOB at h1
    omega
  have hX : expected_size data = expected_size data2 := by
    simp only [expected_size, cbPublicExp, cbModulus, read_ULONG, byte]
    rw [h 8 (by omega), h (8 + 1) (by omega), h (8 + 2) (by omega), h (8 + 3) (by omega),
      h 12 (by omega), h (12 + 1) (by omega), h (12 + 2) (by omega), h (12 + 3) (by omega)]
  by_cases h2 : datasize = expected_size data
  swap
  · rw [import_size_mismatch _ _ _ _ _ _ _ hf hm h2,
      import_size_mismatch _ _ _ _ _ _ _ hf (hM ▸ hm) (hX ▸ h2)]
  have h1' : sizeof_BCRYPT_RSAKEY_BLOB ≤ datasize := by omega
  rcases import_alloc provider type handle data datasize flags s hf hm h1' h2 with
    ⟨a0, a1, a2, hs⟩ | ⟨hn, hs, _⟩ <;>
  rcases import_alloc provider type handle data2 datasize flags s hf (hM ▸ hm) h1' (hX ▸ h2) with
    ⟨b0, b1, b2, hs2⟩ | ⟨hn2, hs2, _⟩
  · rw [hs, hs2]
  · exact absurd ⟨a0, a1, a2⟩ hn2
  · exact absurd ⟨b0, b1, b2⟩ hn
  · rw [hs, hs2]

end Ncrypt

namespace Hotplug

/-- The loop of `all_upper` and `all_lower` for a case map `f`: on a range with
`str <= end` enough fuel gives a result, TRUE exactly when `f` fixes every character. -/
theorem all_upper_result (f : Nat → Nat) (m : Nat → Nat) (end_ : Nat) :
    ∀ (fuel str : Nat), str ≤ end_ → end_ - str < fuel →
      ∃ b, all_upper f m fuel str end_ = some b ∧
        (b = true ↔ ∀ i, str ≤ i → i < end_ → f (m i) = m i) := by
  intro fuel
  induction fuel with
  | zero => intro str _ h; omega
  | succ n ih =>
    intro str hle hlt
    by_cases hs : str = end_
    · subst hs
      refine ⟨true, by simp [all_upper], ?_⟩
      simp only [true_iff]
      intro i h1 h2
      omega
    · by_cases hc : f (m str) = m str
      · obtain ⟨b, hb, hiff⟩ := ih (str + 1) (by omega) (by omega)
        refine ⟨b, by simp [all_upper, hs, hc, hb], ?_⟩
        rw [hiff]
        constructor
        · intro h i h1 h2
          by_cases hi : i = str
          · subst hi
            exact hc
          · exact h i (by omega) h2
        · intro h i h1 h2
          exact h i (by omega) h2
      · refine ⟨false, by simp [all_upper, hs, hc], ?_⟩
        constructor
        · intro h
          exact absurd h (by decide)
        · intro h
          exact absurd (h str (Nat.le_refl _) (by omega)) hc

theorem all_lower_eq_all_upper (f : Nat → Nat) (m : Nat → Nat) (end_ : Nat) :
    ∀ (fuel str : Nat), all_lower f m fuel str end_ = all_upper f m fuel str end_ := by
  intro fuel
  induction fuel with
  | zero => intro str; rfl
  | succ n ih =>
    intro str
    simp only [all_lower, all_upper, ih]

theorem results_append (c : Check) (a b : List (Check × Bool)) :
    results c (a ++ b) = results c a ++ results c b := by
  simp [results, List.filter_append]

theorem wcsncmp_zero_iff (p : List Nat) (hp : ∀ c, c ∈ p → c ≠ 0) :
    ∀ s : List Nat, wcsncmp s p p.length = 0 ↔ p <+: s := by
  induction p with
  | nil => intro s; simp [wcsncmp]
  | cons c p ih =>
    intro s
    have hc : c ≠ 0 := hp c (List.mem_cons_self _ _)
    have hp2 : ∀ d, d ∈ p → d ≠ 0 := fun d hd => hp d (List.mem_cons_of_mem _ hd)
    cases s with
    | nil =>
      have h0 : (0 : Nat) ≠ c := fun e => hc e.symm
      simp only [List.length_cons, wcsncmp, List.headD_nil, List.headD_cons, ne_eq, h0,
        not_false_eq_true, if_true]
      constructor
      · intro h
        split at h <;> omega
      · intro h
        simp at h
    | cons x s =>
      by_cases hx : x = c
      · subst hx
        simp only [List.length_cons, wcsncmp, List.headD_cons, ne_eq, not_true_eq_false,
          if_false, hc, List.tail_cons]
        rw [ih hp2 s]
        simp [List.cons_prefix_cons]
      · simp only [List.length_cons, wcsncmp, List.headD_cons, ne_eq, hx, not_false_eq_true,
          if_true]
        constructor
        · intro h
          split at h <;> omega
        · intro h
          rw [List.cons_prefix_cons] at h
          exact absurd h.1.symm hx

/-- What a WM_DEVICECHANGE message does to the state in devnotify_wndproc, when the call
has a defined result. -/
theorem devnotify_change (towupper towlower : Nat → Nat)
    (DefWindowProcW : Nat → Nat → Nat → Nat → Int) (st : State)
    (hwnd wparam lparam : Nat) (iface : DEV_BROADCAST_DEVICEINTERFACE_W) (r : Int × State)
    (h : devnotify_wndproc towupper towlower DefWindowProcW st hwnd WM_DEVICECHANGE wparam
      lparam iface = some r) :
    ∃ u l, r.2 = { st with
      device_change_count := st.device_change_count + 1
      oks := st.oks ++
        [(Check.hwnd, decide (hwnd = st.device_change_hwnd)),
         (Check.devicetype, decide (iface.dbcc_devicetype = DBT_DEVTYP_DEVICEINTERFACE)),
         (Check.classguid, decide (iface.dbcc_classguid = expect_guid st)),
         (Check.size,
            decide (iface.dbcc_size ≥ offsetof_dbcc_name (wcslen iface.dbcc_name + 1))),
         (Check.dbcc_name, decide (wcsncmp (wcs iface.dbcc_name) ( expect_prefix st)
            (wcslen ( expect_prefix st)) = 0)),
         (Check.upper_end, true), (Check.upper, u), (Check.lower, l),
         (Check.wparam, decide (wparam =
            if st.device_change_count < st.device_change_expect.tdiv 2 then DBT_DEVICEARRIVAL
            else DBT_DEVICEREMOVECOMPLETE))] } := by
  unfold devnotify_wndproc at h
  rw [if_pos rfl] at h
  simp only at h
  split at h
  · exact absurd h (by simp)
  · split at h
    · exact absurd h (by simp)
    · rename_i ue hue
      split at h
      · rename_i u l hu hl
        refine ⟨u, l, ?_⟩
        simp only [Option.some.injEq] at h
        rw [← h]
        by_cases hc : st.device_change_count < st.device_change_expect.tdiv 2
        · have hc2 : ¬ (st.device_change_count ≥ st.device_change_expect.tdiv 2) := by omega
          simp [State.ok, hc, hc2, hue]
        · have hc2 : st.device_change_count ≥ st.device_change_expect.tdiv 2 := by omega
          simp [State.ok, hc, hc2, hue]
      · exact absurd h (by simp)

theorem gaming_change (DefWindowProcW : Nat → Nat → Nat → Nat → Int) (st : State)
    (hwnd wparam lparam : Nat) :
    (windows_gaming_input_wndproc DefWindowProcW st hwnd WM_DEVICECHANGE wparam
        lparam).2.device_change_count = st.device_change_count + 1 ∧
    (windows_gaming_input_wndproc DefWindowProcW st hwnd WM_DEVICECHANGE wparam
        lparam).2.device_change_expect = st.device_change_expect ∧
    results Check.wparam (windows_gaming_input_wndproc DefWindowProcW st hwnd WM_DEVICECHANGE
        wparam lparam).2.oks
      = results Check.wparam st.oks ++ [decide (wparam =
          if st.device_change_count < st.device_change_expect.tdiv 2 then DBT_DEVICEARRIVAL
          else DBT_DEVICEREMOVECOMPLETE)] := by
  unfold windows_gaming_input_wndproc
  rw [if_pos rfl]
  by_cases hc : st.device_change_count < st.device_change_expect.tdiv 2
  · have hc2 : ¬ (st.device_change_count ≥ st.device_change_expect.tdiv 2) := by omega
    simp [State.ok, hc, hc2, results, List.filter_append]
  · have hc2 : st.device_change_count ≥ st.device_change_expect.tdiv 2 := by omega
    simp [State.ok, hc, hc2, results, List.filter_append]

theorem devnotify_counts (towupper towlower : Nat → Nat)
    (DefWindowProcW : Nat → Nat → Nat → Nat → Int) :
    counts_changes (devnotify_step towupper towlower DefWindowProcW) := by
  intro st m st1 h hm
  unfold devnotify_step at h
  rw [hm] at h
  cases hr : devnotify_wndproc towupper towlower DefWindowProcW st m.hwnd WM_DEVICECHANGE
      m.wparam m.lparam m.iface with
  | none => rw [hr] at h; exact absurd h (by simp)
  | some r =>
    rw [hr] at h
    simp only [Option.map_some', Option.some.injEq] at h
    obtain ⟨u, l, e⟩ := devnotify_change _ _ _ _ _ _ _ _ _ hr
    rw [← h, e]
    refine ⟨rfl, rfl, ?_⟩
    rw [results_append]
    simp [results]

theorem gaming_counts (DefWindowProcW : Nat → Nat → Nat → Nat → Int) :
    counts_changes (gaming_step DefWindowProcW) := by
  intro st m st1 h hm
  unfold gaming_step at h
  rw [hm] at h
  simp only [Option.some.injEq] at h
  rw [← h]
  exact gaming_change DefWindowProcW st m.hwnd m.wparam m.lparam

theorem run_counts (step : State → Message → Option State) (hstep : counts_changes step) :
    ∀ (msgs : List Message) (st st2 : State),
      (∀ m, m ∈ msgs → m.msg = WM_DEVICECHANGE) → run step st msgs = some st2 →
      ∃ X : List Bool, results Check.wparam st2.oks = results Check.wparam st.oks ++ X ∧
        X.length = msgs.length ∧
        ∀ (i : Nat) (h1 : i < X.length) (h2 : i < msgs.length),
          X.get ⟨i, h1⟩ = decide ((msgs.get ⟨i, h2⟩).wparam =
            if st.device_change_count + (i : Int) < st.device_change_expect.tdiv 2
            then DBT_DEVICEARRIVAL else DBT_DEVICEREMOVECOMPLETE) := by
  intro msgs
  induction msgs with
  | nil =>
    intro st st2 _ h
    simp only [run, Option.some.injEq] at h
    subst h
    exact ⟨[], by simp, rfl, fun i h1 _ => absurd h1 (by simp)⟩
  | cons m ms ih =>
    intro st st2 hall h
    simp only [run] at h
    cases hs : step st m with
    | none => rw [hs] at h; exact absurd h (by simp)
    | some st1 =>
      rw [hs] at h
      simp only at h
      obtain ⟨hc, he, hr⟩ := hstep st m st1 hs (hall m (List.mem_cons_self _ _))
      obtain ⟨X, hX, hlen, hget⟩ := ih st1 st2
        (fun m2 hm2 => hall m2 (List.mem_cons_of_mem _ hm2)) h
      refine ⟨decide (m.wparam =
          if st.device_change_count < st.device_change_expect.tdiv 2 then DBT_DEVICEARRIVAL
          else DBT_DEVICEREMOVECOMPLETE) :: X, ?_, by simp [hlen], ?_⟩
      · rw [hX, hr, List.append_assoc]
        rfl
      · intro i h1 h2
        cases i with
        | zero => simp
        | succ k =>
          have hk1 : k < X.length := by simpa using h1
          have hk2 : k < ms.length := by simpa using h2
          have := hget k hk1 hk2
          rw [hc, he] at this
          simp only [List.get_eq_getElem, List.getElem_cons_succ] at this ⊢
          rw [this]
          have e : st.device_change_count + 1 + (k : Int)
              = st.device_change_count + ((k + 1 : Nat) : Int) := by
            push_cast
            ring
          rw [e]

theorem tdiv_two_cast (n : Nat) : (n : Int).tdiv 2 = ((n / 2 : Nat) : Int) := by
  rw [Int.tdiv_eq_ediv (Int.ofNat_nonneg n) (by decide)]
  omega

theorem arrival_ne_removal : DBT_DEVICEARRIVAL ≠ DBT_DEVICEREMOVECOMPLETE := by
  decide

/-- A run of `n` WM_DEVICECHANGE messages from count 0 with expect `n` whose wparam checks
all pass consists of `n / 2` arrivals followed by removals. -/
theorem run_shape (step : State → Message → Option State) (hstep : counts_changes step)
    (n : Nat) (msgs : List Message) (st st2 : State)
    (hc : st.device_change_count = 0) (he : st.device_change_expect = (n : Int))
    (hn : msgs.length = n) (hall : ∀ m, m ∈ msgs → m.msg = WM_DEVICECHANGE)
    (hrun : run step st msgs = some st2)
    (hpass : results Check.wparam st2.oks
      = results Check.wparam st.oks ++ List.replicate n true) :
    msgs.map (fun m => m.wparam)
      = List.replicate (n / 2) DBT_DEVICEARRIVAL
          ++ List.replicate (n - n / 2) DBT_DEVICEREMOVECOMPLETE := by
  obtain ⟨X, hX, hlen, hget⟩ := run_counts step hstep msgs st st2 hall hrun
  rw [hX] at hpass
  have hXr : X = List.replicate n true := List.append_cancel_left hpass
  apply List.ext_getElem
  · simp only [List.length_map, List.length_append, List.length_replicate, hn]
    omega
  · intro i h1 h2
    have hi : i < msgs.length := by simpa using h1
    have hiX : i < X.length := by omega
    have hg := hget i hiX hi
    have hXi : X.get ⟨i, hiX⟩ = true := by
      simp only [List.get_eq_getElem, hXr, List.getElem_replicate]
    rw [hXi, hc, he, tdiv_two_cast] at hg
    have hg2 := of_decide_eq_true hg.symm
    simp only [List.get_eq_getElem] at hg2
    simp only [List.getElem_map, hg2]
    by_cases hlt : i < n / 2
    · have hlt2 : (0 : Int) + (i : Int) < ((n / 2 : Nat) : Int) := by omega
      rw [if_pos hlt2, List.getElem_append_left (by simpa using hlt)]
      simp
    · have hlt2 : ¬ ((0 : Int) + (i : Int) < ((n / 2 : Nat) : Int)) := by omega
      rw [if_neg hlt2, List.getElem_append_right (by simpa using hlt)]
      simp

theorem shape_counts (n : Nat) (hn : n % 2 = 0) :
    (List.replicate (n / 2) DBT_DEVICEARRIVAL
        ++ List.replicate (n - n / 2) DBT_DEVICEREMOVECOMPLETE).count DBT_DEVICEARRIVAL
      = (List.replicate (n / 2) DBT_DEVICEARRIVAL
        ++ List.replicate (n - n / 2) DBT_DEVICEREMOVECOMPLETE).count
          DBT_DEVICEREMOVECOMPLETE := by
  have h1 : (DBT_DEVICEREMOVECOMPLETE == DBT_DEVICEARRIVAL) = false := by decide
  have h2 : (DBT_DEVICEARRIVAL == DBT_DEVICEREMOVECOMPLETE) = false := by decide
  simp only [List.count_append, List.count_replicate, h1, h2, beq_self_eq_true, if_true]
  simp
  omega

theorem expect_prefix_wcslen (st : State) :
    wcslen ( expect_prefix st) = ( expect_prefix st).length ∧
      ∀ c, c ∈ expect_prefix st → c ≠ 0 := by
  unfold expect_prefix
  split
  · exact ⟨by decide, by decide⟩
  · exact ⟨by decide, by decide⟩

/-! ## The claims on hotplug.c -/

/-- C12: in devnotify_wndproc and in windows_gaming_input_wndproc the wparam check of a
WM_DEVICECHANGE message received with device_change_count = n compares wparam with
DBT_DEVICEARRIVAL when n < device_change_expect / 2 (C division) and with
DBT_DEVICEREMOVECOMPLETE otherwise. Hence a run of device_change_expect messages from
count 0 whose wparam checks all pass consists of device_change_expect / 2 arrivals followed
by removals only, and has as many arrivals as removals when device_change_expect is
even. -/
theorem C12_arrivals_before_removals (towupper towlower : Nat → Nat)
    (DefWindowProcW : Nat → Nat → Nat → Nat → Int) :
    (∀ (st : State) (hwnd wparam lparam : Nat) (iface : DEV_BROADCAST_DEVICEINTERFACE_W)
        (r : Int × State),
      devnotify_wndproc towupper towlower DefWindowProcW st hwnd WM_DEVICECHANGE wparam lparam
          iface = some r →
      results Check.wparam r.2.oks
        = results Check.wparam st.oks ++ [decide (wparam =
            if st.device_change_count < st.device_change_expect.tdiv 2 then DBT_DEVICEARRIVAL
            else DBT_DEVICEREMOVECOMPLETE)]) ∧
    (∀ (st : State) (hwnd wparam lparam : Nat),
      results Check.wparam
          (windows_gaming_input_wndproc DefWindowProcW st hwnd WM_DEVICECHANGE wparam
            lparam).2.oks
        = results Check.wparam st.oks ++ [decide (wparam =
            if st.device_change_count < st.device_change_expect.tdiv 2 then DBT_DEVICEARRIVAL
            else DBT_DEVICEREMOVECOMPLETE)]) ∧
    (∀ (n : Nat) (msgs : List Message) (st st2 : State),
      st.device_change_count = 0 → st.device_change_expect = (n : Int) → msgs.length = n →
      (∀ m, m ∈ msgs → m.msg = WM_DEVICECHANGE) →
      (run (devnotify_step towupper towlower DefWindowProcW) st msgs = some st2 ∨
        run (gaming_step DefWindowProcW) st msgs = some st2) →
      results Check.wparam st2.oks = results Check.wparam st.oks ++ List.replicate n true →
      msgs.map (fun m => m.wparam)
          = List.replicate (n / 2) DBT_DEVICEARRIVAL
              ++ List.replicate (n - n / 2) DBT_DEVICEREMOVECOMPLETE ∧
        (n % 2 = 0 →
          (msgs.map (fun m => m.wparam)).count DBT_DEVICEARRIVAL
            = (msgs.map (fun m => m.wparam)).count DBT_DEVICEREMOVECOMPLETE)) := by
  refine ⟨?_, ?_, ?_⟩
  · intro st hwnd wparam lparam iface r h
    obtain ⟨u, l, e⟩ := devnotify_change _ _ _ _ _ _ _ _ _ h
    rw [e, results_append]
    simp [results]
  · intro st hwnd wparam lparam
    exact (gaming_change DefWindowProcW st hwnd wparam lparam).2.2
  · intro n msgs st st2 hc he hn hall hrun hpass
    have hshape : msgs.map (fun m => m.wparam)
        = List.replicate (n / 2) DBT_DEVICEARRIVAL
            ++ List.replicate (n - n / 2) DBT_DEVICEREMOVECOMPLETE := by
      rcases hrun with hrun | hrun
      · exact run_shape _ (devnotify_counts towupper towlower DefWindowProcW) n msgs st st2
          hc he hn hall hrun hpass
      · exact run_shape _ (gaming_counts DefWindowProcW) n msgs st st2 hc he hn hall hrun hpass
    refine ⟨hshape, fun hev => ?_⟩
    rw [hshape]
    exact shape_counts n hev

/-- Witness for C12: an arrival and a removal of the sample HID interface dispatched to
devnotify_wndproc with device_change_expect = 2. -/
theorem C12_arrivals_before_removals_witness :
    run (devnotify_step ascii_towupper ascii_towlower sample_DefWindowProcW) sample_start
        [sample_message DBT_DEVICEARRIVAL, sample_message DBT_DEVICEREMOVECOMPLETE]
      = some sample_final ∧
    results Check.wparam sample_final.oks
      = results Check.wparam sample_start.oks ++ List.replicate 2 true ∧
    [sample_message DBT_DEVICEARRIVAL, sample_message DBT_DEVICEREMOVECOMPLETE].map
        (fun m => m.wparam)
      = List.replicate (2 / 2) DBT_DEVICEARRIVAL
          ++ List.replicate (2 - 2 / 2) DBT_DEVICEREMOVECOMPLETE :=
  ⟨by decide, by decide,
    ((C12_arrivals_before_removals ascii_towupper ascii_towlower sample_DefWindowProcW).2.2 2
      [sample_message DBT_DEVICEARRIVAL, sample_message DBT_DEVICEREMOVECOMPLETE]
      sample_start sample_final (by decide) (by decide) (by decide) (by decide)
      (Or.inl (by decide)) (by decide)).1⟩

/-- C13: for a range with str <= end, all_upper returns (given fuel for end - str + 1 loop
tests) and returns TRUE if and only if towupper fixes every character of the range; it
returns TRUE on the empty range; and it returns FALSE when the range holds a character
that towupper changes (a lower-case letter), whatever the memory after that character
holds. -/
theorem C13_all_upper (towupper : Nat → Nat) (m : Nat → Nat) (str end_ : Nat)
    (h : str ≤ end_) :
    (∀ fuel, end_ - str < fuel →
      ∃ b, all_upper towupper m fuel str end_ = some b ∧
        (b = true ↔ ∀ i, str ≤ i → i < end_ → towupper (m i) = m i)) ∧
    (∀ fuel, 0 < fuel → all_upper towupper m fuel str str = some true) ∧
    (∀ (fuel j : Nat) (m2 : Nat → Nat), end_ - str < fuel → str ≤ j → j < end_ →
      towupper (m j) ≠ m j → (∀ i, i ≤ j → m2 i = m i) →
      all_upper towupper m2 fuel str end_ = some false) := by
  refine ⟨fun fuel hf => all_upper_result towupper m end_ fuel str h hf, ?_, ?_⟩
  · intro fuel hf
    obtain ⟨k, rfl⟩ := Nat.exists_eq_succ_of_ne_zero (Nat.pos_iff_ne_zero.mp hf)
    simp [all_upper]
  · intro fuel j m2 hf h1 h2 hj hm
    obtain ⟨b, hb, hiff⟩ := all_upper_result towupper m2 end_ fuel str h hf
    cases b with
    | false => exact hb
    | true =>
      have := hiff.mp rfl j h1 h2
      rw [hm j (Nat.le_refl _)] at this
      exact absurd this hj

/-- Witness for C13: on HID#vid the range of the first four characters is all upper case,
the range of all seven is not (v is changed by towupper). -/
theorem C13_all_upper_witness :
    (0 : Nat) ≤ 7 ∧
    all_upper ascii_towupper (wmem [72, 73, 68, 35, 118, 105, 100]) 8 0 7 = some false ∧
    all_upper ascii_towupper (wmem [72, 73, 68, 35, 118, 105, 100]) 5 0 4 = some true :=
  ⟨by decide,
    (C13_all_upper ascii_towupper (wmem [72, 73, 68, 35, 118, 105, 100]) 0 7 (by decide)).2.2
      8 4 (wmem [72, 73, 68, 35, 118, 105, 100]) (by decide) (by decide) (by decide)
      (by decide) (fun _ _ => rfl),
    by decide⟩

/-- C14: for a range with str <= end, all_lower returns (given fuel for end - str + 1 loop
tests) and returns TRUE if and only if towlower fixes every character of the range;
consequently on a range whose characters are fixed by towlower and by towupper (no
letters) all_lower and all_upper both return TRUE. -/
theorem C14_all_lower (towlower towupper : Nat → Nat) (m : Nat → Nat) (str end_ : Nat)
    (h : str ≤ end_) :
    (∀ fuel, end_ - str < fuel →
      ∃ b, all_lower towlower m fuel str end_ = some b ∧
        (b = true ↔ ∀ i, str ≤ i → i < end_ → towlower (m i) = m i)) ∧
    ((∀ i, str ≤ i → i < end_ → towlower (m i) = m i ∧ towupper (m i) = m i) →
      ∀ fuel, end_ - str < fuel →
        all_lower towlower m fuel str end_ = some true ∧
        all_upper towupper m fuel str end_ = some true) := by
  refine ⟨?_, ?_⟩
  · intro fuel hf
    rw [all_lower_eq_all_upper]
    exact all_upper_result towlower m end_ fuel str h hf
  · intro hfix fuel hf
    constructor
    · rw [all_lower_eq_all_upper]
      obtain ⟨b, hb, hiff⟩ := all_upper_result towlower m end_ fuel str h hf
      rw [hb, hiff.mpr (fun i h1 h2 => (hfix i h1 h2).1)]
    · obtain ⟨b, hb, hiff⟩ := all_upper_result towupper m end_ fuel str h hf
      rw [hb, hiff.mpr (fun i h1 h2 => (hfix i h1 h2).2)]

/-- Witness for C14: the characters 0 9 # \ ? { } - and the NUL after them. -/
theorem C14_all_lower_witness :
    (0 : Nat) ≤ 9 ∧
    (∀ i, 0 ≤ i → i < 9 →
      ascii_towlower (wmem [48, 57, 35, 92, 63, 123, 125, 45] i)
          = wmem [48, 57, 35, 92, 63, 123, 125, 45] i ∧
        ascii_towupper (wmem [48, 57, 35, 92, 63, 123, 125, 45] i)
          = wmem [48, 57, 35, 92, 63, 123, 125, 45] i) ∧
    all_lower ascii_towlower (wmem [48, 57, 35, 92, 63, 123, 125, 45]) 10 0 9 = some true ∧
    all_upper ascii_towupper (wmem [48, 57, 35, 92, 63, 123, 125, 45]) 10 0 9 = some true :=
  ⟨by decide, by decide,
    (C14_all_lower ascii_towlower ascii_towupper (wmem [48, 57, 35, 92, 63, 123, 125, 45])
      0 9 (by decide)).2 (by decide) 10 (by decide)⟩

/-- C20: for a WM_DEVICECHANGE message devnotify_wndproc compares the class GUID with
control_class and the name with the prefix \\?\WINETEST# when device_change_all is
TRUE and device_change_count (before the message) is 0 or 3, and with
GUID_DEVINTERFACE_HID and the prefix \\?\HID# in every other case; the two GUIDs
differ and no name starts with both prefixes. With device_change_all TRUE and
device_change_expect = 4 the messages 0, 1, 2, 3 are expected to be a bus arrival, a HID
arrival, a HID removal and a bus removal. -/
theorem C20_expected_class_and_name (towupper towlower : Nat → Nat)
    (DefWindowProcW : Nat → Nat → Nat → Nat → Int) (st : State)
    (hwnd wparam lparam : Nat) (iface : DEV_BROADCAST_DEVICEINTERFACE_W) (r : Int × State)
    (h : devnotify_wndproc towupper towlower DefWindowProcW st hwnd WM_DEVICECHANGE wparam
      lparam iface = some r) :
    results Check.classguid r.2.oks
      = results Check.classguid st.oks ++ [decide (iface.dbcc_classguid =
          if st.device_change_all = true ∧
            (st.device_change_count = 0 ∨ st.device_change_count = 3)
          then control_class else GUID_DEVINTERFACE_HID)] ∧
    results Check.dbcc_name r.2.oks
      = results Check.dbcc_name st.oks ++ [decide (
          (if st.device_change_all = true ∧
            (st.device_change_count = 0 ∨ st.device_change_count = 3)
          then prefix_winetest else prefix_hid) <+: wcs iface.dbcc_name)] ∧
    results Check.wparam r.2.oks
      = results Check.wparam st.oks ++ [decide (wparam =
          if st.device_change_count < st.device_change_expect.tdiv 2 then DBT_DEVICEARRIVAL
          else DBT_DEVICEREMOVECOMPLETE)] ∧
    control_class ≠ GUID_DEVINTERFACE_HID ∧
    (∀ s : List Nat, ¬ (prefix_winetest <+: s ∧ prefix_hid <+: s)) ∧
    (st.device_change_all = true → st.device_change_expect = 4 →
      (st.device_change_count = 0 →
        (expect_guid st, expect_prefix st,
          if st.device_change_count < st.device_change_expect.tdiv 2 then DBT_DEVICEARRIVAL
          else DBT_DEVICEREMOVECOMPLETE)
          = (control_class, prefix_winetest, DBT_DEVICEARRIVAL)) ∧
      (st.device_change_count = 1 →
        (expect_guid st, expect_prefix st,
          if st.device_change_count < st.device_change_expect.tdiv 2 then DBT_DEVICEARRIVAL
          else DBT_DEVICEREMOVECOMPLETE)
          = (GUID_DEVINTERFACE_HID, prefix_hid, DBT_DEVICEARRIVAL)) ∧
      (st.device_change_count = 2 →
        (expect_guid st, expect_prefix st,
          if st.device_change_count < st.device_change_expect.tdiv 2 then DBT_DEVICEARRIVAL
          else DBT_DEVICEREMOVECOMPLETE)
          = (GUID_DEVINTERFACE_HID, prefix_hid, DBT_DEVICEREMOVECOMPLETE)) ∧
      (st.device_change_count = 3 →
        (expect_guid st, expect_prefix st,
          if st.device_change_count < st.device_change_expect.tdiv 2 then DBT_DEVICEARRIVAL
          else DBT_DEVICEREMOVECOMPLETE)
          = (control_class, prefix_winetest, DBT_DEVICEREMOVECOMPLETE))) := by
  obtain ⟨u, l, e⟩ := devnotify_change _ _ _ _ _ _ _ _ _ h
  obtain ⟨hlen, hnz⟩ := expect_prefix_wcslen st
  refine ⟨?_, ?_, ?_, by decide, ?_, ?_⟩
  · rw [e, results_append]
    simp [results, expect_guid]
  · rw [e, results_append]
    have hp : decide (wcsncmp (wcs iface.dbcc_name) ( expect_prefix st)
          (wcslen ( expect_prefix st)) = 0)
        = decide ( expect_prefix st <+: wcs iface.dbcc_name) := by
      rw [hlen]
      exact decide_eq_decide.mpr (wcsncmp_zero_iff _ hnz _)
    simp only [results, List.filter_cons, List.filter_nil, hp]
    simp [ expect_prefix]
  · rw [e, results_append]
    simp [results]
  · intro s hs
    obtain ⟨⟨a, ha⟩, ⟨b, hb⟩⟩ := hs
    rw [← hb] at ha
    simp [prefix_winetest, prefix_hid] at ha
  · intro hall he
    refine ⟨?_, ?_, ?_, ?_⟩ <;> intro hc <;>
      simp [expect_guid, expect_prefix, hall, he, hc, Int.tdiv]

/-- Witness for C20: a HID arrival as message 1 of a run with device_change_all TRUE and
device_change_expect = 4. -/
theorem C20_expected_class_and_name_witness :
    devnotify_wndproc ascii_towupper ascii_towlower sample_DefWindowProcW sample_all_start 7
        WM_DEVICECHANGE DBT_DEVICEARRIVAL 1000 sample_iface = some sample_result ∧
    results Check.classguid sample_result.2.oks
      = results Check.classguid sample_all_start.oks ++ [decide (sample_iface.dbcc_classguid =
          if sample_all_start.device_change_all = true ∧
            (sample_all_start.device_change_count = 0 ∨
              sample_all_start.device_change_count = 3)
          then control_class else GUID_DEVINTERFACE_HID)] ∧
    results Check.classguid sample_result.2.oks = [true] ∧
    results Check.dbcc_name sample_result.2.oks = [true] ∧
    results Check.wparam sample_result.2.oks = [true] :=
  ⟨by decide,
    (C20_expected_class_and_name ascii_towupper ascii_towlower sample_DefWindowProcW
      sample_all_start 7 DBT_DEVICEARRIVAL 1000 sample_iface sample_result (by decide)).1,
    by decide, by decide, by decide⟩

theorem wcschr_bound (s : List Nat) (start c i : Nat) (h : wcschr s start c = some i) :
    start ≤ i ∧ i < s.length := by
  unfold wcschr at h
  cases hf : (s.drop start).findIdx? (fun x => decide (x = c)) with
  | none => rw [hf] at h; exact absurd h (by simp)
  | some k =>
    rw [hf] at h
    simp only [Option.map_some', Option.some.injEq] at h
    have hk := (List.findIdx?_eq_some_iff_findIdx_eq.mp hf).1
    rw [List.length_drop] at hk
    omega

/-- A WM_DEVICECHANGE message whose name is at least as long as the expected prefix and has
a `#` after it gets a result from devnotify_wndproc. -/
theorem devnotify_defined (towupper towlower : Nat → Nat)
    (DefWindowProcW : Nat → Nat → Nat → Nat → Int) (st : State)
    (hwnd wparam lparam : Nat) (iface : DEV_BROADCAST_DEVICEINTERFACE_W) (ue : Nat)
    (h1 : wcslen ( expect_prefix st) ≤ wcslen iface.dbcc_name)
    (h2 : wcschr (wcs iface.dbcc_name) (wcslen ( expect_prefix st)) 35 = some ue) :
    ∃ r, devnotify_wndproc towupper towlower DefWindowProcW st hwnd WM_DEVICECHANGE wparam
      lparam iface = some r := by
  obtain ⟨_, hlt⟩ := wcschr_bound _ _ _ _ h2
  have hlt2 : ue < wcslen iface.dbcc_name := hlt
  obtain ⟨u, hu, _⟩ := all_upper_result towupper (wmem (wcs iface.dbcc_name)) ue (ue + 1) 0
    (Nat.zero_le _) (by omega)
  obtain ⟨l, hl, _⟩ := all_upper_result towlower (wmem (wcs iface.dbcc_name))
    (wcslen iface.dbcc_name + 1) (wcslen iface.dbcc_name + 1 - ue + 1) ue (by omega) (by omega)
  rw [← all_lower_eq_all_upper] at hl
  unfold devnotify_wndproc
  rw [if_pos rfl]
  simp only
  rw [if_neg (by omega), h2]
  simp only [hu, hl]
  exact ⟨_, rfl⟩

/-! ## The claims on the window procedures and the mock COM objects -/

/-- What a window procedure does to the four file-scope variables in one call. -/
theorem devnotify_frame (towupper towlower : Nat → Nat)
    (DefWindowProcW : Nat → Nat → Nat → Nat → Int) (st : State)
    (hwnd msg wparam lparam : Nat) (iface : DEV_BROADCAST_DEVICEINTERFACE_W) (r : Int × State)
    (h : devnotify_wndproc towupper towlower DefWindowProcW st hwnd msg wparam lparam iface
      = some r) :
    r.2.device_change_count
      = st.device_change_count + (if msg = WM_DEVICECHANGE then 1 else 0) ∧
    r.2.device_change_expect = st.device_change_expect ∧
    r.2.device_change_hwnd = st.device_change_hwnd ∧
    r.2.device_change_all = st.device_change_all := by
  by_cases hm : msg = WM_DEVICECHANGE
  · subst hm
    obtain ⟨u, l, e⟩ := devnotify_change _ _ _ _ _ _ _ _ _ h
    rw [e]
    simp
  · unfold devnotify_wndproc at h
    rw [if_neg hm] at h
    simp only [Option.some.injEq] at h
    rw [← h]
    simp [hm]

/-- The same for windows_gaming_input_wndproc. -/
theorem gaming_frame (DefWindowProcW : Nat → Nat → Nat → Nat → Int) (st : State)
    (hwnd msg wparam lparam : Nat) :
    (windows_gaming_input_wndproc DefWindowProcW st hwnd msg wparam lparam).2.device_change_count
      = st.device_change_count + (if msg = WM_DEVICECHANGE then 1 else 0) ∧
    (windows_gaming_input_wndproc DefWindowProcW st hwnd msg wparam lparam).2.device_change_expect
      = st.device_change_expect ∧
    (windows_gaming_input_wndproc DefWindowProcW st hwnd msg wparam lparam).2.device_change_hwnd
      = st.device_change_hwnd ∧
    (windows_gaming_input_wndproc DefWindowProcW st hwnd msg wparam lparam).2.device_change_all
      = st.device_change_all := by
  unfold windows_gaming_input_wndproc
  by_cases hm : msg = WM_DEVICECHANGE
  · rw [if_pos hm, if_pos hm]
    by_cases hc : st.device_change_count ≥ st.device_change_expect.tdiv 2
    · simp [hc, State.ok]
    · simp [hc, State.ok]
  · rw [if_neg hm, if_neg hm]
    simp

/-- Over a sequence of messages the count grows by the number of WM_DEVICECHANGE messages
in it and the three other variables keep their values. -/
theorem run_frame (step : State → Message → Option State)
    (hstep : ∀ st m st1, step st m = some st1 →
      st1.device_change_count
        = st.device_change_count + (if m.msg = WM_DEVICECHANGE then 1 else 0) ∧
      st1.device_change_expect = st.device_change_expect ∧
      st1.device_change_hwnd = st.device_change_hwnd ∧
      st1.device_change_all = st.device_change_all) :
    ∀ (msgs : List Message) (st st2 : State), run step st msgs = some st2 →
      st2.device_change_count
        = st.device_change_count + ((msgs.filter (fun m => m.msg = WM_DEVICECHANGE)).length : Int) ∧
      st2.device_change_expect = st.device_change_expect ∧
      st2.device_change_hwnd = st.device_change_hwnd ∧
      st2.device_change_all = st.device_change_all := by
  intro msgs
  induction msgs with
  | nil =>
    intro st st2 h
    simp only [run, Option.some.injEq] at h
    subst h
    simp
  | cons m ms ih =>
    intro st st2 h
    simp only [run] at h
    cases hs : step st m with
    | none => rw [hs] at h; exact absurd h (by simp)
    | some st1 =>
      rw [hs] at h
      obtain ⟨a1, a2, a3, a4⟩ := hstep st m st1 hs
      obtain ⟨b1, b2, b3, b4⟩ := ih st1 st2 h
      refine ⟨?_, by rw [b2, a2], by rw [b3, a3], by rw [b4, a4]⟩
      rw [b1, a1]
      by_cases hm : m.msg = WM_DEVICECHANGE
      · simp [List.filter_cons, hm]; omega
      · simp [List.filter_cons, hm]

/-- C21 (amended): in one call devnotify_wndproc, whenever the call returns, and
windows_gaming_input_wndproc, always, add exactly one to device_change_count when the
message is WM_DEVICECHANGE and leave it as it is for any other message, and
device_change_expect, device_change_hwnd and device_change_all are the same after the call
as before; a call with another message always returns and changes nothing at all. Over a
sequence of messages the count grows by the number of WM_DEVICECHANGE messages in it. A
call of devnotify_wndproc for WM_DEVICECHANGE returns, and has added one, whenever the
interface name is at least as long as the expected prefix and has a `#` after it. -/
theorem C21_count_frame (towupper towlower : Nat → Nat)
    (DefWindowProcW : Nat → Nat → Nat → Nat → Int) (st : State)
    (hwnd msg wparam lparam : Nat) (iface : DEV_BROADCAST_DEVICEINTERFACE_W)
    (msgs : List Message) :
    (∀ r, devnotify_wndproc towupper towlower DefWindowProcW st hwnd msg wparam lparam iface
        = some r →
      r.2.device_change_count
        = st.device_change_count + (if msg = WM_DEVICECHANGE then 1 else 0) ∧
      r.2.device_change_expect = st.device_change_expect ∧
      r.2.device_change_hwnd = st.device_change_hwnd ∧
      r.2.device_change_all = st.device_change_all) ∧
    (msg ≠ WM_DEVICECHANGE →
      devnotify_wndproc towupper towlower DefWindowProcW st hwnd msg wparam lparam iface
        = some (DefWindowProcW hwnd msg wparam lparam, st)) ∧
    ((windows_gaming_input_wndproc DefWindowProcW st hwnd msg wparam
        lparam).2.device_change_count
        = st.device_change_count + (if msg = WM_DEVICECHANGE then 1 else 0) ∧
      (windows_gaming_input_wndproc DefWindowProcW st hwnd msg wparam
        lparam).2.device_change_expect = st.device_change_expect ∧
      (windows_gaming_input_wndproc DefWindowProcW st hwnd msg wparam
        lparam).2.device_change_hwnd = st.device_change_hwnd ∧
      (windows_gaming_input_wndproc DefWindowProcW st hwnd msg wparam
        lparam).2.device_change_all = st.device_change_all) ∧
    (msg ≠ WM_DEVICECHANGE →
      windows_gaming_input_wndproc DefWindowProcW st hwnd msg wparam lparam
        = (DefWindowProcW hwnd msg wparam lparam, st)) ∧
    (∀ st2, run (devnotify_step towupper towlower DefWindowProcW) st msgs = some st2 →
      st2.device_change_count = st.device_change_count
        + ((msgs.filter (fun m => m.msg = WM_DEVICECHANGE)).length : Int) ∧
      st2.device_change_expect = st.device_change_expect ∧
      st2.device_change_hwnd = st.device_change_hwnd ∧
      st2.device_change_all = st.device_change_all) ∧
    (∀ st2, run (gaming_step DefWindowProcW) st msgs = some st2 →
      st2.device_change_count = st.device_change_count
        + ((msgs.filter (fun m => m.msg = WM_DEVICECHANGE)).length : Int) ∧
      st2.device_change_expect = st.device_change_expect ∧
      st2.device_change_hwnd = st.device_change_hwnd ∧
      st2.device_change_all = st.device_change_all) ∧
    (∀ ue, wcslen ( expect_prefix st) ≤ wcslen iface.dbcc_name →
      wcschr (wcs iface.dbcc_name) (wcslen ( expect_prefix st)) 35 = some ue →
      ∃ r, devnotify_wndproc towupper towlower DefWindowProcW st hwnd WM_DEVICECHANGE wparam
          lparam iface = some r ∧
        r.2.device_change_count = st.device_change_count + 1) := by
  refine ⟨fun r h => devnotify_frame _ _ _ _ _ _ _ _ _ _ h, ?_,
    gaming_frame DefWindowProcW st hwnd msg wparam lparam, ?_, ?_, ?_, ?_⟩
  · intro hm
    unfold devnotify_wndproc
    rw [if_neg hm]
  · intro hm
    unfold windows_gaming_input_wndproc
    rw [if_neg hm]
  · intro st2 h
    refine run_frame _ ?_ msgs st st2 h
    intro s m s1 hs
    unfold devnotify_step at hs
    cases hr : devnotify_wndproc towupper towlower DefWindowProcW s m.hwnd m.msg m.wparam
        m.lparam m.iface with
    | none => rw [hr] at hs; exact absurd hs (by simp)
    | some r =>
      rw [hr] at hs
      simp only [Option.map_some', Option.some.injEq] at hs
      rw [← hs]
      exact devnotify_frame _ _ _ _ _ _ _ _ _ _ hr
  · intro st2 h
    refine run_frame _ ?_ msgs st st2 h
    intro s m s1 hs
    unfold gaming_step at hs
    simp only [Option.some.injEq] at hs
    rw [← hs]
    exact gaming_frame DefWindowProcW s m.hwnd m.msg m.wparam m.lparam
  · intro ue h1 h2
    obtain ⟨r, hr⟩ := devnotify_defined towupper towlower DefWindowProcW st hwnd wparam
      lparam iface ue h1 h2
    refine ⟨r, hr, ?_⟩
    have e := (devnotify_frame _ _ _ _ _ _ _ _ _ _ hr).1
    rw [e, if_pos rfl]

/-- Counterexample for C21 as stated: a WM_DEVICECHANGE message whose interface name
\\?\HID#VID_1209 has no `#` after the prefix. `wcschr` returns NULL, the check
`ok( !!upper_end )` fails and `all_upper` walks from the name towards NULL, so the call
does not come back and device_change_count is never incremented. -/
theorem C21_no_count_without_hash :
    devnotify_wndproc ascii_towupper ascii_towlower sample_DefWindowProcW sample_start 7
      WM_DEVICECHANGE DBT_DEVICEARRIVAL 1000 sample_iface_no_hash = none ∧
    ¬ ∃ r, devnotify_wndproc ascii_towupper ascii_towlower sample_DefWindowProcW sample_start
        7 WM_DEVICECHANGE DBT_DEVICEARRIVAL 1000 sample_iface_no_hash = some r ∧
      r.2.device_change_count = sample_start.device_change_count + 1 := by
  have e : devnotify_wndproc ascii_towupper ascii_towlower sample_DefWindowProcW sample_start
      7 WM_DEVICECHANGE DBT_DEVICEARRIVAL 1000 sample_iface_no_hash = none := by decide
  refine ⟨e, ?_⟩
  rintro ⟨r, hr, _⟩
  rw [e] at hr
  exact absurd hr (by simp)

/-- Witness for C21: the arrival and the removal of the sample interface dispatched to
devnotify_wndproc from `sample_start` leave the count at 2, and the arrival dispatched in
the state `sample_all_start` raises the count from 1 to 2. -/
theorem C21_count_frame_witness :
    run (devnotify_step ascii_towupper ascii_towlower sample_DefWindowProcW) sample_start
      [sample_message DBT_DEVICEARRIVAL, sample_message DBT_DEVICEREMOVECOMPLETE]
      = some sample_final ∧
    sample_final.device_change_count = 2 ∧
    devnotify_wndproc ascii_towupper ascii_towlower sample_DefWindowProcW sample_all_start 7
        WM_DEVICECHANGE DBT_DEVICEARRIVAL 1000 sample_iface = some sample_result ∧
    sample_result.2.device_change_count = 2 ∧
    sample_result.2.device_change_expect = 4 :=
  have h := C21_count_frame ascii_towupper ascii_towlower sample_DefWindowProcW sample_start
    7 WM_DEVICECHANGE DBT_DEVICEARRIVAL 1000 sample_iface
    [sample_message DBT_DEVICEARRIVAL, sample_message DBT_DEVICEREMOVECOMPLETE]
  have g := C21_count_frame ascii_towupper ascii_towlower sample_DefWindowProcW
    sample_all_start 7 WM_DEVICECHANGE DBT_DEVICEARRIVAL 1000 sample_iface []
  ⟨by decide, (h.2.2.2.2.1 sample_final (by decide)).1,
    by decide, (g.1 sample_result (by decide)).1, (g.1 sample_result (by decide)).2.1⟩

theorem hresults_distinct : S_OK ≠ E_NOTIMPL ∧ S_OK ≠ E_NOINTERFACE := by decide

theorem LONG_id (x : Int) (h1 : -2 ^ 31 ≤ x) (h2 : x < 2 ^ 31) : LONG x = x := by
  unfold LONG
  norm_num at h1 h2 ⊢
  omega

theorem LONG_range (x : Int) : -2 ^ 31 ≤ LONG x ∧ LONG x < 2 ^ 31 := by
  unfold LONG
  norm_num
  omega

theorem LONG_inc_dec (x : Int) (h1 : -2 ^ 31 ≤ x) (h2 : x < 2 ^ 31) :
    LONG (LONG (x + 1) - 1) = x := by
  unfold LONG
  norm_num at h1 h2 ⊢
  omega

theorem distinct_ne (ids : Iids) (hd : ids.distinct) :
    ids.IID_IGameControllerInputSink ≠ ids.IID_IUnknown ∧
    ids.IID_IGameControllerInputSink ≠ ids.IID_IInspectable ∧
    ids.IID_IGameControllerInputSink ≠ IID_IGameControllerImpl ∧
    ids.IID_IHidGameControllerInputSink ≠ ids.IID_IUnknown ∧
    ids.IID_IHidGameControllerInputSink ≠ ids.IID_IInspectable ∧
    ids.IID_IHidGameControllerInputSink ≠ IID_IGameControllerImpl ∧
    ids.IID_IHidGameControllerInputSink ≠ ids.IID_IGameControllerInputSink ∧
    ids.IID_IRawGameController ≠ ids.IID_IUnknown ∧
    ids.IID_IRawGameController ≠ ids.IID_IInspectable ∧
    ids.IID_IRawGameController ≠ IID_IGameControllerImpl ∧
    ids.IID_IRawGameController ≠ ids.IID_IGameControllerInputSink ∧
    ids.IID_IRawGameController ≠ ids.IID_IHidGameControllerInputSink := by
  unfold Iids.distinct at hd
  simp only [List.nodup_cons, List.mem_cons, List.mem_singleton, not_or, List.not_mem_nil,
    not_false_eq_true, List.nodup_nil, and_true] at hd
  obtain ⟨⟨a1, a2, a3, a4, a5⟩, ⟨b1, b2, b3, b4⟩, ⟨c1, c2, c3⟩, ⟨d1, d2⟩, e1⟩ := hd
  exact ⟨Ne.symm a3, Ne.symm b2, Ne.symm c1, Ne.symm a4, Ne.symm b3, Ne.symm c2, Ne.symm d1,
    Ne.symm a5, Ne.symm b4, Ne.symm c3, Ne.symm d2, Ne.symm e1⟩

/-- The result of controller_QueryInterface for the three identifiers of the controller
interface itself. -/
theorem controller_qi_impl (ids : Iids) (m : Mocks) (iid : GUID)
    (h : iid = ids.IID_IUnknown ∨ iid = ids.IID_IInspectable ∨ iid = IID_IGameControllerImpl) :
    controller_QueryInterface ids m iid
      = some (S_OK, Iface.IGameControllerImpl_iface, (controller_AddRef m).2) := by
  unfold controller_QueryInterface
  rw [if_pos h]

/-- The result of controller_QueryInterface for IID_IGameControllerInputSink. -/
theorem controller_qi_input_sink (ids : Iids) (hd : ids.distinct) (m : Mocks) :
    controller_QueryInterface ids m ids.IID_IGameControllerInputSink
      = if m.custom_controller.IGameController_outer = 0 then none
        else some (S_OK, Iface.IGameControllerInputSink_iface,
          { m with outer_refs := m.outer_refs + 1 }) := by
  obtain ⟨a1, a2, a3, _⟩ := distinct_ne ids hd
  unfold controller_QueryInterface input_sink_AddRef
  rw [if_neg (by simp [a1, a2, a3]), if_pos rfl]
  split <;> rfl

/-- The result of controller_QueryInterface for IID_IHidGameControllerInputSink. -/
theorem controller_qi_hid_sink (ids : Iids) (hd : ids.distinct) (m : Mocks) :
    controller_QueryInterface ids m ids.IID_IHidGameControllerInputSink
      = if m.custom_controller.IGameController_outer = 0 then none
        else some (S_OK, Iface.IHidGameControllerInputSink_iface,
          { m with outer_refs := m.outer_refs + 1 }) := by
  obtain ⟨_, _, _, a1, a2, a3, a4, _⟩ := distinct_ne ids hd
  unfold controller_QueryInterface hid_sink_AddRef
  rw [if_neg (by simp [a1, a2, a3]), if_neg a4, if_pos rfl]
  split <;> rfl

/-- The result of controller_QueryInterface for IID_IRawGameController. -/
theorem controller_qi_raw (ids : Iids) (hd : ids.distinct) (m : Mocks) :
    controller_QueryInterface ids m ids.IID_IRawGameController
      = some (E_NOINTERFACE, Iface.null,
          { m with custom_controller :=
              { m.custom_controller with raw_game_controller_queried := true } }) := by
  obtain ⟨_, _, _, _, _, _, _, a1, a2, a3, a4, a5⟩ := distinct_ne ids hd
  unfold controller_QueryInterface
  rw [if_neg (by simp [a1, a2, a3]), if_neg a4, if_neg a5, if_pos rfl]

/-- The result of controller_QueryInterface for any other identifier. -/
theorem controller_qi_other (ids : Iids) (m : Mocks) (iid : GUID)
    (h1 : ¬ (iid = ids.IID_IUnknown ∨ iid = ids.IID_IInspectable ∨
      iid = IID_IGameControllerImpl))
    (h2 : iid ≠ ids.IID_IGameControllerInputSink)
    (h3 : iid ≠ ids.IID_IHidGameControllerInputSink)
    (h4 : iid ≠ ids.IID_IRawGameController) :
    controller_QueryInterface ids m iid = some (E_NOINTERFACE, Iface.null, m.ok false) := by
  unfold controller_QueryInterface
  rw [if_neg h1, if_neg h2, if_neg h3, if_neg h4]

/-- The five cases of controller_QueryInterface. -/
theorem controller_qi_cases (ids : Iids) (hd : ids.distinct) (m : Mocks) (iid : GUID)
    (r : Nat × Iface × Mocks) (h : controller_QueryInterface ids m iid = some r) :
    ((iid = ids.IID_IUnknown ∨ iid = ids.IID_IInspectable ∨ iid = IID_IGameControllerImpl) ∧
      r = (S_OK, Iface.IGameControllerImpl_iface, (controller_AddRef m).2)) ∨
    (iid = ids.IID_IGameControllerInputSink ∧ m.custom_controller.IGameController_outer ≠ 0 ∧
      r = (S_OK, Iface.IGameControllerInputSink_iface,
        { m with outer_refs := m.outer_refs + 1 })) ∨
    (iid = ids.IID_IHidGameControllerInputSink ∧
      m.custom_controller.IGameController_outer ≠ 0 ∧
      r = (S_OK, Iface.IHidGameControllerInputSink_iface,
        { m with outer_refs := m.outer_refs + 1 })) ∨
    (iid = ids.IID_IRawGameController ∧
      r = (E_NOINTERFACE, Iface.null, { m with custom_controller :=
        { m.custom_controller with raw_game_controller_queried := true } })) ∨
    (¬ (iid = ids.IID_IUnknown ∨ iid = ids.IID_IInspectable ∨
        iid = IID_IGameControllerImpl) ∧
      iid ≠ ids.IID_IGameControllerInputSink ∧ iid ≠ ids.IID_IHidGameControllerInputSink ∧
      iid ≠ ids.IID_IRawGameController ∧ r = (E_NOINTERFACE, Iface.null, m.ok false)) := by
  by_cases h1 : iid = ids.IID_IUnknown ∨ iid = ids.IID_IInspectable ∨
      iid = IID_IGameControllerImpl
  · rw [controller_qi_impl ids m iid h1] at h
    exact Or.inl ⟨h1, (Option.some.inj h).symm⟩
  · by_cases h2 : iid = ids.IID_IGameControllerInputSink
    · subst h2
      rw [controller_qi_input_sink ids hd m] at h
      by_cases ho : m.custom_controller.IGameController_outer = 0
      · rw [if_pos ho] at h; exact absurd h (by simp)
      · rw [if_neg ho] at h
        exact Or.inr (Or.inl ⟨rfl, ho, (Option.some.inj h).symm⟩)
    · by_cases h3 : iid = ids.IID_IHidGameControllerInputSink
      · subst h3
        rw [controller_qi_hid_sink ids hd m] at h
        by_cases ho : m.custom_controller.IGameController_outer = 0
        · rw [if_pos ho] at h; exact absurd h (by simp)
        · rw [if_neg ho] at h
          exact Or.inr (Or.inr (Or.inl ⟨rfl, ho, (Option.some.inj h).symm⟩))
      · by_cases h4 : iid = ids.IID_IRawGameController
        · subst h4
          rw [controller_qi_raw ids hd m] at h
          exact Or.inr (Or.inr (Or.inr (Or.inl ⟨rfl, (Option.some.inj h).symm⟩)))
        · rw [controller_qi_other ids m iid h1 h2 h3 h4] at h
          exact Or.inr (Or.inr (Or.inr (Or.inr ⟨h1, h2, h3, h4, (Option.some.inj h).symm⟩)))

/-- C23: custom_factory_CreateGameController leaves create_controller_called TRUE after
every call and changes no other member of custom_factory; with create_controller FALSE it
returns E_NOTIMPL, stores nothing in `*value` and leaves custom_controller as it was; with
create_controller TRUE it returns S_OK, stores the address of
custom_controller.IGameControllerImpl_iface in `*value`, and custom_controller afterwards
is the one before with ref replaced by 1. -/
theorem C23_create_game_controller (ids : Iids) (qi : Nat → GUID → Nat) (m : Mocks)
    (provider : Nat) :
    (custom_factory_CreateGameController ids qi m provider).2.2.custom_factory
      = { m.custom_factory with create_controller_called := true } ∧
    (m.custom_factory.create_controller = false →
      (custom_factory_CreateGameController ids qi m provider).1 = E_NOTIMPL ∧
      (custom_factory_CreateGameController ids qi m provider).2.1 = none ∧
      (custom_factory_CreateGameController ids qi m provider).2.2.custom_controller
        = m.custom_controller) ∧
    (m.custom_factory.create_controller = true →
      (custom_factory_CreateGameController ids qi m provider).1 = S_OK ∧
      (custom_factory_CreateGameController ids qi m provider).2.1
        = some Iface.IGameControllerImpl_iface ∧
      (custom_factory_CreateGameController ids qi m provider).2.2.custom_controller
        = { m.custom_controller with ref := 1 } ∧
      (custom_factory_CreateGameController ids qi m provider).2.2.custom_controller.ref
        = 1) := by
  cases hc : m.custom_factory.create_controller <;>
    simp [custom_factory_CreateGameController, check_interface, Mocks.ok, hc]

/-- Witness for C23: the sample factory (create_controller TRUE) with ref 0 before the
call, and the same factory with create_controller FALSE. -/
theorem C23_create_game_controller_witness :
    sample_mocks.custom_factory.create_controller = true ∧
    (custom_factory_CreateGameController sample_iids sample_qi sample_mocks 500).1 = S_OK ∧
    (custom_factory_CreateGameController sample_iids sample_qi sample_mocks
      500).2.2.custom_controller.ref = 1 ∧
    (custom_factory_CreateGameController sample_iids sample_qi
      { sample_mocks with custom_factory := ⟨false, false, false, 13, false, 14⟩ } 500).1
      = E_NOTIMPL :=
  have h := (C23_create_game_controller sample_iids sample_qi sample_mocks 500).2.2 rfl
  ⟨rfl, h.1, h.2.2.2,
    ((C23_create_game_controller sample_iids sample_qi
      { sample_mocks with custom_factory := ⟨false, false, false, 13, false, 14⟩ }
      500).2.1 rfl).1⟩

/-- C24 (amended): with pairwise different interface identifiers, controller_QueryInterface
returns S_OK and stores IGameControllerImpl_iface for IID_IUnknown, IID_IInspectable and
IID_IGameControllerImpl; it returns S_OK and stores IGameControllerInputSink_iface for
IID_IGameControllerInputSink, and IHidGameControllerInputSink_iface for
IID_IHidGameControllerInputSink, when IGameController_outer is not NULL, and with a NULL
pointer these two calls, and only these, do not return; for every other identifier it
returns E_NOINTERFACE and stores NULL. After a call raw_game_controller_queried is TRUE if
it was before or the identifier is IID_IRawGameController and keeps its value otherwise; a
failing `ok` is recorded exactly for the identifiers that are neither supported nor
IID_IRawGameController. -/
theorem C24_controller_query_interface (ids : Iids) (hd : ids.distinct) (m : Mocks)
    (iid : GUID) :
    ((iid = ids.IID_IUnknown ∨ iid = ids.IID_IInspectable ∨ iid = IID_IGameControllerImpl) →
      ∃ m1, controller_QueryInterface ids m iid
        = some (S_OK, Iface.IGameControllerImpl_iface, m1)) ∧
    (iid = ids.IID_IGameControllerInputSink →
      m.custom_controller.IGameController_outer ≠ 0 →
      ∃ m1, controller_QueryInterface ids m iid
        = some (S_OK, Iface.IGameControllerInputSink_iface, m1)) ∧
    (iid = ids.IID_IHidGameControllerInputSink →
      m.custom_controller.IGameController_outer ≠ 0 →
      ∃ m1, controller_QueryInterface ids m iid
        = some (S_OK, Iface.IHidGameControllerInputSink_iface, m1)) ∧
    (¬ (iid = ids.IID_IUnknown ∨ iid = ids.IID_IInspectable ∨
        iid = IID_IGameControllerImpl ∨ iid = ids.IID_IGameControllerInputSink ∨
        iid = ids.IID_IHidGameControllerInputSink) →
      ∃ m1, controller_QueryInterface ids m iid = some (E_NOINTERFACE, Iface.null, m1)) ∧
    (controller_QueryInterface ids m iid = none ↔
      (iid = ids.IID_IGameControllerInputSink ∨ iid = ids.IID_IHidGameControllerInputSink) ∧
      m.custom_controller.IGameController_outer = 0) ∧
    (∀ r, controller_QueryInterface ids m iid = some r →
      r.2.2.custom_controller.raw_game_controller_queried
        = (m.custom_controller.raw_game_controller_queried ||
            decide (iid = ids.IID_IRawGameController)) ∧
      r.2.2.oks = m.oks ++
        (if iid = ids.IID_IUnknown ∨ iid = ids.IID_IInspectable ∨
            iid = IID_IGameControllerImpl ∨ iid = ids.IID_IGameControllerInputSink ∨
            iid = ids.IID_IHidGameControllerInputSink ∨ iid = ids.IID_IRawGameController
          then [] else [false])) := by
  have hne := distinct_ne ids hd
  obtain ⟨a1, a2, a3, b1, b2, b3, b4, c1, c2, c3, c4, c5⟩ := hne
  refine ⟨?_, ?_, ?_, ?_, ?_, ?_⟩
  · intro h
    exact ⟨_, controller_qi_impl ids m iid h⟩
  · intro h ho
    subst h
    rw [controller_qi_input_sink ids hd m, if_neg ho]
    exact ⟨_, rfl⟩
  · intro h ho
    subst h
    rw [controller_qi_hid_sink ids hd m, if_neg ho]
    exact ⟨_, rfl⟩
  · intro h
    simp only [not_or] at h
    obtain ⟨h1, h2, h3, h4, h5⟩ := h
    by_cases h6 : iid = ids.IID_IRawGameController
    · subst h6
      exact ⟨_, controller_qi_raw ids hd m⟩
    · exact ⟨_, controller_qi_other ids m iid (by simp [h1, h2, h3]) h4 h5 h6⟩
  · constructor
    · intro h
      by_cases h1 : iid = ids.IID_IUnknown ∨ iid = ids.IID_IInspectable ∨
          iid = IID_IGameControllerImpl
      · rw [controller_qi_impl ids m iid h1] at h; exact absurd h (by simp)
      · by_cases h2 : iid = ids.IID_IGameControllerInputSink
        · subst h2
          rw [controller_qi_input_sink ids hd m] at h
          by_cases ho : m.custom_controller.IGameController_outer = 0
          · exact ⟨Or.inl rfl, ho⟩
          · rw [if_neg ho] at h; exact absurd h (by simp)
        · by_cases h3 : iid = ids.IID_IHidGameControllerInputSink
          · subst h3
            rw [controller_qi_hid_sink ids hd m] at h
            by_cases ho : m.custom_controller.IGameController_outer = 0
            · exact ⟨Or.inr rfl, ho⟩
            · rw [if_neg ho] at h; exact absurd h (by simp)
          · by_cases h4 : iid = ids.IID_IRawGameController
            · subst h4
              rw [controller_qi_raw ids hd m] at h; exact absurd h (by simp)
            · rw [controller_qi_other ids m iid h1 h2 h3 h4] at h; exact absurd h (by simp)
    · rintro ⟨h | h, ho⟩
      · subst h
        rw [controller_qi_input_sink ids hd m, if_pos ho]
      · subst h
        rw [controller_qi_hid_sink ids hd m, if_pos ho]
  · intro r h
    rcases controller_qi_cases ids hd m iid r h with
      ⟨h1, e⟩ | ⟨h1, _, e⟩ | ⟨h1, _, e⟩ | ⟨h1, e⟩ | ⟨h1, h2, h3, h4, e⟩
    · have h6 : iid ≠ ids.IID_IRawGameController := by
        rcases h1 with h1 | h1 | h1 <;> rw [h1]
        · exact Ne.symm c1
        · exact Ne.symm c2
        · exact Ne.symm c3
      have h7 : iid = ids.IID_IUnknown ∨ iid = ids.IID_IInspectable ∨
          iid = IID_IGameControllerImpl ∨ iid = ids.IID_IGameControllerInputSink ∨
          iid = ids.IID_IHidGameControllerInputSink ∨ iid = ids.IID_IRawGameController := by
        rcases h1 with h1 | h1 | h1 <;> simp [h1]
      rw [e, if_pos h7]
      simp [controller_AddRef, h6]
    · subst h1
      rw [e, if_pos (by simp)]
      simp [Ne.symm c4]
    · subst h1
      rw [e, if_pos (by simp)]
      simp [Ne.symm c5]
    · subst h1
      rw [e, if_pos (by simp)]
      simp
    · simp only [not_or] at h1
      rw [e, if_neg (by simp [h1.1, h1.2.1, h1.2.2, h2, h3, h4])]
      simp [Mocks.ok, h4]

/-- Counterexample for C24 as stated: in the state the static object custom_controller
starts in, IGameController_outer is NULL, and a query for IID_IGameControllerInputSink or
IID_IHidGameControllerInputSink calls AddRef through that pointer: neither call returns
S_OK. -/
theorem C24_sink_query_null_outer :
    sample_mocks.custom_controller.IGameController_outer = 0 ∧
    controller_QueryInterface sample_iids sample_mocks
      sample_iids.IID_IGameControllerInputSink = none ∧
    controller_QueryInterface sample_iids sample_mocks
      sample_iids.IID_IHidGameControllerInputSink = none ∧
    ¬ ∃ m1, controller_QueryInterface sample_iids sample_mocks
        sample_iids.IID_IGameControllerInputSink
      = some (S_OK, Iface.IGameControllerInputSink_iface, m1) := by
  have e : controller_QueryInterface sample_iids sample_mocks
      sample_iids.IID_IGameControllerInputSink = none := by decide
  refine ⟨rfl, e, by decide, ?_⟩
  rintro ⟨m1, h⟩
  rw [e] at h
  exact absurd h (by simp)

/-- Witness for C24: on the sample identifiers, after controller_Initialize has stored the
outer object 600, a query for IID_IGameControllerInputSink returns S_OK with
IGameControllerInputSink_iface; a query for IID_IRawGameController sets
raw_game_controller_queried and records no failure. -/
theorem C24_controller_query_interface_witness :
    sample_iids.distinct ∧
    (controller_Initialize sample_iids sample_qi sample_mocks 600
      500).2.custom_controller.IGameController_outer ≠ 0 ∧
    (∃ m1, controller_QueryInterface sample_iids
        (controller_Initialize sample_iids sample_qi sample_mocks 600 500).2
        sample_iids.IID_IGameControllerInputSink
      = some (S_OK, Iface.IGameControllerInputSink_iface, m1)) ∧
    controller_QueryInterface sample_iids sample_mocks sample_iids.IID_IRawGameController
      = some (E_NOINTERFACE, Iface.null,
          { sample_mocks with custom_controller := ⟨0, 0, false, false, false, true⟩ }) ∧
    true = (sample_mocks.custom_controller.raw_game_controller_queried ||
      decide (sample_iids.IID_IRawGameController = sample_iids.IID_IRawGameController)) :=
  have h := C24_controller_query_interface sample_iids (by decide) sample_mocks
    sample_iids.IID_IRawGameController
  ⟨by decide, by decide,
    (C24_controller_query_interface sample_iids (by decide)
      (controller_Initialize sample_iids sample_qi sample_mocks 600 500).2
      sample_iids.IID_IGameControllerInputSink).2.1 rfl (by decide),
    by decide,
    (h.2.2.2.2.2 (E_NOINTERFACE, Iface.null,
      { sample_mocks with custom_controller := ⟨0, 0, false, false, false, true⟩ })
      (by decide)).1⟩

/-- C25: with pairwise different interface identifiers, a query for IID_IUnknown,
IID_IInspectable or IID_IGameControllerImpl succeeds and leaves custom_controller.ref one
higher in LONG arithmetic (exactly ref + 1 unless ref is the largest LONG); a query for
IID_IGameControllerInputSink or IID_IHidGameControllerInputSink has no defined result
while IGameController_outer is NULL, and otherwise succeeds, leaves custom_controller as
it was and takes one reference on the outer object; a query that does not return S_OK
leaves ref as it was. controller_Initialize stores its `outer` argument in
IGameController_outer, after which (for a non-NULL `outer`) both sink queries are
defined. -/
theorem C25_query_interface_ref (ids : Iids) (hd : ids.distinct) (m : Mocks) (iid : GUID)
    (qi : Nat → GUID → Nat) (outer provider : Nat) :
    ((iid = ids.IID_IUnknown ∨ iid = ids.IID_IInspectable ∨ iid = IID_IGameControllerImpl) →
      ∃ m1, controller_QueryInterface ids m iid
          = some (S_OK, Iface.IGameControllerImpl_iface, m1) ∧
        m1.custom_controller.ref = LONG (m.custom_controller.ref + 1) ∧
        (-2 ^ 31 ≤ m.custom_controller.ref → m.custom_controller.ref < 2 ^ 31 - 1 →
          m1.custom_controller.ref = m.custom_controller.ref + 1) ∧
        m1.outer_refs = m.outer_refs) ∧
    ((iid = ids.IID_IGameControllerInputSink ∨ iid = ids.IID_IHidGameControllerInputSink) →
      (m.custom_controller.IGameController_outer = 0 →
        controller_QueryInterface ids m iid = none) ∧
      (m.custom_controller.IGameController_outer ≠ 0 →
        ∃ out m1, controller_QueryInterface ids m iid = some (S_OK, out, m1) ∧
          m1.custom_controller = m.custom_controller ∧
          m1.outer_refs = m.outer_refs + 1)) ∧
    (∀ r, controller_QueryInterface ids m iid = some r → r.1 ≠ S_OK →
      r.2.2.custom_controller.ref = m.custom_controller.ref ∧
      r.2.2.outer_refs = m.outer_refs) ∧
    (controller_Initialize ids qi m outer
      provider).2.custom_controller.IGameController_outer = outer ∧
    (outer ≠ 0 →
      (controller_QueryInterface ids (controller_Initialize ids qi m outer provider).2
        ids.IID_IGameControllerInputSink).isSome = true ∧
      (controller_QueryInterface ids (controller_Initialize ids qi m outer provider).2
        ids.IID_IHidGameControllerInputSink).isSome = true) := by
  have hinit : (controller_Initialize ids qi m outer
      provider).2.custom_controller.IGameController_outer = outer := by
    simp [controller_Initialize, check_interface, Mocks.ok]
  refine ⟨?_, ?_, ?_, hinit, ?_⟩
  · intro h
    refine ⟨_, controller_qi_impl ids m iid h, rfl, ?_, rfl⟩
    intro h1 h2
    exact LONG_id _ (by omega) (by omega)
  · rintro (h | h)
    · subst h
      rw [controller_qi_input_sink ids hd m]
      refine ⟨fun ho => by rw [if_pos ho], fun ho => ?_⟩
      rw [if_neg ho]
      exact ⟨_, _, rfl, rfl, rfl⟩
    · subst h
      rw [controller_qi_hid_sink ids hd m]
      refine ⟨fun ho => by rw [if_pos ho], fun ho => ?_⟩
      rw [if_neg ho]
      exact ⟨_, _, rfl, rfl, rfl⟩
  · intro r h hr
    rcases controller_qi_cases ids hd m iid r h with
      ⟨_, e⟩ | ⟨_, _, e⟩ | ⟨_, _, e⟩ | ⟨_, e⟩ | ⟨_, _, _, _, e⟩
    · rw [e] at hr; exact absurd rfl hr
    · rw [e] at hr; exact absurd rfl hr
    · rw [e] at hr; exact absurd rfl hr
    · rw [e]; exact ⟨rfl, rfl⟩
    · rw [e]; exact ⟨rfl, rfl⟩
  · intro ho
    rw [controller_qi_input_sink ids hd, controller_qi_hid_sink ids hd, hinit]
    simp only [if_neg ho]
    exact ⟨rfl, rfl⟩

/-- Witness for C25: on the sample objects, a query for IID_IUnknown raises ref from 0 to
1, and after controller_Initialize with the outer object 600 a query for
IID_IGameControllerInputSink succeeds without touching ref. -/
theorem C25_query_interface_ref_witness :
    sample_iids.distinct ∧
    (∃ m1, controller_QueryInterface sample_iids sample_mocks sample_iids.IID_IUnknown
        = some (S_OK, Iface.IGameControllerImpl_iface, m1) ∧
      m1.custom_controller.ref = LONG (sample_mocks.custom_controller.ref + 1) ∧
      (-2 ^ 31 ≤ sample_mocks.custom_controller.ref →
        sample_mocks.custom_controller.ref < 2 ^ 31 - 1 →
        m1.custom_controller.ref = sample_mocks.custom_controller.ref + 1) ∧
      m1.outer_refs = sample_mocks.outer_refs) ∧
    (controller_QueryInterface sample_iids
      (controller_Initialize sample_iids sample_qi sample_mocks 600 500).2
      sample_iids.IID_IGameControllerInputSink).isSome = true :=
  have h := C25_query_interface_ref sample_iids (by decide) sample_mocks
    sample_iids.IID_IUnknown sample_qi 600 500
  ⟨by decide, h.1 (Or.inl rfl), (h.2.2.2.2 (by decide)).1⟩

/-- C26: controller_AddRef stores ref + 1 and controller_Release stores ref - 1 in
custom_controller.ref, reduced to a LONG, and each returns the stored value as a ULONG;
while the result fits a LONG it is exactly ref + 1 and ref - 1. Nothing else changes in
either call, whatever the new count is (also when controller_Release reaches zero).
For a ref in the range of LONG, controller_Release after controller_AddRef gives back
the state before the two calls. -/
theorem C26_controller_addref_release (m : Mocks) :
    (controller_AddRef m).2 = { m with custom_controller :=
      { m.custom_controller with ref := LONG (m.custom_controller.ref + 1) } } ∧
    (controller_AddRef m).1 = ULONG (LONG (m.custom_controller.ref + 1)) ∧
    (controller_Release m).2 = { m with custom_controller :=
      { m.custom_controller with ref := LONG (m.custom_controller.ref - 1) } } ∧
    (controller_Release m).1 = ULONG (LONG (m.custom_controller.ref - 1)) ∧
    (-2 ^ 31 ≤ m.custom_controller.ref → m.custom_controller.ref < 2 ^ 31 - 1 →
      (controller_AddRef m).2.custom_controller.ref = m.custom_controller.ref + 1) ∧
    (0 ≤ m.custom_controller.ref → m.custom_controller.ref < 2 ^ 31 - 1 →
      ((controller_AddRef m).1 : Int) = m.custom_controller.ref + 1) ∧
    (-2 ^ 31 < m.custom_controller.ref → m.custom_controller.ref < 2 ^ 31 →
      (controller_Release m).2.custom_controller.ref = m.custom_controller.ref - 1) ∧
    (0 < m.custom_controller.ref → m.custom_controller.ref < 2 ^ 31 →
      ((controller_Release m).1 : Int) = m.custom_controller.ref - 1) ∧
    (m.custom_controller.ref = 1 →
      (controller_Release m).1 = 0 ∧
      (controller_Release m).2 = { m with custom_controller :=
        { m.custom_controller with ref := 0 } }) ∧
    (-2 ^ 31 ≤ m.custom_controller.ref → m.custom_controller.ref < 2 ^ 31 →
      (controller_Release (controller_AddRef m).2).2 = m) := by
  refine ⟨rfl, rfl, rfl, rfl, ?_, ?_, ?_, ?_, ?_, ?_⟩
  · intro h1 h2
    exact LONG_id _ (by omega) (by omega)
  · intro h1 h2
    show ((ULONG (LONG (m.custom_controller.ref + 1)) : Nat) : Int) = _
    rw [LONG_id _ (by omega) (by omega)]
    unfold ULONG
    norm_num at h2 ⊢
    omega
  · intro h1 h2
    exact LONG_id _ (by omega) (by omega)
  · intro h1 h2
    show ((ULONG (LONG (m.custom_controller.ref - 1)) : Nat) : Int) = _
    rw [LONG_id _ (by omega) (by omega)]
    unfold ULONG
    norm_num at h2 ⊢
    omega
  · intro h1
    simp only [controller_Release, h1]
    exact ⟨by decide, by
      have e : LONG (1 - 1) = 0 := by decide
      rw [e]⟩
  · intro h1 h2
    have e := LONG_inc_dec m.custom_controller.ref h1 h2
    simp only [controller_Release, controller_AddRef, e]

/-- Witness for C26: from ref = 1 on the sample objects, AddRef returns 2 and the
following Release gives back the state. -/
theorem C26_controller_addref_release_witness :
    (controller_AddRef { sample_mocks with
      custom_controller := ⟨0, 1, false, false, false, false⟩ }).1 = 2 ∧
    (controller_Release (controller_AddRef { sample_mocks with
      custom_controller := ⟨0, 1, false, false, false, false⟩ }).2).2
      = { sample_mocks with custom_controller := ⟨0, 1, false, false, false, false⟩ } :=
  ⟨by decide,
    (C26_controller_addref_release { sample_mocks with
      custom_controller := ⟨0, 1, false, false, false, false⟩ }).2.2.2.2.2.2.2.2.2
      (by decide) (by decide)⟩

/-- C27: controller_handler_QueryInterface returns S_OK and stores the interface pointer
it was called on exactly when the identifier is IID_IUnknown, IID_IAgileObject or
IID_IEventHandler_RawGameController, and returns E_NOINTERFACE and stores NULL for every
other identifier; controller_handler_AddRef returns 2 and controller_handler_Release
returns 1; the handler (its event and invoked members) is the same after each of the
three calls. -/
theorem C27_controller_handler (ids : Iids) (h : controller_handler) (iface : Iface)
    (iid : GUID) :
    (((controller_handler_QueryInterface ids h iface iid).1 = S_OK ∧
        (controller_handler_QueryInterface ids h iface iid).2.1 = iface) ↔
      (iid = ids.IID_IUnknown ∨ iid = ids.IID_IAgileObject ∨
        iid = ids.IID_IEventHandler_RawGameController)) ∧
    (¬ (iid = ids.IID_IUnknown ∨ iid = ids.IID_IAgileObject ∨
        iid = ids.IID_IEventHandler_RawGameController) →
      (controller_handler_QueryInterface ids h iface iid).1 = E_NOINTERFACE ∧
      (controller_handler_QueryInterface ids h iface iid).2.1 = Iface.null) ∧
    (controller_handler_AddRef h iface).1 = 2 ∧
    (controller_handler_Release h iface).1 = 1 ∧
    (controller_handler_QueryInterface ids h iface iid).2.2 = h ∧
    (controller_handler_AddRef h iface).2 = h ∧
    (controller_handler_Release h iface).2 = h := by
  by_cases hi : iid = ids.IID_IUnknown ∨ iid = ids.IID_IAgileObject ∨
      iid = ids.IID_IEventHandler_RawGameController
  · have e : controller_handler_QueryInterface ids h iface iid = (S_OK, iface, h) := by
      unfold controller_handler_QueryInterface
      rw [if_pos hi]
      rfl
    rw [e]
    exact ⟨⟨fun _ => hi, fun _ => ⟨rfl, rfl⟩⟩, fun hn => absurd hi hn, rfl, rfl, rfl, rfl,
      rfl⟩
  · have e : controller_handler_QueryInterface ids h iface iid
        = (E_NOINTERFACE, Iface.null, h) := by
      unfold controller_handler_QueryInterface
      rw [if_neg hi]
    rw [e]
    refine ⟨⟨fun hx => ?_, fun hx => absurd hx hi⟩, fun _ => ⟨rfl, rfl⟩, rfl, rfl, rfl, rfl,
      rfl⟩
    exact absurd (hx.1 : E_NOINTERFACE = S_OK) (Ne.symm hresults_distinct.2)

/-- Witness for C27: the handler controller_added asked for IID_IAgileObject and for
IID_IGameController on the sample identifiers. -/
theorem C27_controller_handler_witness :
    controller_handler_QueryInterface sample_iids sample_mocks.controller_added
      Iface.controller_added_iface sample_iids.IID_IAgileObject
      = (S_OK, Iface.controller_added_iface, sample_mocks.controller_added) ∧
    (controller_handler_QueryInterface sample_iids sample_mocks.controller_added
      Iface.controller_added_iface sample_iids.IID_IGameController).1 = E_NOINTERFACE ∧
    (controller_handler_QueryInterface sample_iids sample_mocks.controller_added
      Iface.controller_added_iface sample_iids.IID_IGameController).2.1 = Iface.null :=
  ⟨by decide,
    (C27_controller_handler sample_iids sample_mocks.controller_added
      Iface.controller_added_iface sample_iids.IID_IGameController).2.1 (by decide)⟩

/-! ## The claims on the callback order -/

/-- Each callback sets its own flag and no other. -/
theorem invoke_called (ids : Iids) (qi : Nat → GUID → Nat) (m : Mocks) (d : Callback)
    (k : Nat) :
    (invoke ids qi m d).called k = (m.called k || decide (d.kind = k)) := by
  cases d <;> rcases k with _ | _ | _ | _ | _ | _ | k <;>
    simp [invoke, Mocks.called, Callback.kind, custom_factory_CreateGameController,
      controller_Initialize, input_sink_OnInputResumed, input_sink_OnInputSuspended,
      controller_handler_Invoke, custom_factory_OnGameControllerAdded, check_interface,
      Mocks.ok, apply_ite]

theorem invoke_all_called (ids : Iids) (qi : Nat → GUID → Nat) (k : Nat) :
    ∀ (tr : List Callback) (m : Mocks),
      (invoke_all ids qi m tr).called k
        = (m.called k || tr.any (fun d => decide (d.kind = k))) := by
  intro tr
  induction tr with
  | nil => intro m; simp [invoke_all]
  | cons d ds ih =>
    intro m
    have e : invoke_all ids qi m (d :: ds) = invoke_all ids qi (invoke ids qi m d) ds := rfl
    rw [e, ih, invoke_called]
    simp [Bool.or_assoc]

theorem invoke_create_controller (ids : Iids) (qi : Nat → GUID → Nat) (m : Mocks)
    (d : Callback) :
    (invoke ids qi m d).custom_factory.create_controller
      = m.custom_factory.create_controller := by
  cases d <;>
    simp [invoke, custom_factory_CreateGameController,
      controller_Initialize, input_sink_OnInputResumed, input_sink_OnInputSuspended,
      controller_handler_Invoke, custom_factory_OnGameControllerAdded, check_interface,
      Mocks.ok, apply_ite]

theorem invoke_all_create_controller (ids : Iids) (qi : Nat → GUID → Nat) :
    ∀ (tr : List Callback) (m : Mocks),
      (invoke_all ids qi m tr).custom_factory.create_controller
        = m.custom_factory.create_controller := by
  intro tr
  induction tr with
  | nil => intro m; rfl
  | cons d ds ih =>
    intro m
    have e : invoke_all ids qi m (d :: ds) = invoke_all ids qi (invoke ids qi m d) ds := rfl
    rw [e, ih, invoke_create_controller]

/-- A callback only adds to the recorded checks. -/
theorem invoke_oks (ids : Iids) (qi : Nat → GUID → Nat) (m : Mocks) (d : Callback) :
    ∃ l, (invoke ids qi m d).oks = m.oks ++ l := by
  cases d
  · cases hc : m.custom_factory.create_controller
    · exact ⟨[!m.controller_added.invoked, !m.custom_factory.create_controller_called], by
        simp [invoke, custom_factory_CreateGameController, Mocks.ok, hc]⟩
    · exact ⟨_, by
        simp only [invoke, custom_factory_CreateGameController, Mocks.ok, check_interface, hc,
          List.append_assoc]
        rfl⟩
  · exact ⟨_, by
      simp only [invoke, controller_Initialize, Mocks.ok, check_interface, List.append_assoc]
      rfl⟩
  · exact ⟨_, by
      simp only [invoke, input_sink_OnInputResumed, Mocks.ok, List.append_assoc]
      rfl⟩
  · exact ⟨_, by
      simp only [invoke, input_sink_OnInputSuspended, Mocks.ok, List.append_assoc]
      rfl⟩
  · exact ⟨_, by
      simp only [invoke, controller_handler_Invoke, Mocks.ok]
      rfl⟩
  · exact ⟨_, by
      simp only [invoke, custom_factory_OnGameControllerAdded, Mocks.ok, List.append_assoc]
      rfl⟩

theorem invoke_all_oks (ids : Iids) (qi : Nat → GUID → Nat) :
    ∀ (tr : List Callback) (m : Mocks), ∃ l, (invoke_all ids qi m tr).oks = m.oks ++ l := by
  intro tr
  induction tr with
  | nil => intro m; exact ⟨[], by simp [invoke_all]⟩
  | cons d ds ih =>
    intro m
    have e : invoke_all ids qi m (d :: ds) = invoke_all ids qi (invoke ids qi m d) ds := rfl
    obtain ⟨l1, h1⟩ := ih (invoke ids qi m d)
    obtain ⟨l2, h2⟩ := invoke_oks ids qi m d
    exact ⟨l2 ++ l1, by rw [e, h1, h2, List.append_assoc]⟩

/-- In a run without a failed check, no check has failed after any callback of it. -/
theorem invoke_all_split (ids : Iids) (qi : Nat → GUID → Nat) (m : Mocks)
    (pre post : List Callback) (d : Callback)
    (hok : ∀ b, b ∈ (invoke_all ids qi m (pre ++ d :: post)).oks → b = true) :
    ∀ b, b ∈ (invoke ids qi (invoke_all ids qi m pre) d).oks → b = true := by
  intro b hb
  have e : invoke_all ids qi m (pre ++ d :: post)
      = invoke_all ids qi (invoke ids qi (invoke_all ids qi m pre) d) post := by
    simp [invoke_all, List.foldl_append]
  obtain ⟨l, hl⟩ := invoke_all_oks ids qi post (invoke ids qi (invoke_all ids qi m pre) d)
  apply hok
  rw [e, hl]
  exact List.mem_append_left _ hb

/-- The checks of custom_factory_OnGameControllerAdded. -/
theorem added_checks (ids : Iids) (qi : Nat → GUID → Nat) (m : Mocks) (v : Nat)
    (h : ∀ b, b ∈ (invoke ids qi m (Callback.OnGameControllerAdded v)).oks → b = true) :
    m.called 4 = true ∧ m.called 0 = true ∧ m.custom_factory.create_controller = true ∧
    m.called 1 = true ∧ m.called 2 = true ∧ m.called 3 = false ∧ m.called 5 = false := by
  have e : (invoke ids qi m (Callback.OnGameControllerAdded v)).oks
      = m.oks ++ [m.controller_added.invoked, m.custom_factory.create_controller_called,
          m.custom_factory.create_controller, m.custom_controller.initialize_called,
          m.custom_controller.on_input_resumed_called,
          !m.custom_controller.on_input_suspended_called,
          !m.custom_factory.on_game_controller_added_called] := by
    simp [invoke, custom_factory_OnGameControllerAdded, Mocks.ok]
  rw [e] at h
  refine ⟨?_, ?_, ?_, ?_, ?_, ?_, ?_⟩
  · exact h m.controller_added.invoked (by simp)
  · exact h m.custom_factory.create_controller_called (by simp)
  · exact h m.custom_factory.create_controller (by simp)
  · exact h m.custom_controller.initialize_called (by simp)
  · exact h m.custom_controller.on_input_resumed_called (by simp)
  · have := h (!m.custom_controller.on_input_suspended_called) (by simp)
    simpa [Mocks.called] using this
  · have := h (!m.custom_factory.on_game_controller_added_called) (by simp)
    simpa [Mocks.called] using this

/-- The checks of custom_factory_CreateGameController. -/
theorem create_checks (ids : Iids) (qi : Nat → GUID → Nat) (m : Mocks) (p : Nat)
    (h : ∀ b, b ∈ (invoke ids qi m (Callback.CreateGameController p)).oks → b = true) :
    m.called 4 = false ∧ m.called 0 = false := by
  obtain ⟨l, hl⟩ : ∃ l, (invoke ids qi m (Callback.CreateGameController p)).oks
      = m.oks ++ ([!m.controller_added.invoked, !m.custom_factory.create_controller_called]
        ++ l) := by
    cases hc : m.custom_factory.create_controller
    · exact ⟨[], by simp [invoke, custom_factory_CreateGameController, Mocks.ok, hc]⟩
    · exact ⟨_, by
        simp only [invoke, custom_factory_CreateGameController, Mocks.ok, check_interface, hc,
          List.append_assoc]
        rfl⟩
  rw [hl] at h
  constructor
  · have := h (!m.controller_added.invoked) (by simp)
    simpa [Mocks.called] using this
  · have := h (!m.custom_factory.create_controller_called) (by simp)
    simpa [Mocks.called] using this

/-- The checks of input_sink_OnInputResumed. -/
theorem resumed_checks (ids : Iids) (qi : Nat → GUID → Nat) (m : Mocks) (t : Nat)
    (h : ∀ b, b ∈ (invoke ids qi m (Callback.OnInputResumed t)).oks → b = true) :
    m.called 4 = false ∧ m.called 2 = false := by
  have e : (invoke ids qi m (Callback.OnInputResumed t)).oks
      = m.oks ++ [!m.controller_added.invoked,
          !m.custom_controller.on_input_resumed_called] := by
    simp [invoke, input_sink_OnInputResumed, Mocks.ok]
  rw [e] at h
  constructor
  · have := h (!m.controller_added.invoked) (by simp)
    simpa [Mocks.called] using this
  · have := h (!m.custom_controller.on_input_resumed_called) (by simp)
    simpa [Mocks.called] using this

theorem fresh_called (m : Mocks) (hf : m.fresh) (k : Nat) : m.called k = false := by
  obtain ⟨h1, h2, h3, h4, h5, h6, h7, h8, h9⟩ := hf
  rcases k with _ | _ | _ | _ | _ | _ | k <;> simp [Mocks.called, *]

theorem any_kind_true (tr : List Callback) (k : Nat) :
    tr.any (fun d => decide (d.kind = k)) = true ↔ ∃ d, d ∈ tr ∧ d.kind = k := by
  simp

theorem any_kind_false (tr : List Callback) (k : Nat) :
    tr.any (fun d => decide (d.kind = k)) = false ↔ ∀ d, d ∈ tr → d.kind ≠ k := by
  simp

/-- The state in which a callback of a run without a failed check is invoked: the checks
of the callback itself hold there, and each flag tells whether its function has been
called before. -/
theorem invoke_all_at (ids : Iids) (qi : Nat → GUID → Nat) (m : Mocks) (hf : m.fresh)
    (pre post : List Callback) (d : Callback)
    (hok : ∀ b, b ∈ (invoke_all ids qi m (pre ++ d :: post)).oks → b = true) :
    (∀ b, b ∈ (invoke ids qi (invoke_all ids qi m pre) d).oks → b = true) ∧
    (∀ k, (invoke_all ids qi m pre).called k = pre.any (fun c => decide (c.kind = k))) ∧
    (invoke_all ids qi m pre).custom_factory.create_controller
      = m.custom_factory.create_controller := by
  refine ⟨invoke_all_split ids qi m pre post d hok, ?_, invoke_all_create_controller _ _ _ _⟩
  intro k
  rw [invoke_all_called, fresh_called m hf k, Bool.false_or]

/-- A callback whose checks ask for its own flag to be FALSE is invoked at most once in a
run without a failed check. -/
theorem invoke_once (ids : Iids) (qi : Nat → GUID → Nat) (m : Mocks) (hf : m.fresh)
    (k : Nat)
    (hk : ∀ (n : Mocks) (d : Callback), d.kind = k →
      (∀ b, b ∈ (invoke ids qi n d).oks → b = true) → n.called k = false)
    (pre post : List Callback) (d : Callback) (hd : d.kind = k)
    (hok : ∀ b, b ∈ (invoke_all ids qi m (pre ++ d :: post)).oks → b = true) :
    (∀ c, c ∈ pre → c.kind ≠ k) ∧ (∀ c, c ∈ post → c.kind ≠ k) := by
  constructor
  · obtain ⟨h1, h2, _⟩ := invoke_all_at ids qi m hf pre post d hok
    have h3 := hk _ d hd h1
    rw [h2] at h3
    exact (any_kind_false pre k).mp h3
  · intro c hc hck
    obtain ⟨p1, p2, e⟩ := List.append_of_mem hc
    have e2 : pre ++ d :: post = (pre ++ d :: p1) ++ c :: p2 := by
      rw [e]; simp
    rw [e2] at hok
    obtain ⟨h1, h2, _⟩ := invoke_all_at ids qi m hf (pre ++ d :: p1) p2 c hok
    have h3 := hk _ c hck h1
    rw [h2] at h3
    exact (any_kind_false _ k).mp h3 d (by simp) hd

/-- C22: in a run of the mock callbacks that starts with all flags FALSE and in which
every recorded check holds, each call of custom_factory_OnGameControllerAdded is made with
create_controller TRUE, is preceded by calls of custom_factory_CreateGameController,
controller_Initialize, input_sink_OnInputResumed and of the handler controller_added, is
preceded by no call of input_sink_OnInputSuspended, and is the only one of the run;
custom_factory_CreateGameController and input_sink_OnInputResumed are each called at most
once, and never after a call of the handler controller_added. -/
theorem C22_callback_order (ids : Iids) (qi : Nat → GUID → Nat) (m : Mocks)
    (tr : List Callback) (hf : m.fresh)
    (hok : ∀ b, b ∈ (invoke_all ids qi m tr).oks → b = true) :
    (∀ pre v post, tr = pre ++ Callback.OnGameControllerAdded v :: post →
      m.custom_factory.create_controller = true ∧
      (∃ p, Callback.CreateGameController p ∈ pre) ∧
      (∃ o p, Callback.Initialize o p ∈ pre) ∧
      (∃ t, Callback.OnInputResumed t ∈ pre) ∧
      (∃ s c, Callback.AddedInvoke s c ∈ pre) ∧
      (∀ t, Callback.OnInputSuspended t ∉ pre) ∧
      (∀ w, Callback.OnGameControllerAdded w ∉ pre) ∧
      (∀ w, Callback.OnGameControllerAdded w ∉ post)) ∧
    (∀ pre p post, tr = pre ++ Callback.CreateGameController p :: post →
      (∀ q, Callback.CreateGameController q ∉ pre) ∧
      (∀ q, Callback.CreateGameController q ∉ post) ∧
      (∀ s c, Callback.AddedInvoke s c ∉ pre)) ∧
    (∀ pre t post, tr = pre ++ Callback.OnInputResumed t :: post →
      (∀ u, Callback.OnInputResumed u ∉ pre) ∧
      (∀ u, Callback.OnInputResumed u ∉ post) ∧
      (∀ s c, Callback.AddedInvoke s c ∉ pre)) := by
  refine ⟨?_, ?_, ?_⟩
  · intro pre v post e
    subst e
    obtain ⟨h1, h2, h3⟩ := invoke_all_at ids qi m hf pre post _ hok
    obtain ⟨a4, a0, ac, a1, a2, a3, a5⟩ := added_checks ids qi _ v h1
    rw [h2] at a4 a0 a1 a2 a3 a5
    rw [h3] at ac
    obtain ⟨o1, o2⟩ := invoke_once ids qi m hf 5
      (fun n d hd hb => by
        cases d <;> simp [Callback.kind] at hd
        exact (added_checks ids qi n _ hb).2.2.2.2.2.2)
      pre post (Callback.OnGameControllerAdded v) rfl hok
    refine ⟨ac, ?_, ?_, ?_, ?_, ?_, ?_, ?_⟩
    · obtain ⟨d, hd, hk⟩ := (any_kind_true pre 0).mp a0
      cases d
      all_goals first | exact ⟨_, hd⟩ | simp [Callback.kind] at hk
    · obtain ⟨d, hd, hk⟩ := (any_kind_true pre 1).mp a1
      cases d
      all_goals first | exact ⟨_, _, hd⟩ | simp [Callback.kind] at hk
    · obtain ⟨d, hd, hk⟩ := (any_kind_true pre 2).mp a2
      cases d
      all_goals first | exact ⟨_, hd⟩ | simp [Callback.kind] at hk
    · obtain ⟨d, hd, hk⟩ := (any_kind_true pre 4).mp a4
      cases d
      all_goals first | exact ⟨_, _, hd⟩ | simp [Callback.kind] at hk
    · intro t ht
      exact (any_kind_false pre 3).mp a3 _ ht rfl
    · intro w hw
      exact o1 _ hw rfl
    · intro w hw
      exact o2 _ hw rfl
  · intro pre p post e
    subst e
    obtain ⟨h1, h2, _⟩ := invoke_all_at ids qi m hf pre post _ hok
    obtain ⟨a4, _⟩ := create_checks ids qi _ p h1
    rw [h2] at a4
    obtain ⟨o1, o2⟩ := invoke_once ids qi m hf 0
      (fun n d hd hb => by
        cases d <;> simp [Callback.kind] at hd
        exact (create_checks ids qi n _ hb).2)
      pre post (Callback.CreateGameController p) rfl hok
    exact ⟨fun q hq => o1 _ hq rfl, fun q hq => o2 _ hq rfl,
      fun s c hs => (any_kind_false pre 4).mp a4 _ hs rfl⟩
  · intro pre t post e
    subst e
    obtain ⟨h1, h2, _⟩ := invoke_all_at ids qi m hf pre post _ hok
    obtain ⟨a4, _⟩ := resumed_checks ids qi _ t h1
    rw [h2] at a4
    obtain ⟨o1, o2⟩ := invoke_once ids qi m hf 2
      (fun n d hd hb => by
        cases d <;> simp [Callback.kind] at hd
        exact (resumed_checks ids qi n _ hb).2)
      pre post (Callback.OnInputResumed t) rfl hok
    exact ⟨fun q hq => o1 _ hq rfl, fun q hq => o2 _ hq rfl,
      fun s c hs => (any_kind_false pre 4).mp a4 _ hs rfl⟩

/-- Witness for C22: the callbacks of a device arrival on the sample objects, in the
order CreateGameController, Initialize, OnInputResumed, handler, OnGameControllerAdded:
no check fails and the conditions on the call of OnGameControllerAdded hold. -/
theorem C22_callback_order_witness :
    sample_mocks.fresh ∧
    (∀ b, b ∈ (invoke_all sample_iids sample_qi sample_mocks sample_trace).oks → b = true) ∧
    (invoke_all sample_iids sample_qi sample_mocks sample_trace).oks.length = 31 ∧
    (sample_mocks.custom_factory.create_controller = true ∧
      (∃ p, Callback.CreateGameController p ∈ sample_trace.take 4) ∧
      (∃ o p, Callback.Initialize o p ∈ sample_trace.take 4) ∧
      (∃ t, Callback.OnInputResumed t ∈ sample_trace.take 4) ∧
      (∃ s c, Callback.AddedInvoke s c ∈ sample_trace.take 4) ∧
      (∀ t, Callback.OnInputSuspended t ∉ sample_trace.take 4) ∧
      (∀ w, Callback.OnGameControllerAdded w ∉ sample_trace.take 4) ∧
      (∀ w, Callback.OnGameControllerAdded w ∉ ([] : List Callback))) :=
  ⟨by decide, by decide, by decide,
    (C22_callback_order sample_iids sample_qi sample_mocks sample_trace (by decide)
      (by decide)).1 (sample_trace.take 4) 600 [] rfl⟩

/-! ## The claims on msg_wait_for_events_ -/

/-- What a returning run of the loop of msg_wait_for_events_ has seen: the result is the
first wait result different from `count`, and when it is below `count` the log ends with
that wait and the dispatch of the whole queue found after it. -/
theorem msg_wait_loop_spec (count end_ : Nat) :
    ∀ (waits : List Nat) (timeout : Nat) (ticks : List Nat) (queues : List (List Nat))
      (log : List Event) (r : WaitResult),
      msg_wait_loop count end_ timeout waits ticks queues log = some r →
      ∃ k : Nat, waits[k]? = some r.ret ∧ (∀ j, j < k → waits[j]? = some count) ∧
        r.ret ≠ count ∧
        (r.ret < count → ∃ (q : List Nat) (pre : List Event) (t : Nat), queues[k]? = some q ∧
            r.log = pre ++ Event.wait t r.ret :: q.map Event.dispatch ∧ r.oks = []) ∧
        (count < r.ret → ∃ pre t, r.log = pre ++ [Event.wait t r.ret] ∧
            r.oks.length = 1) := by
  intro waits
  induction waits with
  | nil =>
    intro timeout ticks queues log r h
    simp [msg_wait_loop] at h
  | cons ret ws ih =>
    intro timeout ticks queues log r h
    have step : ∀ (q : List Nat) (qs : List (List Nat)), queues = q :: qs → ret = count →
        (∃ k : Nat, ws[k]? = some r.ret ∧ (∀ j, j < k → ws[j]? = some count) ∧
          r.ret ≠ count ∧
          (r.ret < count → ∃ (q : List Nat) (pre : List Event) (t : Nat), qs[k]? = some q ∧
              r.log = pre ++ Event.wait t r.ret :: q.map Event.dispatch ∧ r.oks = []) ∧
          (count < r.ret → ∃ pre t, r.log = pre ++ [Event.wait t r.ret] ∧
              r.oks.length = 1)) →
        ∃ k : Nat, (ret :: ws)[k]? = some r.ret ∧ (∀ j, j < k → (ret :: ws)[j]? = some count) ∧
          r.ret ≠ count ∧
          (r.ret < count → ∃ (q : List Nat) (pre : List Event) (t : Nat), queues[k]? = some q ∧
              r.log = pre ++ Event.wait t r.ret :: q.map Event.dispatch ∧ r.oks = []) ∧
          (count < r.ret → ∃ pre t, r.log = pre ++ [Event.wait t r.ret] ∧
              r.oks.length = 1) := by
      rintro q qs hq hret ⟨k, h1, h2, h3, h4, h5⟩
      refine ⟨k + 1, by simpa using h1, ?_, h3, ?_, h5⟩
      · intro j hj
        cases j with
        | zero => simp [hret]
        | succ j => simpa using h2 j (by omega)
      · intro hlt
        obtain ⟨q1, pre, t, e1, e2, e3⟩ := h4 hlt
        exact ⟨q1, pre, t, by rw [hq]; simpa using e1, e2, e3⟩
    rw [msg_wait_loop.eq_def] at h
    simp only at h
    by_cases hle : ret ≤ count
    · rw [if_pos hle] at h
      cases queues with
      | nil => simp at h
      | cons q qs =>
        simp only at h
        by_cases hlt : ret < count
        · rw [if_pos hlt] at h
          simp only [Option.some.injEq] at h
          subst h
          refine ⟨0, by simp, fun j hj => absurd hj (by omega), by
            simp only; omega, ?_, ?_⟩
          · intro _
            exact ⟨q, log, min timeout 5000, by simp, by simp, rfl⟩
          · intro hc
            simp only at hc
            omega
        · rw [if_neg hlt] at h
          have hret : ret = count := by omega
          by_cases ht : timeout ≥ 5000
          · rw [if_pos ht] at h
            exact step q qs rfl hret (ih _ _ _ _ _ h)
          · rw [if_neg ht] at h
            cases ticks with
            | nil => simp at h
            | cons t1 ticks1 =>
              simp only at h
              by_cases he : end_ ≤ t1
              · rw [if_pos he] at h
                exact step q qs rfl hret (ih _ _ _ _ _ h)
              · rw [if_neg he] at h
                cases ticks1 with
                | nil => simp at h
                | cons t2 ticks2 =>
                  simp only at h
                  exact step q qs rfl hret (ih _ _ _ _ _ h)
    · rw [if_neg hle] at h
      simp only [Option.some.injEq] at h
      subst h
      refine ⟨0, by simp, fun j hj => absurd hj (by omega), by simp only; omega, ?_, ?_⟩
      · intro hc
        simp only at hc
        omega
      · intro _
        exact ⟨log, min timeout 5000, rfl, rfl⟩

/-- The loop of msg_wait_for_events_ returns the first wait result different from `count`
when the surroundings provide a message queue for each wake-up and two tick counts for
each but the last. -/
theorem msg_wait_loop_returns (count end_ : Nat) :
    ∀ (waits : List Nat) (timeout : Nat) (ticks : List Nat) (queues : List (List Nat))
      (log : List Event) (k x : Nat),
      (∀ j, j < k → waits[j]? = some count) → waits[k]? = some x → x ≠ count →
      k < queues.length → 2 * k ≤ ticks.length →
      ∃ r, msg_wait_loop count end_ timeout waits ticks queues log = some r ∧ r.ret = x := by
  intro waits
  induction waits with
  | nil =>
    intro timeout ticks queues log k x _ hx
    simp at hx
  | cons ret ws ih =>
    intro timeout ticks queues log k x hall hx hne hq ht
    rw [msg_wait_loop.eq_def]
    simp only
    cases k with
    | zero =>
      simp only [List.getElem?_cons_zero, Option.some.injEq] at hx
      subst hx
      by_cases hle : ret ≤ count
      · rw [if_pos hle]
        cases queues with
        | nil => simp at hq
        | cons q qs =>
          simp only
          rw [if_pos (by omega)]
          exact ⟨_, rfl, rfl⟩
      · rw [if_neg hle]
        exact ⟨_, rfl, rfl⟩
    | succ k =>
      have h0 := hall 0 (by omega)
      simp only [List.getElem?_cons_zero, Option.some.injEq] at h0
      subst h0
      have hall1 : ∀ j, j < k → ws[j]? = some ret := by
        intro j hj
        simpa using hall (j + 1) (by omega)
      have hx1 : ws[k]? = some x := by simpa using hx
      rw [if_pos (Nat.le_refl _)]
      cases queues with
      | nil => simp at hq
      | cons q qs =>
        simp only
        rw [if_neg (Nat.lt_irrefl _)]
        have hq1 : k < qs.length := by simpa using hq
        by_cases h5 : timeout ≥ 5000
        · rw [if_pos h5]
          exact ih _ _ _ _ k x hall1 hx1 hne hq1 (by omega)
        · rw [if_neg h5]
          cases ticks with
          | nil => simp at ht
          | cons t1 ticks1 =>
            cases ticks1 with
            | nil => simp at ht; omega
            | cons t2 ticks2 =>
              simp only
              have hl : 2 * k ≤ ticks2.length := by
                simp only [List.length_cons] at ht
                omega
              by_cases he : end_ ≤ t1
              · rw [if_pos he]
                exact ih _ _ _ _ k x hall1 hx1 hne hq1 (by simp only [List.length_cons]; omega)
              · rw [if_neg he]
                exact ih _ _ _ _ k x hall1 hx1 hne hq1 hl

/-- With a time-out of 5000 ms or more the loop never recomputes it: every wait is for
5000 ms and a return without a signalled event records a failure. -/
theorem msg_wait_loop_long (count end_ : Nat) :
    ∀ (waits : List Nat) (timeout : Nat) (ticks : List Nat) (queues : List (List Nat))
      (log : List Event) (r : WaitResult), 5000 ≤ timeout →
      msg_wait_loop count end_ timeout waits ticks queues log = some r →
      (count < r.ret → r.oks = [false]) ∧
      (∀ t x, Event.wait t x ∈ r.log → Event.wait t x ∈ log ∨ t = 5000) := by
  intro waits
  induction waits with
  | nil =>
    intro timeout ticks queues log r _ h
    simp [msg_wait_loop] at h
  | cons ret ws ih =>
    intro timeout ticks queues log r h5 h
    have hmin : min timeout 5000 = 5000 := by omega
    rw [msg_wait_loop.eq_def] at h
    simp only at h
    by_cases hle : ret ≤ count
    · rw [if_pos hle] at h
      cases queues with
      | nil => simp at h
      | cons q qs =>
        simp only at h
        by_cases hlt : ret < count
        · rw [if_pos hlt] at h
          simp only [Option.some.injEq] at h
          subst h
          refine ⟨fun hc => ?_, ?_⟩
          · simp only at hc
            omega
          · intro t x hm
            simp only [List.mem_append, List.mem_singleton, List.mem_map, Event.wait.injEq]
              at hm
            rcases hm with (hm | hm) | hm
            · exact Or.inl hm
            · exact Or.inr (by omega)
            · obtain ⟨a, _, ha⟩ := hm
              exact absurd ha (by simp)
        · rw [if_neg hlt, if_pos h5] at h
          obtain ⟨a1, a2⟩ := ih _ _ _ _ r h5 h
          refine ⟨a1, ?_⟩
          intro t x hm
          rcases a2 t x hm with hm | hm
          · simp only [List.mem_append, List.mem_singleton, List.mem_map, Event.wait.injEq]
              at hm
            rcases hm with (hm | hm) | hm
            · exact Or.inl hm
            · exact Or.inr (by omega)
            · obtain ⟨a, _, ha⟩ := hm
              exact absurd ha (by simp)
          · exact Or.inr hm
    · rw [if_neg hle] at h
      simp only [Option.some.injEq] at h
      subst h
      refine ⟨fun _ => by simp [h5], ?_⟩
      intro t x hm
      simp only [List.mem_append, List.mem_singleton, Event.wait.injEq] at hm
      rcases hm with hm | hm
      · exact Or.inl hm
      · exact Or.inr (by omega)

/-- C28: whenever msg_wait_for_events_ returns, the value returned is the first result of
MsgWaitForMultipleObjects that differs from `count`, so it is below `count` or above it
and never `count` itself; when it is below `count` the last things done are that wait and
the dispatch of every message of the queue found after it. The function does return such
a value when the surroundings provide a tick count and a message queue for every call the
loop makes. -/
theorem C28_never_returns_count (count : Nat) (events : List Nat) (timeout : Nat)
    (waits ticks : List Nat) (queues : List (List Nat)) :
    (∀ r, msg_wait_for_events_ count events timeout waits ticks queues = some r →
      r.ret ≠ count ∧ (r.ret < count ∨ count < r.ret) ∧
      (∃ k : Nat, waits[k]? = some r.ret ∧ (∀ j, j < k → waits[j]? = some count) ∧
        (r.ret < count → ∃ (q : List Nat) (pre : List Event) (t : Nat), queues[k]? = some q ∧
          r.log = pre ++ Event.wait t r.ret :: q.map Event.dispatch))) ∧
    (∀ k x, (∀ j, j < k → waits[j]? = some count) → waits[k]? = some x → x ≠ count →
      k < queues.length → 2 * k < ticks.length →
      ∃ r, msg_wait_for_events_ count events timeout waits ticks queues = some r ∧
        r.ret = x) := by
  constructor
  · intro r h
    unfold msg_wait_for_events_ at h
    cases ticks with
    | nil => simp at h
    | cons t0 ticks1 =>
      simp only at h
      obtain ⟨k, h1, h2, h3, h4, _⟩ := msg_wait_loop_spec _ _ _ _ _ _ _ r h
      refine ⟨h3, by omega, k, h1, h2, ?_⟩
      intro hlt
      obtain ⟨q, pre, t, e1, e2, _⟩ := h4 hlt
      exact ⟨q, pre, t, e1, e2⟩
  · intro k x hall hx hne hq ht
    unfold msg_wait_for_events_
    cases ticks with
    | nil => simp at ht
    | cons t0 ticks1 =>
      simp only
      exact msg_wait_loop_returns _ _ _ _ _ _ _ k x hall hx hne hq
        (by simp only [List.length_cons] at ht; omega)

/-- Witness for C28: one event, two wake-ups for messages (queues 31, 32 and 33), then
the event signalled with the message 34 pending. -/
theorem C28_never_returns_count_witness :
    msg_wait_for_events_ 1 [42] 5000 [1, 1, 0] [0, 10, 10, 20, 20] [[31, 32], [33], [34]]
      = some ⟨0, [Event.wait 5000 1, Event.dispatch 31, Event.dispatch 32, Event.wait 5000 1,
          Event.dispatch 33, Event.wait 5000 0, Event.dispatch 34], []⟩ ∧
    (0 : Nat) ≠ 1 :=
  ⟨by decide,
    ((C28_never_returns_count 1 [42] 5000 [1, 1, 0] [0, 10, 10, 20, 20]
      [[31, 32], [33], [34]]).1 ⟨0, [Event.wait 5000 1, Event.dispatch 31, Event.dispatch 32,
        Event.wait 5000 1, Event.dispatch 33, Event.wait 5000 0, Event.dispatch 34], []⟩
      (by decide)).1⟩

/-- C29: the remaining time-out that msg_wait_for_events_ recomputes does not stay below
5000. With one event, a caller time-out of 100 ms, a wake-up for messages and then
WAIT_TIMEOUT: when the tick count passes `end` between the two GetTickCount calls of one
iteration (93, then 109, with `end` = 100), or when the tick count has wrapped to a small
value (5, with `end` = 2^32 - 10), `end - GetTickCount()` wraps to a DWORD near 2^32; the
next wait is for 5000 ms and the final check is the unconditional failure although the
result is WAIT_TIMEOUT and the caller asked for 100 ms. -/
theorem C29_remaining_timeout_wraps :
    msg_wait_for_events_ 1 [42] 100 [1, WAIT_TIMEOUT] [0, 93, 109] [[]]
      = some ⟨WAIT_TIMEOUT, [Event.wait 100 1, Event.wait 5000 WAIT_TIMEOUT], [false]⟩ ∧
    msg_wait_for_events_ 1 [42] 100 [1, WAIT_TIMEOUT] [2 ^ 32 - 110, 5, 5] [[]]
      = some ⟨WAIT_TIMEOUT, [Event.wait 100 1, Event.wait 5000 WAIT_TIMEOUT], [false]⟩ ∧
    msg_wait_for_events_ 1 [42] 100 [1, WAIT_TIMEOUT] [0, 93, 93] [[]]
      = some ⟨WAIT_TIMEOUT, [Event.wait 100 1, Event.wait 7 WAIT_TIMEOUT], [true]⟩ := by
  refine ⟨by decide, by decide, by decide⟩

end Hotplug
